import Mathlib

/-!
# jSSC-Ex 2.9 native serial-port layer: embedding and verified properties

Shallow embedding of the two native backends of `jSSC-Ex-2.9/cpp`:

* `_nix_based/jsscex.cpp` (namespace `Posix`),
* `windows/jsscex.cpp` (namespace `Windows`).

Native calls (`open`, `tcgetattr`, `ioctl`, `CreateFile`, `GetCommState`, ...)
are not part of the repository.  Each function of the source is embedded as a
pure function of

* its arguments,
* the answers the operating system gives to the native calls it issues
  (a record of outcomes, universally quantified in the theorems), and
* where it matters, the device state before the call,

and returns its result together with the list of native calls it issued, in
program order, and the device state after the call.

Machine integers: `jint`, `jlong` and `int` values are `Int`; flag words
(`tcflag_t`, the modem-status word, `DWORD`) are bit patterns in `Nat`, and
`x &= ~m` on a 32-bit word is `clearBits x m`.
-/

/-! ## Error codes (`jsscex_SerialNativeInterface.h`) -/

def ERR_PORT_BUSY : Int := -1
def ERR_PORT_NOT_FOUND : Int := -2
def ERR_PERMISSION_DENIED : Int := -3
def ERR_INCORRECT_SERIAL_PORT : Int := -4
def ERR_PORT_NOT_OPENED : Int := -5
def ERR_PORT_OPENED : Int := -6

/-- The six error codes an open or a port check may return. -/
def errorCodes : List Int :=
  [ERR_PORT_BUSY, ERR_PORT_NOT_FOUND, ERR_PERMISSION_DENIED,
   ERR_INCORRECT_SERIAL_PORT, ERR_PORT_NOT_OPENED, ERR_PORT_OPENED]

/-! ## 32-bit flag words -/

/-- The C statement `x |= m`. -/
def setBits (x m : Nat) : Nat := x ||| m

/-- The C statement `x &= ~m` on a 32-bit word. -/
def clearBits (x m : Nat) : Nat := x &&& (4294967295 ^^^ m)

/-- The C test `if (x & m)`. -/
def anySet (x m : Nat) : Bool := (x &&& m) != 0

/-- The C test `(x & m) == m`. -/
def allSet (x m : Nat) : Bool := (x &&& m) == m

/-- The 32-bit two's-complement pattern of a `jint`. -/
def toU32 (x : Int) : Nat := (x % 4294967296).toNat

/-! ## POSIX backend: opening a port -/

namespace Posix

/-- Conditional compilation: the operating-system branch taken by `#ifdef`. -/
inductive OS
  | linux
  | sunos
  | apple
  | other
deriving DecidableEq, Repr

/-- Build configuration: which optional macros of the platform headers exist.
`hasExtraParity` says whether `PAREXT` or `CMSPAR` is defined. -/
structure Build where
  os : OS
  hasExtraParity : Bool
  hasTIOCEXCL : Bool
  hasIUCLC : Bool
deriving DecidableEq, Repr

/-- Values of `errno` from `<errno.h>` (Linux). -/
def EBUSY : Int := 16
def ENOENT : Int := 2
def EACCES : Int := 13

/-- Value of `O_NDELAY` from `<fcntl.h>` (Linux). -/
def O_NDELAY : Nat := 2048

/-- Native calls issued by `openPort`, in the order they are recorded. -/
inductive OpenCall
  | openDev
  | tcgetattr (fd : Int)
  | tiocexcl (fd : Int)
  | fcntlGetfl (fd : Int)
  | fcntlSetfl (fd : Int) (flags : Nat)
  | close (fd : Int)
deriving DecidableEq, Repr

/-- Answers of the operating system to the native calls of `openPort`. -/
structure OpenNative where
  /-- the descriptor when `open` succeeds, `none` when it fails -/
  opened : Option Nat
  /-- value of `errno` left by a failed `open` -/
  errno : Int
  /-- whether `tcgetattr` on the new descriptor returns 0 -/
  tcgetattrOk : Bool
  /-- file status flags returned by `fcntl(F_GETFL)` -/
  getfl : Nat
deriving DecidableEq, Repr

/-- The value `open` returns: the descriptor, or `-1` on failure. -/
def OpenNative.openResult (n : OpenNative) : Int :=
  match n.opened with
  | some fd => (fd : Int)
  | none => -1

/-- Embedding of `Java_jsscex_SerialNativeInterface_openPort` (`_nix_based/jsscex.cpp`,
lines 77-111):
the returned `jlong` and the native calls issued. -/
def openPort (b : Build) (n : OpenNative) (useTIOCEXCL : Bool) : Int × List OpenCall :=
  let hComm := n.openResult
  if hComm ≠ -1 then
    if n.tcgetattrOk then
      let excl := if b.hasTIOCEXCL && useTIOCEXCL then [OpenCall.tiocexcl hComm] else []
      (hComm,
        [OpenCall.openDev, OpenCall.tcgetattr hComm] ++ excl ++
        [OpenCall.fcntlGetfl hComm, OpenCall.fcntlSetfl hComm (clearBits n.getfl O_NDELAY)])
    else
      (ERR_INCORRECT_SERIAL_PORT,
        [OpenCall.openDev, OpenCall.tcgetattr hComm, OpenCall.close hComm])
  else
    if n.errno = EBUSY then (ERR_PORT_BUSY, [OpenCall.openDev])
    else if n.errno = ENOENT then (ERR_PORT_NOT_FOUND, [OpenCall.openDev])
    else if n.errno = EACCES then (ERR_PERMISSION_DENIED, [OpenCall.openDev])
    else (ERR_PORT_NOT_FOUND, [OpenCall.openDev])

end Posix

/-! ## Windows backend: opening a port -/

namespace Windows

/-- Value of `INVALID_HANDLE_VALUE` from `<windows.h>`, as a `jlong`. -/
def INVALID_HANDLE_VALUE : Int := -1

/-- System error codes of `<winerror.h>`. -/
def ERROR_FILE_NOT_FOUND : Nat := 2
def ERROR_ACCESS_DENIED : Nat := 5

/-- Native calls issued by `openPort` and `checkPort`. -/
inductive OpenCall
  | createFile
  | getCommState (h : Int)
  | closeHandle (h : Int)
deriving DecidableEq, Repr

/-- Answers of the operating system to the native calls of `openPort`. -/
structure OpenNative where
  /-- the handle when `CreateFile` succeeds, `none` when it fails -/
  created : Option Nat
  /-- value of `GetLastError()` after a failed `CreateFile` -/
  lastError : Nat
  /-- whether `GetCommState` on the new handle succeeds -/
  getCommStateOk : Bool
deriving DecidableEq, Repr

/-- The value `CreateFile` returns: the handle, or `INVALID_HANDLE_VALUE` on failure. -/
def OpenNative.createFile (n : OpenNative) : Int :=
  match n.created with
  | some h => (h : Int)
  | none => INVALID_HANDLE_VALUE

/-- Embedding of `Java_jsscex_SerialNativeInterface_openPort` (`windows/jsscex.cpp`,
lines 58-97):
the returned `jlong` and the native calls issued. -/
def openPort (n : OpenNative) : Int × List OpenCall :=
  let hComm := n.createFile
  if hComm ≠ INVALID_HANDLE_VALUE then
    if !n.getCommStateOk then
      (ERR_INCORRECT_SERIAL_PORT,
        [OpenCall.createFile, OpenCall.getCommState hComm, OpenCall.closeHandle hComm])
    else
      (hComm, [OpenCall.createFile, OpenCall.getCommState hComm])
  else
    let errorValue := n.lastError
    if errorValue = ERROR_ACCESS_DENIED then (ERR_PORT_BUSY, [OpenCall.createFile])
    else if errorValue = ERROR_FILE_NOT_FOUND then (ERR_PORT_NOT_FOUND, [OpenCall.createFile])
    else (ERR_PORT_NOT_OPENED, [OpenCall.createFile])

end Windows

/-! ## POSIX backend: port parameters -/

namespace Posix

/-! Flag values of `<asm-generic/termbits.h>`, `<asm-generic/termios.h>` and
`<linux/serial.h>` (Linux). -/

def IGNBRK : Nat := 1
def BRKINT : Nat := 2
def IGNPAR : Nat := 4
def PARMRK : Nat := 8
def INPCK : Nat := 16
def ISTRIP : Nat := 32
def INLCR : Nat := 64
def IGNCR : Nat := 128
def ICRNL : Nat := 256
def IUCLC : Nat := 512
def IXON : Nat := 1024
def IXANY : Nat := 2048
def IXOFF : Nat := 4096

def OPOST : Nat := 1

def CSIZE : Nat := 48
def CS5 : Int := 0
def CS6 : Int := 16
def CS7 : Int := 32
def CS8 : Int := 48
def CSTOPB : Nat := 64
def CREAD : Nat := 128
def PARENB : Nat := 256
def PARODD : Nat := 512
def CLOCAL : Nat := 2048
/-- The extra-parity bit: `CMSPAR` (`PAREXT` plays this role on Solaris). -/
def CMSPAR : Nat := 1073741824
def CRTSCTS : Nat := 2147483648

def ISIG : Nat := 1
def ICANON : Nat := 2
def ECHO : Nat := 8
def ECHOE : Nat := 16
def ECHOK : Nat := 32
def ECHONL : Nat := 64
def ECHOCTL : Nat := 512
def ECHOPRT : Nat := 1024
def ECHOKE : Nat := 2048
def IEXTEN : Nat := 32768

def TIOCM_DTR : Nat := 2
def TIOCM_RTS : Nat := 4

def ASYNC_SPD_CUST : Nat := 48

def B38400 : Nat := 15

/-- The value `(speed_t)-1` that `getBaudRateByNum` returns for a rate outside the table. -/
def NO_BAUD : Nat := 4294967295

/-- The build of the library on Linux: `CMSPAR`, `TIOCEXCL` and `IUCLC` exist. -/
def linuxBuild : Build :=
  { os := OS.linux, hasExtraParity := true, hasTIOCEXCL := true, hasIUCLC := true }

/-- Embedding of `getBaudRateByNum` (lines 117-217), with the `B*` constants of Linux. -/
def getBaudRateByNum (baudRate : Int) : Nat :=
  if baudRate = 0 then 0
  else if baudRate = 50 then 1
  else if baudRate = 75 then 2
  else if baudRate = 110 then 3
  else if baudRate = 134 then 4
  else if baudRate = 150 then 5
  else if baudRate = 200 then 6
  else if baudRate = 300 then 7
  else if baudRate = 600 then 8
  else if baudRate = 1200 then 9
  else if baudRate = 1800 then 10
  else if baudRate = 2400 then 11
  else if baudRate = 4800 then 12
  else if baudRate = 9600 then 13
  else if baudRate = 19200 then 14
  else if baudRate = 38400 then B38400
  else if baudRate = 57600 then 4097
  else if baudRate = 115200 then 4098
  else if baudRate = 230400 then 4099
  else if baudRate = 460800 then 4100
  else if baudRate = 500000 then 4101
  else if baudRate = 576000 then 4102
  else if baudRate = 921600 then 4103
  else if baudRate = 1000000 then 4104
  else if baudRate = 1152000 then 4105
  else if baudRate = 1500000 then 4106
  else if baudRate = 2000000 then 4107
  else if baudRate = 2500000 then 4108
  else if baudRate = 3000000 then 4109
  else if baudRate = 3500000 then 4110
  else if baudRate = 4000000 then 4111
  else NO_BAUD

/-- Embedding of `getDataBitsByNum` (lines 223-236). -/
def getDataBitsByNum (byteSize : Int) : Int :=
  if byteSize = 5 then CS5
  else if byteSize = 6 then CS6
  else if byteSize = 7 then CS7
  else if byteSize = 8 then CS8
  else -1

def PARAMS_FLAG_IGNPAR : Nat := 1
def PARAMS_FLAG_PARMRK : Nat := 2

/-- The fields of `struct termios` the library reads or writes. -/
structure Termios where
  c_iflag : Nat
  c_oflag : Nat
  c_cflag : Nat
  c_lflag : Nat
  /-- the control character `c_cc[VMIN]` -/
  vmin : Nat
  /-- the control character `c_cc[VTIME]` -/
  vtime : Nat
  /-- the other control characters -/
  cc_rest : List Nat
  c_ispeed : Nat
  c_ospeed : Nat
deriving DecidableEq, Repr

/-- What `new termios()` yields: a zero-initialised structure. -/
def Termios.zero : Termios :=
  { c_iflag := 0, c_oflag := 0, c_cflag := 0, c_lflag := 0, vmin := 0, vtime := 0,
    cc_rest := [], c_ispeed := 0, c_ospeed := 0 }

/-- The fields of `struct serial_struct` the library reads or writes; `custom_divisor`
and `baud_base` are `int` fields. -/
structure SerialStruct where
  flags : Nat
  custom_divisor : Int
  baud_base : Int
deriving DecidableEq, Repr

/-- State of the serial line behind a descriptor. -/
structure Device where
  /-- the termios settings in effect -/
  line : Termios
  /-- the driver's `serial_struct` -/
  serial : SerialStruct
  /-- the modem-control word -/
  modem : Nat
deriving DecidableEq, Repr

/-- Native calls on an open descriptor, as recorded in program order. -/
inductive Call
  | tcgetattr
  | tiocgserial
  | tiocsserial (info : SerialStruct)
  | tcsetattr (settings : Termios)
  | iossiospeed (speed : Nat)
  | tiocmget
  | tiocmset (status : Nat)
deriving DecidableEq, Repr

/-- The native calls that change the state of the device. -/
def Call.mutating : Call → Bool
  | Call.tiocsserial _ => true
  | Call.tcsetattr _ => true
  | Call.iossiospeed _ => true
  | Call.tiocmset _ => true
  | _ => false

/-- Whether the call is a `tcsetattr`. -/
def Call.isTcsetattr : Call → Bool
  | Call.tcsetattr _ => true
  | _ => false

/-- Whether the call is the modem-control write `ioctl(TIOCMSET)`. -/
def Call.isTiocmset : Call → Bool
  | Call.tiocmset _ => true
  | _ => false

/-- Whether the call is the custom-divisor request `ioctl(TIOCSSERIAL)`. -/
def Call.isTiocsserial : Call → Bool
  | Call.tiocsserial _ => true
  | _ => false

/-- Answers of the operating system and of the C library to the calls of `setParams`.
`cfsetispeed` and `cfsetospeed` work on the local structure only: they return the
updated structure, or `none` when they report an error. -/
structure Native where
  tcgetattrOk : Bool
  cfsetispeed : Termios → Nat → Option Termios
  cfsetospeed : Termios → Nat → Option Termios
  tiocgserialOk : Bool
  tiocsserialOk : Bool
  tcsetattrOk : Bool
  iossiospeedOk : Bool
  tiocmgetOk : Bool
  tiocmsetOk : Bool

/-- What a call of the library leaves behind: the returned `jboolean`, the device
state and the native calls issued.  `trapped` is set when the call did not return
because an arithmetic trap (SIGFPE) stopped the process; `ret` is then not a returned
value. -/
structure Result where
  ret : Bool
  dev : Device
  calls : List Call
  trapped : Bool := false
deriving DecidableEq, Repr

/-- The C division `a / b` of two `int`s: the quotient truncated toward zero.  It is
`none` where the division is undefined and the processor raises an arithmetic trap: a
zero divisor, and `INT_MIN / -1`, whose quotient 2147483648 is not an `int`.  The
quotient of every other pair of `int`s is an `int`. -/
def intDiv (a b : Int) : Option Int :=
  if b = 0 ∨ (a = -2147483648 ∧ b = -1) then none else some (Int.tdiv a b)

/-- Lines 258 and 278 of `setParams`: `cfsetispeed(..) < 0 || cfsetospeed(..) < 0`;
`none` when one of the two reports an error (the second is not called when the first
fails). -/
def setSpeeds (n : Native) (s : Termios) (speed : Nat) : Option Termios :=
  match n.cfsetispeed s speed with
  | none => none
  | some s1 => n.cfsetospeed s1 speed

/-- Lines 266-287 of `setParams` (`__linux__`): the custom divisor for a baud rate
outside the table.  The first component is `none` when the source does not go on to the
data bits: it jumps to `methodEnd`, or the division of line 272 traps, in which case
the last component is `true`.  The quotient is the C division of the two `int`s
`serial_info->baud_base` and `baudRate`. -/
def customBaud (n : Native) (d : Device) (settings : Termios) (baudRate : Int) :
    Option Termios × Device × List Call × Bool :=
  if !n.tiocgserialOk then (none, d, [Call.tiocgserial], false)
  else
    match intDiv d.serial.baud_base baudRate with
    | none => (none, d, [Call.tiocgserial], true)
    | some q =>
      let info : SerialStruct :=
        { d.serial with
          flags := setBits d.serial.flags ASYNC_SPD_CUST
          custom_divisor := q }
      if info.custom_divisor = 0 then (none, d, [Call.tiocgserial], false)
      else
        match setSpeeds n { settings with c_cflag := setBits settings.c_cflag B38400 } B38400 with
        | none => (none, d, [Call.tiocgserial], false)
        | some s2 =>
          if !n.tiocsserialOk then
            (none, d, [Call.tiocgserial, Call.tiocsserial info], false)
          else
            (some s2, { d with serial := info }, [Call.tiocgserial, Call.tiocsserial info],
              false)

/-- Lines 254-290 of `setParams`: reading the settings and selecting the baud rate.
The first component is `none` when the source does not go on to the data bits: it
jumps to `methodEnd`, or the division of the custom-divisor path traps, in which case
the last component is `true`.  When `tcgetattr` fails the source goes on with the
zero-initialised structure. -/
def baudStage (b : Build) (n : Native) (d : Device) (baudRate : Int) :
    Option Termios × Device × List Call × Bool :=
  let baudRateValue := getBaudRateByNum baudRate
  if n.tcgetattrOk then
    let settings := d.line
    if baudRateValue ≠ NO_BAUD then
      (setSpeeds n settings baudRateValue, d, [Call.tcgetattr], false)
    else
      match b.os with
      | OS.sunos => (none, d, [Call.tcgetattr], false)
      | OS.linux =>
        let r := customBaud n d settings baudRate
        (r.1, r.2.1, Call.tcgetattr :: r.2.2.1, r.2.2.2)
      | _ => (some settings, d, [Call.tcgetattr], false)
  else
    (some Termios.zero, d, [Call.tcgetattr], false)

/-- Lines 292-298 of `setParams`: data bits. -/
def applyDataBits (s : Termios) (byteSize : Int) : Option Termios :=
  let dataBits := getDataBitsByNum byteSize
  if dataBits ≠ -1 then
    some { s with c_cflag := setBits (clearBits s.c_cflag CSIZE) dataBits.toNat }
  else none

/-- Lines 300-307 of `setParams`: stop bits. -/
def applyStopBits (s : Termios) (stopBits : Int) : Option Termios :=
  if stopBits = 0 then some { s with c_cflag := clearBits s.c_cflag CSTOPB }
  else if stopBits = 1 ∨ stopBits = 2 then some { s with c_cflag := setBits s.c_cflag CSTOPB }
  else none

/-- Lines 309-331 of `setParams`: raw mode, the extra flags, `VMIN` and `VTIME`. -/
def applyRaw (b : Build) (s : Termios) (flags : Int) : Termios :=
  let c := clearBits (setBits s.c_cflag (CREAD ||| CLOCAL)) CRTSCTS
  let l := clearBits s.c_lflag
    (ICANON ||| ECHO ||| ECHOE ||| ECHOK ||| ECHONL ||| ECHOCTL ||| ECHOPRT ||| ECHOKE |||
      ISIG ||| IEXTEN)
  let i0 := clearBits s.c_iflag
    (IXON ||| IXOFF ||| IXANY ||| INPCK ||| IGNPAR ||| PARMRK ||| ISTRIP ||| IGNBRK |||
      BRKINT ||| INLCR ||| IGNCR ||| ICRNL)
  let i1 := if b.hasIUCLC then clearBits i0 IUCLC else i0
  let o := clearBits s.c_oflag OPOST
  let i2 := if allSet (toU32 flags) PARAMS_FLAG_IGNPAR then setBits i1 IGNPAR else i1
  let i3 := if allSet (toU32 flags) PARAMS_FLAG_PARMRK then setBits i2 PARMRK else i2
  { s with c_cflag := c, c_lflag := l, c_iflag := i3, c_oflag := o, vmin := 0, vtime := 0 }

/-- Lines 333-367 of `setParams`: parity. -/
def applyParity (b : Build) (s : Termios) (parity : Int) : Option Termios :=
  let s0 : Termios :=
    if b.hasExtraParity then
      { s with c_cflag := clearBits s.c_cflag (PARENB ||| PARODD ||| CMSPAR) }
    else
      { s with c_cflag := clearBits s.c_cflag (PARENB ||| PARODD) }
  if parity = 1 then
    some { s0 with c_cflag := setBits s0.c_cflag (PARENB ||| PARODD)
                   c_iflag := setBits s0.c_iflag INPCK }
  else if parity = 2 then
    some { s0 with c_cflag := setBits s0.c_cflag PARENB
                   c_iflag := setBits s0.c_iflag INPCK }
  else if parity = 3 then
    if b.hasExtraParity then
      some { s0 with c_cflag := setBits s0.c_cflag (PARENB ||| PARODD ||| CMSPAR)
                     c_iflag := setBits s0.c_iflag INPCK }
    else some s0
  else if parity = 4 then
    if b.hasExtraParity then
      some { s0 with c_cflag := setBits s0.c_cflag (PARENB ||| CMSPAR)
                     c_iflag := setBits s0.c_iflag INPCK }
    else some s0
  else if parity = 0 then some s0
  else none

/-- Lines 292-367 of `setParams`: the settings built from the arguments, `none` when
the source jumps to `methodEnd`. -/
def buildSettings (b : Build) (s : Termios) (byteSize stopBits parity flags : Int) :
    Option Termios :=
  match applyDataBits s byteSize with
  | none => none
  | some s1 =>
    match applyStopBits s1 stopBits with
    | none => none
    | some s2 => applyParity b (applyRaw b s2 flags) parity

/-- Lines 379-394 of `setParams`: the RTS and DTR levels. -/
def modemStage (n : Native) (d : Device) (setRTS setDTR : Bool) (pre : List Call) : Result :=
  if n.tiocmgetOk then
    let l0 := d.modem
    let l1 := if setRTS then setBits l0 TIOCM_RTS else clearBits l0 TIOCM_RTS
    let l2 := if setDTR then setBits l1 TIOCM_DTR else clearBits l1 TIOCM_DTR
    if n.tiocmsetOk then
      { ret := true, dev := { d with modem := l2 },
        calls := pre ++ [Call.tiocmget, Call.tiocmset l2] }
    else
      { ret := false, dev := d, calls := pre ++ [Call.tiocmget, Call.tiocmset l2] }
  else
    { ret := false, dev := d, calls := pre ++ [Call.tiocmget] }

/-- Lines 369-399 of `setParams`: committing the settings, then the line levels. -/
def commitStage (b : Build) (n : Native) (d : Device) (settings : Termios)
    (baudRate : Int) (setRTS setDTR : Bool) (pre : List Call) : Result :=
  if n.tcsetattrOk then
    let d1 : Device := { d with line := settings }
    let pre1 := pre ++ [Call.tcsetattr settings]
    if b.os = OS.apple ∧ getBaudRateByNum baudRate = NO_BAUD then
      if !n.iossiospeedOk then
        { ret := false, dev := d1, calls := pre1 ++ [Call.iossiospeed (toU32 baudRate)] }
      else
        modemStage n d1 setRTS setDTR (pre1 ++ [Call.iossiospeed (toU32 baudRate)])
    else
      modemStage n d1 setRTS setDTR pre1
  else
    { ret := false, dev := d, calls := pre ++ [Call.tcsetattr settings] }

/-- Embedding of `Java_jsscex_SerialNativeInterface_setParams` (`_nix_based/jsscex.cpp`,
lines 247-400).  The arguments are `jint` values. -/
def setParams (b : Build) (n : Native) (d : Device)
    (baudRate byteSize stopBits parity : Int) (setRTS setDTR : Bool) (flags : Int) : Result :=
  match baudStage b n d baudRate with
  | (none, d1, pre, trapped) => { ret := false, dev := d1, calls := pre, trapped := trapped }
  | (some s, d1, pre, _) =>
    match buildSettings b s byteSize stopBits parity flags with
    | none => { ret := false, dev := d1, calls := pre }
    | some settings => commitStage b n d1 settings baudRate setRTS setDTR pre

/-- An environment in which every native call succeeds; `cfsetispeed` and
`cfsetospeed` store the speed in the structure. -/
def Native.allSucceed : Native :=
  { tcgetattrOk := true
    cfsetispeed := fun s v => some { s with c_ispeed := v }
    cfsetospeed := fun s v => some { s with c_ospeed := v }
    tiocgserialOk := true
    tiocsserialOk := true
    tcsetattrOk := true
    iossiospeedOk := true
    tiocmgetOk := true
    tiocmsetOk := true }

/-- A line in cooked mode at 9600 baud, 8 data bits, with a 115200 baud base. -/
def sampleDevice : Device :=
  { line :=
      { c_iflag := 1280, c_oflag := 5, c_cflag := 189, c_lflag := 35387, vmin := 1, vtime := 0,
        cc_rest := [3, 28, 127, 21, 4], c_ispeed := 13, c_ospeed := 13 }
    serial := { flags := 0, custom_divisor := 0, baud_base := 115200 }
    modem := 0 }

end Posix

/-! ## Windows backend: port parameters -/

namespace Windows

def RTS_CONTROL_DISABLE : Nat := 0
def RTS_CONTROL_ENABLE : Nat := 1
def RTS_CONTROL_HANDSHAKE : Nat := 2
def DTR_CONTROL_DISABLE : Nat := 0
def DTR_CONTROL_ENABLE : Nat := 1

/-- The device control block `DCB` of `<winbase.h>`. -/
structure DCB where
  BaudRate : Nat
  fBinary : Bool
  fParity : Bool
  fOutxCtsFlow : Bool
  fOutxDsrFlow : Bool
  fDtrControl : Nat
  fDsrSensitivity : Bool
  fTXContinueOnXoff : Bool
  fOutX : Bool
  fInX : Bool
  fErrorChar : Bool
  fNull : Bool
  fRtsControl : Nat
  fAbortOnError : Bool
  XonLim : Nat
  XoffLim : Nat
  ByteSize : Nat
  Parity : Nat
  StopBits : Nat
  XonChar : Nat
  XoffChar : Nat
  ErrorChar : Nat
  EofChar : Nat
  EvtChar : Nat
deriving DecidableEq, Repr

/-- Native calls on an open handle, as recorded in program order. -/
inductive Call
  | getCommState
  | setCommState (dcb : DCB)
  | setCommTimeouts (readInterval readConstant readMultiplier writeConstant writeMultiplier : Nat)
deriving DecidableEq, Repr

/-- Whether the call is a `SetCommState`. -/
def Call.isSetCommState : Call → Bool
  | Call.setCommState _ => true
  | _ => false

/-- Answers of the operating system to the calls of `setParams`. -/
structure Native where
  getCommStateOk : Bool
  setCommStateOk : Bool
  setCommTimeoutsOk : Bool
deriving DecidableEq, Repr

/-- What a call of the library leaves behind: the returned `jboolean`, the control
block in effect and the native calls issued. -/
structure Result where
  ret : Bool
  dcb : DCB
  calls : List Call
deriving DecidableEq, Repr

/-- Storing a `jint` in a `BYTE` field. -/
def toByte (x : Int) : Nat := toU32 x % 256

/-- Embedding of `Java_jsscex_SerialNativeInterface_setParams` (`windows/jsscex.cpp`,
lines 103-146);
`cur` is the control block in effect before the call. -/
def setParams (n : Native) (cur : DCB)
    (baudRate byteSize stopBits parity : Int) (setRTS setDTR : Bool) (flags : Int) : Result :=
  if n.getCommStateOk then
    let dcb : DCB :=
      { cur with
        BaudRate := toU32 baudRate
        ByteSize := toByte byteSize
        StopBits := toByte stopBits
        Parity := toByte parity
        fRtsControl := if setRTS then RTS_CONTROL_ENABLE else RTS_CONTROL_DISABLE
        fDtrControl := if setDTR then DTR_CONTROL_ENABLE else DTR_CONTROL_DISABLE
        fOutxCtsFlow := false
        fOutxDsrFlow := false
        fDsrSensitivity := false
        fTXContinueOnXoff := true
        fOutX := false
        fInX := false
        fErrorChar := false
        fNull := false
        fAbortOnError := true
        XonLim := 2048
        XoffLim := 512
        XonChar := 17
        XoffChar := 19 }
    if n.setCommStateOk then
      { ret := n.setCommTimeoutsOk, dcb := dcb,
        calls := [Call.getCommState, Call.setCommState dcb, Call.setCommTimeouts 0 0 0 0 0] }
    else
      { ret := false, dcb := cur, calls := [Call.getCommState, Call.setCommState dcb] }
  else
    { ret := false, dcb := cur, calls := [Call.getCommState] }

/-- A control block as the driver reports it after an open: 9600 baud, 8N1. -/
def sampleDCB : DCB :=
  { BaudRate := 9600, fBinary := true, fParity := false, fOutxCtsFlow := false,
    fOutxDsrFlow := false, fDtrControl := 1, fDsrSensitivity := false,
    fTXContinueOnXoff := false, fOutX := false, fInX := false, fErrorChar := false,
    fNull := false, fRtsControl := 1, fAbortOnError := false, XonLim := 2048, XoffLim := 512,
    ByteSize := 8, Parity := 0, StopBits := 0, XonChar := 17, XoffChar := 19, ErrorChar := 0,
    EofChar := 0, EvtChar := 0 }

end Windows

/-! ## Machine integers of the I/O and break functions -/

/-- Storing a mathematical integer in a C `int`: reduction to the signed 32-bit range. -/
def wrapInt32 (x : Int) : Int := (x + 2147483648) % 4294967296 - 2147483648

/-- Whether an integer lies in the signed 32-bit range. -/
def inInt32 (x : Int) : Prop := -2147483648 ≤ x ∧ x ≤ 2147483647

instance (x : Int) : Decidable (inInt32 x) := by
  unfold inInt32
  infer_instance

/-- The `jint` a `DWORD` converts to. -/
def toI32 (u : Nat) : Int := wrapInt32 (u : Int)

/-! ## POSIX backend: control lines, flow control, break, line status, byte I/O -/

namespace Posix

def TIOCM_CTS : Nat := 32
def TIOCM_CAR : Nat := 64
def TIOCM_RNG : Nat := 128
def TIOCM_DSR : Nat := 256

def FLOWCONTROL_NONE : Int := 0
def FLOWCONTROL_RTSCTS_IN : Nat := 1
def FLOWCONTROL_RTSCTS_OUT : Nat := 2
def FLOWCONTROL_XONXOFF_IN : Nat := 4
def FLOWCONTROL_XONXOFF_OUT : Nat := 8

/-- Answers of the operating system to the modem-control calls of `setRTS` and `setDTR`. -/
structure ModemNative where
  tiocmgetOk : Bool
  tiocmsetOk : Bool
deriving DecidableEq, Repr

/-- Embedding of `Java_jsscex_SerialNativeInterface_setRTS` (lines 452-457). -/
def setRTS (n : ModemNative) (d : Device) (enabled : Bool) : Result :=
  if !n.tiocmgetOk then { ret := false, dev := d, calls := [Call.tiocmget] }
  else
    let status := if enabled then setBits d.modem TIOCM_RTS else clearBits d.modem TIOCM_RTS
    if !n.tiocmsetOk then
      { ret := false, dev := d, calls := [Call.tiocmget, Call.tiocmset status] }
    else
      { ret := true, dev := { d with modem := status },
        calls := [Call.tiocmget, Call.tiocmset status] }

/-- Embedding of `Java_jsscex_SerialNativeInterface_setDTR` (lines 464-469). -/
def setDTR (n : ModemNative) (d : Device) (enabled : Bool) : Result :=
  if !n.tiocmgetOk then { ret := false, dev := d, calls := [Call.tiocmget] }
  else
    let status := if enabled then setBits d.modem TIOCM_DTR else clearBits d.modem TIOCM_DTR
    if !n.tiocmsetOk then
      { ret := false, dev := d, calls := [Call.tiocmget, Call.tiocmset status] }
    else
      { ret := true, dev := { d with modem := status },
        calls := [Call.tiocmget, Call.tiocmset status] }

/-- Answers of the operating system to the calls of `setFlowControlMode`. -/
structure FlowNative where
  tcgetattrOk : Bool
  tcsetattrOk : Bool
deriving DecidableEq, Repr

/-- Embedding of `Java_jsscex_SerialNativeInterface_setFlowControlMode` (lines 481-502). -/
def setFlowControlMode (n : FlowNative) (d : Device) (mask : Int) : Result :=
  if n.tcgetattrOk then
    let s0 : Termios :=
      { d.line with
        c_cflag := clearBits d.line.c_cflag CRTSCTS
        c_iflag := clearBits d.line.c_iflag (IXON ||| IXOFF) }
    let settings : Termios :=
      if mask ≠ FLOWCONTROL_NONE then
        let s1 : Termios :=
          if allSet (toU32 mask) FLOWCONTROL_RTSCTS_IN ||
              allSet (toU32 mask) FLOWCONTROL_RTSCTS_OUT then
            { s0 with c_cflag := setBits s0.c_cflag CRTSCTS }
          else s0
        let s2 : Termios :=
          if allSet (toU32 mask) FLOWCONTROL_XONXOFF_IN then
            { s1 with c_iflag := setBits s1.c_iflag IXOFF }
          else s1
        if allSet (toU32 mask) FLOWCONTROL_XONXOFF_OUT then
          { s2 with c_iflag := setBits s2.c_iflag IXON }
        else s2
      else s0
    if n.tcsetattrOk then
      { ret := true, dev := { d with line := settings },
        calls := [Call.tcgetattr, Call.tcsetattr settings] }
    else
      { ret := false, dev := d, calls := [Call.tcgetattr, Call.tcsetattr settings] }
  else
    { ret := false, dev := d, calls := [Call.tcgetattr] }

/-- Embedding of `Java_jsscex_SerialNativeInterface_getFlowControlMode` (lines 508-524);
`tcgetattrOk` says whether its `tcgetattr` returns 0. -/
def getFlowControlMode (tcgetattrOk : Bool) (d : Device) : Int :=
  if tcgetattrOk then
    let r0 : Nat := 0
    let r1 :=
      if anySet d.line.c_cflag CRTSCTS then r0 ||| (FLOWCONTROL_RTSCTS_IN ||| FLOWCONTROL_RTSCTS_OUT)
      else r0
    let r2 := if anySet d.line.c_iflag IXOFF then r1 ||| FLOWCONTROL_XONXOFF_IN else r1
    let r3 := if anySet d.line.c_iflag IXON then r2 ||| FLOWCONTROL_XONXOFF_OUT else r2
    (r3 : Int)
  else -1

/-- Native calls issued by `sendBreak`. -/
inductive BreakCall
  | tiocsbrk
  | nanosleep (sec nanoSec : Int)
  | tioccbrk
deriving DecidableEq, Repr

/-- Answers of the operating system to the calls of `sendBreak`. -/
structure BreakNative where
  /-- whether `ioctl(TIOCSBRK)` returns a value `>= 0` -/
  tiocsbrkOk : Bool
  /-- whether `ioctl(TIOCCBRK)` returns a value `>= 0` -/
  tioccbrkOk : Bool
deriving DecidableEq, Repr

/-- The seconds `sendBreak` computes (line 534). -/
def breakSec (duration : Int) : Int :=
  if duration ≥ 1000 then wrapInt32 (Int.tdiv duration 1000) else 0

/-- The nanoseconds `sendBreak` computes (line 535), every `int` operation reduced to
32 bits. -/
def breakNanoSec (duration : Int) : Int :=
  let sec := breakSec duration
  wrapInt32
    ((if sec > 0 then wrapInt32 (duration - wrapInt32 (sec * 1000)) else duration) * 1000000)

/-- Embedding of `Java_jsscex_SerialNativeInterface_sendBreak` (lines 530-547): the
returned `jboolean` and the native calls issued. -/
def sendBreak (n : BreakNative) (duration : Int) : Bool × List BreakCall :=
  if duration > 0 then
    if n.tiocsbrkOk then
      let wait := BreakCall.nanosleep (breakSec duration) (breakNanoSec duration)
      if n.tioccbrkOk then (true, [BreakCall.tiocsbrk, wait, BreakCall.tioccbrk])
      else (false, [BreakCall.tiocsbrk, wait, BreakCall.tioccbrk])
    else (false, [BreakCall.tiocsbrk])
  else (false, [])

/-- Embedding of `Java_jsscex_SerialNativeInterface_getLinesStatus` (lines 554-563);
`tiocmgetOk` says whether `ioctl(TIOCMGET)` returns a value `>= 0`, `status` is the word
it stores. -/
def getLinesStatus (tiocmgetOk : Bool) (status : Nat) : Int :=
  if !tiocmgetOk then -1
  else
    let r0 : Nat := 0
    let r1 := if anySet status TIOCM_CTS then r0 ||| 1 else r0
    let r2 := if anySet status TIOCM_DSR then r1 ||| 2 else r1
    let r3 := if anySet status TIOCM_RNG then r2 ||| 4 else r2
    let r4 := if anySet status TIOCM_CAR then r3 ||| 8 else r3
    (r4 : Int)

/-- Native calls issued by the byte I/O functions. -/
inductive IoCall
  | select
  | read (count : Nat)
  | write (length : Int)
deriving DecidableEq, Repr

/-- Whether the call is a `write`. -/
def IoCall.isWrite : IoCall → Bool
  | IoCall.write _ => true
  | _ => false

/-- Embedding of `JavaCritical_jsscex_SerialNativeInterface_writeBytes` (lines 625-628);
`written` is the count the native `write` returns, `none` when it returns -1. -/
def writeBytes (written : Option Nat) (length : Int) : Int × List IoCall :=
  let res : Int :=
    match written with
    | some k => wrapInt32 (k : Int)
    | none => wrapInt32 (-1)
  (if res < 0 then -1 else res, [IoCall.write length])

end Posix

/-! ## Windows backend: flow control, break, line status, byte I/O -/

namespace Windows

def FLOWCONTROL_NONE : Int := 0
def FLOWCONTROL_RTSCTS_IN : Nat := 1
def FLOWCONTROL_RTSCTS_OUT : Nat := 2
def FLOWCONTROL_XONXOFF_IN : Nat := 4
def FLOWCONTROL_XONXOFF_OUT : Nat := 8

/-- Embedding of `Java_jsscex_SerialNativeInterface_setFlowControlMode`
(`windows/jsscex.cpp`, lines 254-273); `cur` is the control block in effect. -/
def setFlowControlMode (n : Native) (cur : DCB) (mask : Int) : Result :=
  if n.getCommStateOk then
    let d0 : DCB :=
      { cur with
        fRtsControl := RTS_CONTROL_ENABLE
        fOutxCtsFlow := false
        fOutX := false
        fInX := false }
    let dcb : DCB :=
      if mask ≠ FLOWCONTROL_NONE then
        let d1 : DCB :=
          if allSet (toU32 mask) FLOWCONTROL_RTSCTS_IN then
            { d0 with fRtsControl := RTS_CONTROL_HANDSHAKE }
          else d0
        let d2 : DCB :=
          if allSet (toU32 mask) FLOWCONTROL_RTSCTS_OUT then { d1 with fOutxCtsFlow := true }
          else d1
        let d3 : DCB :=
          if allSet (toU32 mask) FLOWCONTROL_XONXOFF_IN then { d2 with fInX := true } else d2
        if allSet (toU32 mask) FLOWCONTROL_XONXOFF_OUT then { d3 with fOutX := true } else d3
      else d0
    if n.setCommStateOk then
      { ret := true, dcb := dcb, calls := [Call.getCommState, Call.setCommState dcb] }
    else
      { ret := false, dcb := cur, calls := [Call.getCommState, Call.setCommState dcb] }
  else
    { ret := false, dcb := cur, calls := [Call.getCommState] }

/-- Embedding of `Java_jsscex_SerialNativeInterface_getFlowControlMode`
(`windows/jsscex.cpp`, lines 279-293); `getCommStateOk` says whether `GetCommState`
succeeds, `cur` is the control block in effect. -/
def getFlowControlMode (getCommStateOk : Bool) (cur : DCB) : Int :=
  if getCommStateOk then
    let r0 : Nat := 0
    let r1 := if cur.fRtsControl = RTS_CONTROL_HANDSHAKE then r0 ||| FLOWCONTROL_RTSCTS_IN else r0
    let r2 := if cur.fOutxCtsFlow = true then r1 ||| FLOWCONTROL_RTSCTS_OUT else r1
    let r3 := if cur.fInX = true then r2 ||| FLOWCONTROL_XONXOFF_IN else r2
    let r4 := if cur.fOutX = true then r3 ||| FLOWCONTROL_XONXOFF_OUT else r3
    (r4 : Int)
  else -1

/-- Native calls issued by `sendBreak`. -/
inductive BreakCall
  | setCommBreak
  | sleep (millis : Nat)
  | clearCommBreak
deriving DecidableEq, Repr

/-- Answers of the operating system to the calls of `sendBreak`. -/
structure BreakNative where
  /-- whether `SetCommBreak` returns a value `> 0` -/
  setCommBreakOk : Bool
  /-- whether `ClearCommBreak` returns a value `> 0` -/
  clearCommBreakOk : Bool
deriving DecidableEq, Repr

/-- Embedding of `Java_jsscex_SerialNativeInterface_sendBreak` (`windows/jsscex.cpp`,
lines 299-309): the returned `jboolean` and the native calls issued. -/
def sendBreak (n : BreakNative) (duration : Int) : Bool × List BreakCall :=
  if duration > 0 then
    if n.setCommBreakOk then
      if n.clearCommBreakOk then
        (true, [BreakCall.setCommBreak, BreakCall.sleep (toU32 duration),
          BreakCall.clearCommBreak])
      else
        (false, [BreakCall.setCommBreak, BreakCall.sleep (toU32 duration),
          BreakCall.clearCommBreak])
    else (false, [BreakCall.setCommBreak])
  else (false, [])

/-- Modem-status bits of `<winbase.h>`. -/
def MS_CTS_ON : Nat := 16
def MS_DSR_ON : Nat := 32
def MS_RING_ON : Nat := 64
def MS_RLSD_ON : Nat := 128

/-- Embedding of `Java_jsscex_SerialNativeInterface_getLinesStatus` (`windows/jsscex.cpp`,
lines 316-326); `ok` says whether `GetCommModemStatus` succeeds, `lpModemStat` is the word
it stores. -/
def getLinesStatus (ok : Bool) (lpModemStat : Nat) : Int :=
  if !ok then -1
  else
    let r0 : Nat := 0
    let r1 := if allSet lpModemStat MS_CTS_ON then r0 ||| 1 else r0
    let r2 := if allSet lpModemStat MS_DSR_ON then r1 ||| 2 else r1
    let r3 := if allSet lpModemStat MS_RING_ON then r2 ||| 4 else r2
    let r4 := if allSet lpModemStat MS_RLSD_ON then r3 ||| 8 else r3
    (r4 : Int)

/-- System constants of `<winerror.h>` and `<winbase.h>`. -/
def ERROR_IO_PENDING : Nat := 997
def WAIT_OBJECT_0 : Nat := 0

/-- Native calls issued by the byte I/O functions. -/
inductive IoCall
  | createEvent
  | readFile (count : Nat)
  | writeFile (count : Nat)
  | waitForSingleObject
  | getOverlappedResult
  | closeHandle
deriving DecidableEq, Repr

/-- Whether the call is a `WriteFile`. -/
def IoCall.isWriteFile : IoCall → Bool
  | IoCall.writeFile _ => true
  | _ => false

/-- Answers of the operating system to an overlapped `ReadFile` or `WriteFile` and to
the calls that follow it. -/
structure IoNative where
  /-- whether `ReadFile` / `WriteFile` returns `TRUE` -/
  ioOk : Bool
  /-- the byte count it then stores in `result` -/
  transferred : Nat
  /-- value of `GetLastError()` after it returned `FALSE` -/
  lastError : Nat
  /-- value returned by `WaitForSingleObject` -/
  waitResult : Nat
  /-- whether `GetOverlappedResult` succeeds -/
  overlappedOk : Bool
  /-- the byte count `GetOverlappedResult` stores in `result` -/
  overlappedTransferred : Nat
  /-- the byte a read stores in the buffer when it transfers one -/
  byte : Nat
deriving DecidableEq, Repr

/-- Embedding of `JavaCritical_jsscex_SerialNativeInterface_writeBytes`
(`windows/jsscex.cpp`, lines 409-425). -/
def writeBytes (n : IoNative) (length : Int) : Int × List IoCall :=
  if n.ioOk then
    (toI32 n.transferred,
      [IoCall.createEvent, IoCall.writeFile (toU32 length), IoCall.closeHandle])
  else
    if n.lastError = ERROR_IO_PENDING then
      if n.waitResult = WAIT_OBJECT_0 then
        if n.overlappedOk then
          (toI32 n.overlappedTransferred,
            [IoCall.createEvent, IoCall.writeFile (toU32 length), IoCall.waitForSingleObject,
              IoCall.getOverlappedResult, IoCall.closeHandle])
        else
          (toI32 4294967295,
            [IoCall.createEvent, IoCall.writeFile (toU32 length), IoCall.waitForSingleObject,
              IoCall.getOverlappedResult, IoCall.closeHandle])
      else
        (toI32 4294967295,
          [IoCall.createEvent, IoCall.writeFile (toU32 length), IoCall.waitForSingleObject,
            IoCall.closeHandle])
    else
      (toI32 4294967295,
        [IoCall.createEvent, IoCall.writeFile (toU32 length), IoCall.closeHandle])

end Windows

/-! ## Single-byte write, purge and port check -/

namespace Posix

/-- Embedding of `JavaCritical_jsscex_SerialNativeInterface_writeByte` (lines 643-646);
`written` is the count the native `write` returns, `none` when it returns -1. -/
def writeByte (written : Option Nat) (value : Int) : Int × List IoCall :=
  let res : Int :=
    match written with
    | some k => wrapInt32 (k : Int)
    | none => wrapInt32 (-1)
  (if res < 0 then -1 else res, [IoCall.write 1])

def PURGE_RXABORT : Nat := 2
def PURGE_RXCLEAR : Nat := 8
def PURGE_TXABORT : Nat := 1
def PURGE_TXCLEAR : Nat := 4

/-- Queue selectors of `<asm-generic/termbits.h>` (Linux). -/
def TCIFLUSH : Nat := 0
def TCOFLUSH : Nat := 1
def TCIOFLUSH : Nat := 2

/-- Native calls issued by `purgePort`. -/
inductive PurgeCall
  | tcflush (queue : Nat)
deriving DecidableEq, Repr

/-- Embedding of `Java_jsscex_SerialNativeInterface_purgePort` (lines 412-426);
`tcflush q` says whether `tcflush` on the queue selector `q` returns 0. -/
def purgePort (tcflush : Nat → Bool) (flags : Int) : Bool × List PurgeCall :=
  if anySet (toU32 flags) PURGE_RXCLEAR && anySet (toU32 flags) PURGE_TXCLEAR then
    (tcflush TCIOFLUSH, [PurgeCall.tcflush TCIOFLUSH])
  else if anySet (toU32 flags) PURGE_RXCLEAR then
    (tcflush TCIFLUSH, [PurgeCall.tcflush TCIFLUSH])
  else if anySet (toU32 flags) PURGE_TXCLEAR then
    (tcflush TCOFLUSH, [PurgeCall.tcflush TCOFLUSH])
  else if anySet (toU32 flags) PURGE_RXABORT || anySet (toU32 flags) PURGE_TXABORT then
    (true, [])
  else
    (false, [])

end Posix

namespace Windows

/-- Embedding of `JavaCritical_jsscex_SerialNativeInterface_writeByte`
(`windows/jsscex.cpp`, lines 440-456). -/
def writeByte (n : IoNative) (value : Int) : Int × List IoCall :=
  if n.ioOk then
    (toI32 n.transferred, [IoCall.createEvent, IoCall.writeFile 1, IoCall.closeHandle])
  else
    if n.lastError = ERROR_IO_PENDING then
      if n.waitResult = WAIT_OBJECT_0 then
        if n.overlappedOk then
          (toI32 n.overlappedTransferred,
            [IoCall.createEvent, IoCall.writeFile 1, IoCall.waitForSingleObject,
              IoCall.getOverlappedResult, IoCall.closeHandle])
        else
          (toI32 4294967295,
            [IoCall.createEvent, IoCall.writeFile 1, IoCall.waitForSingleObject,
              IoCall.getOverlappedResult, IoCall.closeHandle])
      else
        (toI32 4294967295,
          [IoCall.createEvent, IoCall.writeFile 1, IoCall.waitForSingleObject,
            IoCall.closeHandle])
    else
      (toI32 4294967295, [IoCall.createEvent, IoCall.writeFile 1, IoCall.closeHandle])

/-- Embedding of `Java_jsscex_SerialNativeInterface_checkPort` (`windows/jsscex.cpp`,
lines 527-564): the returned `jint` and the native calls issued; `n` holds the answers
to the re-open by name and to the probe of the new handle. -/
def checkPort (n : OpenNative) : Int × List OpenCall :=
  let hComm := n.createFile
  if hComm ≠ INVALID_HANDLE_VALUE then
    let result : Int :=
      if !n.getCommStateOk then ERR_INCORRECT_SERIAL_PORT else ERR_PORT_OPENED
    (result, [OpenCall.createFile, OpenCall.getCommState hComm, OpenCall.closeHandle hComm])
  else
    let errorValue := n.lastError
    if errorValue = ERROR_ACCESS_DENIED then (0, [OpenCall.createFile])
    else if errorValue = ERROR_FILE_NOT_FOUND then (ERR_PORT_NOT_FOUND, [OpenCall.createFile])
    else (ERR_PORT_NOT_OPENED, [OpenCall.createFile])

end Windows

/-! ## Opening a port: error mapping -/

/-- C1: on both backends, when the device open succeeds and the capability probe
(`tcgetattr`, `GetCommState`) fails, `openPort` closes the handle it opened and
returns -4; and whenever `openPort` returns a value that is not an error code, the
probe succeeded, the value is the handle that was opened and no close was issued. -/
theorem openPort_probe_failure_closes_handle
    (b : Posix.Build) (n : Posix.OpenNative) (useTIOCEXCL : Bool) (w : Windows.OpenNative) :
    (∀ fd, n.opened = some fd → n.tcgetattrOk = false →
      (Posix.openPort b n useTIOCEXCL).1 = ERR_INCORRECT_SERIAL_PORT ∧
      (Posix.openPort b n useTIOCEXCL).2.count (Posix.OpenCall.close fd) = 1) ∧
    ((Posix.openPort b n useTIOCEXCL).1 ∉ errorCodes →
      n.tcgetattrOk = true ∧ n.opened.map Int.ofNat = some (Posix.openPort b n useTIOCEXCL).1 ∧
      ∀ fd, Posix.OpenCall.close fd ∉ (Posix.openPort b n useTIOCEXCL).2) ∧
    (∀ h, w.created = some h → w.getCommStateOk = false →
      (Windows.openPort w).1 = ERR_INCORRECT_SERIAL_PORT ∧
      (Windows.openPort w).2.count (Windows.OpenCall.closeHandle h) = 1) ∧
    ((Windows.openPort w).1 ∉ errorCodes →
      w.getCommStateOk = true ∧ w.created.map Int.ofNat = some (Windows.openPort w).1 ∧
      ∀ h, Windows.OpenCall.closeHandle h ∉ (Windows.openPort w).2) := by
  obtain ⟨opened, errno, ok, getfl⟩ := n
  obtain ⟨created, lastError, wok⟩ := w
  refine ⟨?_, ?_, ?_, ?_⟩
  · intro fd h1 h2
    simp only at h1 h2
    subst h1 h2
    have hne : (fd : Int) ≠ -1 := by omega
    simp [Posix.openPort, Posix.OpenNative.openResult, hne]
  · intro hres
    cases opened with
    | none =>
      exfalso
      apply hres
      simp only [Posix.openPort, Posix.OpenNative.openResult, errorCodes]
      split_ifs <;> simp_all [ERR_PORT_BUSY, ERR_PORT_NOT_FOUND, ERR_PERMISSION_DENIED]
    | some fd =>
      have hne : (fd : Int) ≠ -1 := by omega
      cases ok with
      | false =>
        exfalso
        apply hres
        simp [Posix.openPort, Posix.OpenNative.openResult, hne, errorCodes]
      | true =>
        simp only [Posix.openPort, Posix.OpenNative.openResult]
        split_ifs <;> simp_all
  · intro h h1 h2
    simp only at h1 h2
    subst h1 h2
    have hne : (h : Int) ≠ -1 := by omega
    simp [Windows.openPort, Windows.OpenNative.createFile, Windows.INVALID_HANDLE_VALUE, hne]
  · intro hres
    cases created with
    | none =>
      exfalso
      apply hres
      simp only [Windows.openPort, Windows.OpenNative.createFile, errorCodes]
      split_ifs <;> simp_all [ERR_PORT_BUSY, ERR_PORT_NOT_FOUND, ERR_PORT_NOT_OPENED]
    | some h =>
      have hne : (h : Int) ≠ -1 := by omega
      cases wok with
      | false =>
        exfalso
        apply hres
        simp [Windows.openPort, Windows.OpenNative.createFile, Windows.INVALID_HANDLE_VALUE,
          hne, errorCodes]
      | true =>
        simp [Windows.openPort, Windows.OpenNative.createFile, Windows.INVALID_HANDLE_VALUE, hne]

/-- Witness of C1: a descriptor 3 (a handle 8) whose probe fails is closed once and
-4 is returned; with a successful probe the value 3 (8) is returned and nothing is
closed. -/
theorem openPort_probe_failure_closes_handle_witness :
    ((Posix.openPort Posix.linuxBuild ⟨some 3, 0, false, 2050⟩ true).1 = -4 ∧
      (Posix.openPort Posix.linuxBuild ⟨some 3, 0, false, 2050⟩ true).2.count
        (Posix.OpenCall.close 3) = 1) ∧
    ((Windows.openPort ⟨some 8, 0, false⟩).1 = -4 ∧
      (Windows.openPort ⟨some 8, 0, false⟩).2.count (Windows.OpenCall.closeHandle 8) = 1) ∧
    (Posix.openPort Posix.linuxBuild ⟨some 3, 0, true, 2050⟩ true).1 = 3 ∧
    (Posix.openPort Posix.linuxBuild ⟨some 3, 0, true, 2050⟩ true).2.count
      (Posix.OpenCall.close 3) = 0 ∧
    (Windows.openPort ⟨some 8, 0, true⟩).1 = 8 ∧
    (Windows.openPort ⟨some 8, 0, true⟩).2.count (Windows.OpenCall.closeHandle 8) = 0 := by
  have bad := openPort_probe_failure_closes_handle Posix.linuxBuild
    ⟨some 3, 0, false, 2050⟩ true ⟨some 8, 0, false⟩
  have good := openPort_probe_failure_closes_handle Posix.linuxBuild
    ⟨some 3, 0, true, 2050⟩ true ⟨some 8, 0, true⟩
  have gp := good.2.1 (by decide)
  have gw := good.2.2.2 (by decide)
  refine ⟨bad.1 3 rfl rfl, bad.2.2.1 8 rfl rfl, ?_, List.count_eq_zero.2 (gp.2.2 3), ?_,
    List.count_eq_zero.2 (gw.2.2 8)⟩
  · decide
  · decide

/-- C2: when the native open fails, the result of `openPort` is determined by the
native error code alone.  POSIX: `EBUSY` gives -1, `ENOENT` gives -2, `EACCES` gives
-3, every other `errno` gives -2.  Windows: `ERROR_ACCESS_DENIED` gives -1,
`ERROR_FILE_NOT_FOUND` gives -2, every other code gives -5. -/
theorem openPort_failed_open_mapping
    (b b' : Posix.Build) (n n' : Posix.OpenNative) (x x' : Bool) (w w' : Windows.OpenNative) :
    (n.opened = none →
      (n.errno = Posix.EBUSY → (Posix.openPort b n x).1 = -1) ∧
      (n.errno = Posix.ENOENT → (Posix.openPort b n x).1 = -2) ∧
      (n.errno = Posix.EACCES → (Posix.openPort b n x).1 = -3) ∧
      (n.errno ≠ Posix.EBUSY → n.errno ≠ Posix.ENOENT → n.errno ≠ Posix.EACCES →
        (Posix.openPort b n x).1 = -2)) ∧
    (n.opened = none → n'.opened = none → n.errno = n'.errno →
      (Posix.openPort b n x).1 = (Posix.openPort b' n' x').1) ∧
    (w.created = none →
      (w.lastError = Windows.ERROR_ACCESS_DENIED → (Windows.openPort w).1 = -1) ∧
      (w.lastError = Windows.ERROR_FILE_NOT_FOUND → (Windows.openPort w).1 = -2) ∧
      (w.lastError ≠ Windows.ERROR_ACCESS_DENIED →
        w.lastError ≠ Windows.ERROR_FILE_NOT_FOUND → (Windows.openPort w).1 = -5)) ∧
    (w.created = none → w'.created = none → w.lastError = w'.lastError →
      (Windows.openPort w).1 = (Windows.openPort w').1) := by
  obtain ⟨opened, errno, ok, getfl⟩ := n
  obtain ⟨opened', errno', ok', getfl'⟩ := n'
  obtain ⟨created, lastError, wok⟩ := w
  obtain ⟨created', lastError', wok'⟩ := w'
  refine ⟨?_, ?_, ?_, ?_⟩
  · intro h
    simp only at h
    subst h
    refine ⟨?_, ?_, ?_, ?_⟩
    · intro he
      simp only at he
      subst he
      simp [Posix.openPort, Posix.OpenNative.openResult, ERR_PORT_BUSY]
    · intro he
      simp only at he
      subst he
      simp [Posix.openPort, Posix.OpenNative.openResult, Posix.ENOENT, Posix.EBUSY,
        ERR_PORT_NOT_FOUND]
    · intro he
      simp only at he
      subst he
      simp [Posix.openPort, Posix.OpenNative.openResult, Posix.ENOENT, Posix.EBUSY,
        Posix.EACCES, ERR_PERMISSION_DENIED]
    · intro h1 h2 h3
      simp only at h1 h2 h3
      simp [Posix.openPort, Posix.OpenNative.openResult, h1, h2, h3, ERR_PORT_NOT_FOUND]
  · intro h h' he
    simp only at h h' he
    subst h h' he
    simp [Posix.openPort, Posix.OpenNative.openResult]
  · intro h
    simp only at h
    subst h
    refine ⟨?_, ?_, ?_⟩
    · intro he
      simp only at he
      subst he
      simp [Windows.openPort, Windows.OpenNative.createFile, ERR_PORT_BUSY]
    · intro he
      simp only at he
      subst he
      simp [Windows.openPort, Windows.OpenNative.createFile, Windows.ERROR_ACCESS_DENIED,
        Windows.ERROR_FILE_NOT_FOUND, ERR_PORT_NOT_FOUND]
    · intro h1 h2
      simp only at h1 h2
      simp [Windows.openPort, Windows.OpenNative.createFile, Windows.INVALID_HANDLE_VALUE,
        h1, h2, ERR_PORT_NOT_OPENED]
  · intro h h' he
    simp only at h h' he
    subst h h' he
    simp [Windows.openPort, Windows.OpenNative.createFile]

/-- Witness of C2: a failed open with `errno = EIO` (5) maps to -2 on POSIX, a failed
`CreateFile` with `ERROR_SHARING_VIOLATION` (32) maps to -5 on Windows, and two
failed opens with the same code give the same result whatever else differs. -/
theorem openPort_failed_open_mapping_witness :
    (Posix.openPort Posix.linuxBuild ⟨none, 5, false, 0⟩ false).1 = -2 ∧
    (Posix.openPort Posix.linuxBuild ⟨none, 5, false, 0⟩ false).1 =
      (Posix.openPort ⟨Posix.OS.sunos, false, false, false⟩ ⟨none, 5, true, 7⟩ true).1 ∧
    (Windows.openPort ⟨none, 32, false⟩).1 = -5 ∧
    (Windows.openPort ⟨none, 32, false⟩).1 = (Windows.openPort ⟨none, 32, true⟩).1 := by
  have h := openPort_failed_open_mapping Posix.linuxBuild ⟨Posix.OS.sunos, false, false, false⟩
    ⟨none, 5, false, 0⟩ ⟨none, 5, true, 7⟩ false true ⟨none, 32, false⟩ ⟨none, 32, true⟩
  exact ⟨(h.1 rfl).2.2.2 (by decide) (by decide) (by decide), h.2.1 rfl rfl rfl,
    (h.2.2.1 rfl).2.2 (by decide) (by decide), h.2.2.2 rfl rfl rfl⟩

/-- C3 fails on Windows: no native outcome makes the Windows `openPort` return -3
(permission denied). -/
theorem windows_openPort_never_permission_denied :
    ¬ ∃ w : Windows.OpenNative, (Windows.openPort w).1 = ERR_PERMISSION_DENIED := by
  rintro ⟨⟨created, lastError, wok⟩, h⟩
  cases created with
  | none =>
    simp only [Windows.openPort, Windows.OpenNative.createFile] at h
    split_ifs at h <;>
      simp_all [ERR_PORT_BUSY, ERR_PORT_NOT_FOUND, ERR_PORT_NOT_OPENED, ERR_PERMISSION_DENIED]
  | some hd =>
    have hne : (hd : Int) ≠ -1 := by omega
    cases wok with
    | false =>
      simp [Windows.openPort, Windows.OpenNative.createFile, Windows.INVALID_HANDLE_VALUE, hne,
        ERR_INCORRECT_SERIAL_PORT, ERR_PERMISSION_DENIED] at h
    | true =>
      simp [Windows.openPort, Windows.OpenNative.createFile, Windows.INVALID_HANDLE_VALUE, hne,
        ERR_PERMISSION_DENIED] at h

/-- C3, amended: on POSIX each of -1, -2, -3 and -4 is returned for some native
outcome; on Windows each of -1 (access denied), -2 (not found) and -4 (not a serial
device) is returned for some native outcome, every other failed open gives -5, and
-3 is never returned. -/
theorem openPort_distinct_codes :
    (∀ b x, (∃ n, (Posix.openPort b n x).1 = -1) ∧ (∃ n, (Posix.openPort b n x).1 = -2) ∧
      (∃ n, (Posix.openPort b n x).1 = -3) ∧ (∃ n, (Posix.openPort b n x).1 = -4)) ∧
    (∃ w, (Windows.openPort w).1 = -1) ∧ (∃ w, (Windows.openPort w).1 = -2) ∧
    (∃ w, (Windows.openPort w).1 = -4) ∧ (∃ w, (Windows.openPort w).1 = -5) ∧
    (∀ w, (Windows.openPort w).1 ≠ -3) := by
  refine ⟨?_, ⟨⟨none, Windows.ERROR_ACCESS_DENIED, false⟩, by decide⟩,
    ⟨⟨none, Windows.ERROR_FILE_NOT_FOUND, false⟩, by decide⟩,
    ⟨⟨some 8, 0, false⟩, by decide⟩, ⟨⟨none, 32, false⟩, by decide⟩, ?_⟩
  · intro b x
    refine ⟨⟨⟨none, Posix.EBUSY, false, 0⟩, ?_⟩, ⟨⟨none, Posix.ENOENT, false, 0⟩, ?_⟩,
      ⟨⟨none, Posix.EACCES, false, 0⟩, ?_⟩, ⟨⟨some 3, 0, false, 0⟩, ?_⟩⟩ <;>
    simp [Posix.openPort, Posix.OpenNative.openResult, Posix.EBUSY, Posix.ENOENT, Posix.EACCES,
      ERR_PORT_BUSY, ERR_PORT_NOT_FOUND, ERR_PERMISSION_DENIED, ERR_INCORRECT_SERIAL_PORT]
  · rintro ⟨created, lastError, wok⟩ h
    cases created with
    | none =>
      simp only [Windows.openPort, Windows.OpenNative.createFile] at h
      split_ifs at h <;>
        simp_all [ERR_PORT_BUSY, ERR_PORT_NOT_FOUND, ERR_PORT_NOT_OPENED]
    | some hd =>
      have hne : (hd : Int) ≠ -1 := by omega
      cases wok with
      | false =>
        simp [Windows.openPort, Windows.OpenNative.createFile, Windows.INVALID_HANDLE_VALUE, hne,
          ERR_INCORRECT_SERIAL_PORT] at h
      | true =>
        simp [Windows.openPort, Windows.OpenNative.createFile, Windows.INVALID_HANDLE_VALUE, hne]
          at h


/-! ## Helper lemmas: bits of a flag word -/

theorem testBit_setBits (x m j : Nat) :
    (setBits x m).testBit j = (x.testBit j || m.testBit j) := by
  simp [setBits]

theorem testBit_clearBits (x m j : Nat) :
    (clearBits x m).testBit j = (x.testBit j && (decide (j < 32) ^^ m.testBit j)) := by
  have h : (4294967295 : Nat) = 2 ^ 32 - 1 := by norm_num
  simp only [clearBits, Nat.testBit_and, Nat.testBit_xor, h, Nat.testBit_two_pow_sub_one]

theorem and_two_pow_eq (x j : Nat) : x &&& 2 ^ j = if x.testBit j then 2 ^ j else 0 := by
  apply Nat.eq_of_testBit_eq
  intro i
  by_cases hx : x.testBit j
  · simp only [hx, if_true, Nat.testBit_and, Nat.testBit_two_pow]
    by_cases hij : j = i
    · subst hij; simp [hx]
    · simp [hij]
  · simp only [hx, Nat.testBit_and, Nat.testBit_two_pow]
    by_cases hij : j = i
    · subst hij; simp [hx]
    · simp [hij]

theorem anySet_two_pow (x j : Nat) : anySet x (2 ^ j) = x.testBit j := by
  simp only [anySet, and_two_pow_eq]
  by_cases hx : x.testBit j <;> simp [hx]

theorem allSet_two_pow (x j : Nat) : allSet x (2 ^ j) = x.testBit j := by
  simp only [allSet, and_two_pow_eq]
  by_cases hx : x.testBit j
  · simp [hx]
  · simp [hx]
    exact (Nat.two_pow_pos j).ne

/-! ## Helper lemmas: the stages of the POSIX `setParams` -/

namespace Posix

theorem getBaudRateByNum_one : getBaudRateByNum 1 = NO_BAUD := by decide

/-- A baud rate outside the table is not zero: the division of the custom-divisor path
is never by zero. -/
theorem getBaudRateByNum_ne_zero (baudRate : Int) (h : getBaudRateByNum baudRate = NO_BAUD) :
    baudRate ≠ 0 := by
  intro h0
  subst h0
  exact absurd h (by decide)

theorem intDiv_eq_some {a b q : Int} (h : intDiv a b = some q) :
    q = Int.tdiv a b ∧ b ≠ 0 ∧ ¬(a = -2147483648 ∧ b = -1) := by
  unfold intDiv at h
  by_cases hc : b = 0 ∨ (a = -2147483648 ∧ b = -1)
  · rw [if_pos hc] at h
    exact absurd h (by simp)
  · rw [if_neg hc] at h
    injection h with h
    exact ⟨h.symm, fun hb => hc (Or.inl hb), fun hab => hc (Or.inr hab)⟩

theorem intDiv_eq_none {a b : Int} :
    intDiv a b = none ↔ b = 0 ∨ (a = -2147483648 ∧ b = -1) := by
  unfold intDiv
  by_cases hc : b = 0 ∨ (a = -2147483648 ∧ b = -1)
  · rw [if_pos hc]
    exact ⟨fun _ => hc, fun _ => rfl⟩
  · rw [if_neg hc]
    exact ⟨fun h => absurd h (by simp), fun h => absurd h hc⟩

theorem intDiv_of_no_trap {a b : Int} (h : ¬(b = 0 ∨ (a = -2147483648 ∧ b = -1))) :
    intDiv a b = some (Int.tdiv a b) := by
  unfold intDiv
  rw [if_neg h]

theorem customBaud_calls (n : Native) (d : Device) (s : Termios) (baudRate : Int) :
    ∀ c ∈ (customBaud n d s baudRate).2.2.1,
      c = Call.tiocgserial ∨
      (c = Call.tiocsserial
          { d.serial with
            flags := setBits d.serial.flags ASYNC_SPD_CUST
            custom_divisor := Int.tdiv d.serial.baud_base baudRate } ∧
        n.tiocgserialOk = true ∧ Int.tdiv d.serial.baud_base baudRate ≠ 0) := by
  intro c
  unfold customBaud
  cases h1 : n.tiocgserialOk
  · simp
  · cases hq : intDiv d.serial.baud_base baudRate with
    | none => simp +contextual
    | some q =>
      obtain ⟨rfl, _, _⟩ := intDiv_eq_some hq
      by_cases h2 : Int.tdiv d.serial.baud_base baudRate = 0
      · simp [h2]
      · cases h3 : setSpeeds n { s with c_cflag := setBits s.c_cflag B38400 } B38400 with
        | none => simp +contextual [h2, h3]
        | some s2 =>
          cases h4 : n.tiocsserialOk <;> simp +contextual [h2, h3, h4]

theorem customBaud_line (n : Native) (d : Device) (s : Termios) (baudRate : Int) :
    (customBaud n d s baudRate).2.1.line = d.line ∧
    (customBaud n d s baudRate).2.1.modem = d.modem := by
  unfold customBaud
  cases h1 : n.tiocgserialOk
  · simp
  · cases hq : intDiv d.serial.baud_base baudRate with
    | none => simp
    | some q =>
      by_cases h2 : q = 0
      · simp [h2]
      · cases h3 : setSpeeds n { s with c_cflag := setBits s.c_cflag B38400 } B38400 with
        | none => simp [h2, h3]
        | some s2 =>
          cases h4 : n.tiocsserialOk <;> simp [h2, h3, h4]

/-- The custom-divisor path traps exactly when `TIOCGSERIAL` succeeded and the division
is undefined; it has then issued `TIOCGSERIAL` only. -/
theorem customBaud_trapped (n : Native) (d : Device) (s : Termios) (baudRate : Int) :
    ((customBaud n d s baudRate).2.2.2 = true ↔
      n.tiocgserialOk = true ∧ intDiv d.serial.baud_base baudRate = none) ∧
    ((customBaud n d s baudRate).2.2.2 = true →
      (customBaud n d s baudRate).1 = none ∧
      (customBaud n d s baudRate).2.1 = d ∧
      (customBaud n d s baudRate).2.2.1 = [Call.tiocgserial]) := by
  unfold customBaud
  cases h1 : n.tiocgserialOk
  · simp
  · cases hq : intDiv d.serial.baud_base baudRate with
    | none => simp
    | some q =>
      by_cases h2 : q = 0
      · simp [h2]
      · cases h3 : setSpeeds n { s with c_cflag := setBits s.c_cflag B38400 } B38400 with
        | none => simp [h2, h3]
        | some s2 =>
          cases h4 : n.tiocsserialOk <;> simp [h2, h3, h4]

theorem baudStage_calls (b : Build) (n : Native) (d : Device) (baudRate : Int) :
    ∀ c ∈ (baudStage b n d baudRate).2.2.1,
      c = Call.tcgetattr ∨ c = Call.tiocgserial ∨
      (c = Call.tiocsserial
          { d.serial with
            flags := setBits d.serial.flags ASYNC_SPD_CUST
            custom_divisor := Int.tdiv d.serial.baud_base baudRate } ∧
        b.os = OS.linux ∧ getBaudRateByNum baudRate = NO_BAUD ∧ n.tcgetattrOk = true ∧
        n.tiocgserialOk = true ∧ Int.tdiv d.serial.baud_base baudRate ≠ 0) := by
  intro c
  unfold baudStage
  cases h1 : n.tcgetattrOk
  · simp +contextual
  · by_cases h2 : getBaudRateByNum baudRate = NO_BAUD
    · cases h3 : b.os
      · simp only [h2, h3, ne_eq, not_true_eq_false, if_false, if_true, List.mem_cons]
        rintro (h | h)
        · exact Or.inl h
        · rcases customBaud_calls n d d.line baudRate c h with h | ⟨h, h5, h6⟩
          · exact Or.inr (Or.inl h)
          · exact Or.inr (Or.inr ⟨h, trivial, trivial, trivial, h5, h6⟩)
      all_goals simp +contextual [h2, h3]
    · simp +contextual [h2]

theorem baudStage_line (b : Build) (n : Native) (d : Device) (baudRate : Int) :
    (baudStage b n d baudRate).2.1.line = d.line ∧
    (baudStage b n d baudRate).2.1.modem = d.modem := by
  unfold baudStage
  cases h1 : n.tcgetattrOk
  · simp
  · by_cases h2 : getBaudRateByNum baudRate = NO_BAUD
    · cases h3 : b.os
      · simpa [h2, h3] using customBaud_line n d d.line baudRate
      all_goals simp [h2, h3]
    · simp [h2]

/-- The baud stage traps exactly on the custom-divisor path of a Linux build, after
`tcgetattr` and `TIOCGSERIAL` succeeded, when the division is undefined; it has then
issued these two calls only and the device is untouched. -/
theorem baudStage_trapped (b : Build) (n : Native) (d : Device) (baudRate : Int) :
    ((baudStage b n d baudRate).2.2.2 = true ↔
      b.os = OS.linux ∧ getBaudRateByNum baudRate = NO_BAUD ∧ n.tcgetattrOk = true ∧
      n.tiocgserialOk = true ∧ intDiv d.serial.baud_base baudRate = none) ∧
    ((baudStage b n d baudRate).2.2.2 = true →
      (baudStage b n d baudRate).1 = none ∧
      (baudStage b n d baudRate).2.1 = d ∧
      (baudStage b n d baudRate).2.2.1 = [Call.tcgetattr, Call.tiocgserial]) := by
  have hc := customBaud_trapped n d d.line baudRate
  unfold baudStage
  cases h1 : n.tcgetattrOk
  · simp
  · by_cases h2 : getBaudRateByNum baudRate = NO_BAUD
    · cases h3 : b.os
      · simp only [h2, h3, ne_eq, not_true_eq_false, if_false, if_true, true_and]
        refine ⟨hc.1, ?_⟩
        intro h
        obtain ⟨e1, e2, e3⟩ := hc.2 h
        exact ⟨e1, e2, by rw [e3]⟩
      all_goals simp [h2, h3]
    · simp [h2]

/-- The baud stage traps exactly for the requested rate -1 on a reported base rate of
-2147483648, on the custom-divisor path of a Linux build. -/
theorem baudStage_trapped_iff (b : Build) (n : Native) (d : Device) (baudRate : Int) :
    (baudStage b n d baudRate).2.2.2 = true ↔
      b.os = OS.linux ∧ n.tcgetattrOk = true ∧ n.tiocgserialOk = true ∧
      d.serial.baud_base = -2147483648 ∧ baudRate = -1 := by
  rw [(baudStage_trapped b n d baudRate).1, intDiv_eq_none]
  constructor
  · rintro ⟨h1, h2, h3, h4, h5⟩
    rcases h5 with h5 | h5
    · exact absurd h5 (getBaudRateByNum_ne_zero baudRate h2)
    · exact ⟨h1, h3, h4, h5.1, h5.2⟩
  · rintro ⟨h1, h3, h4, h5, h6⟩
    refine ⟨h1, ?_, h3, h4, Or.inr ⟨h5, h6⟩⟩
    rw [h6]
    decide

theorem setParams_cases (b : Build) (n : Native) (d : Device)
    (baudRate byteSize stopBits parity : Int) (setRTS setDTR : Bool) (flags : Int) :
    (setParams b n d baudRate byteSize stopBits parity setRTS setDTR flags =
        { ret := false, dev := (baudStage b n d baudRate).2.1,
          calls := (baudStage b n d baudRate).2.2.1,
          trapped := (baudStage b n d baudRate).2.2.2 } ∧
      ((baudStage b n d baudRate).1 = none ∨
        ∃ s, (baudStage b n d baudRate).1 = some s ∧
          buildSettings b s byteSize stopBits parity flags = none)) ∨
    (∃ s settings, (baudStage b n d baudRate).1 = some s ∧
      buildSettings b s byteSize stopBits parity flags = some settings ∧
      setParams b n d baudRate byteSize stopBits parity setRTS setDTR flags =
        commitStage b n (baudStage b n d baudRate).2.1 settings baudRate setRTS setDTR
          (baudStage b n d baudRate).2.2.1) := by
  have ht := (baudStage_trapped b n d baudRate).2
  unfold setParams
  rcases hb : baudStage b n d baudRate with ⟨_ | s, d1, pre, t⟩
  · left
    simp
  · have e : t = false := by
      cases t
      · rfl
      · rw [hb] at ht
        exact absurd (ht rfl).1 (by simp)
    subst e
    cases hs : buildSettings b s byteSize stopBits parity flags with
    | none => left; simp [hs]
    | some settings => right; exact ⟨s, settings, rfl, hs, by simp [hs]⟩

theorem buildSettings_eq_some {b : Build} {s t : Termios} {byteSize stopBits parity flags : Int}
    (h : buildSettings b s byteSize stopBits parity flags = some t) :
    ∃ s1 s2, applyDataBits s byteSize = some s1 ∧ applyStopBits s1 stopBits = some s2 ∧
      applyParity b (applyRaw b s2 flags) parity = some t := by
  unfold buildSettings at h
  cases h1 : applyDataBits s byteSize with
  | none => simp [h1] at h
  | some s1 =>
    cases h2 : applyStopBits s1 stopBits with
    | none => simp [h1, h2] at h
    | some s2 => exact ⟨s1, s2, rfl, h2, by simpa [h1, h2] using h⟩

theorem modemStage_calls (n : Native) (d : Device) (setRTS setDTR : Bool) (pre : List Call) :
    ∃ post, (modemStage n d setRTS setDTR pre).calls = pre ++ post ∧
      (∀ c ∈ post, c.isTcsetattr = false) ∧
      (modemStage n d setRTS setDTR pre).dev.line = d.line := by
  unfold modemStage
  cases h1 : n.tiocmgetOk
  · exact ⟨[Call.tiocmget], by simp, by simp [Call.isTcsetattr], by simp⟩
  · cases h2 : n.tiocmsetOk
    · exact ⟨_, by simp; rfl, by simp [Call.isTcsetattr], by simp⟩
    · exact ⟨_, by simp; rfl, by simp [Call.isTcsetattr], by simp⟩

end Posix

namespace Posix

theorem commitStage_calls (b : Build) (n : Native) (d : Device) (settings : Termios)
    (baudRate : Int) (setRTS setDTR : Bool) (pre : List Call) :
    ∃ post, (commitStage b n d settings baudRate setRTS setDTR pre).calls =
        pre ++ Call.tcsetattr settings :: post ∧
      (∀ c ∈ post, c.isTcsetattr = false) ∧
      (n.tcsetattrOk = true →
        (commitStage b n d settings baudRate setRTS setDTR pre).dev.line = settings) ∧
      (n.tcsetattrOk = false →
        (commitStage b n d settings baudRate setRTS setDTR pre).dev = d ∧
        (commitStage b n d settings baudRate setRTS setDTR pre).ret = false) := by
  unfold commitStage
  cases h1 : n.tcsetattrOk
  · exact ⟨[], by simp, by simp, by simp, by simp⟩
  · by_cases h2 : b.os = OS.apple ∧ getBaudRateByNum baudRate = NO_BAUD
    · cases h3 : n.iossiospeedOk
      · exact ⟨[Call.iossiospeed (toU32 baudRate)], by simp [h2], by simp [Call.isTcsetattr],
          by simp [h2], by simp⟩
      · obtain ⟨post, hp, hq, hl⟩ := modemStage_calls n { d with line := settings } setRTS setDTR
          (pre ++ [Call.tcsetattr settings] ++ [Call.iossiospeed (toU32 baudRate)])
        refine ⟨Call.iossiospeed (toU32 baudRate) :: post, ?_, ?_, ?_, by simp⟩
        · simp only [h2, and_self, if_true, Bool.not_true, Bool.false_eq_true, if_false]
          rw [hp]
          simp
        · intro c hc
          rcases List.mem_cons.1 hc with h | h
          · subst h; rfl
          · exact hq c h
        · intro _
          simp only [h2, and_self, if_true, Bool.not_true, Bool.false_eq_true, if_false]
          exact hl
    · obtain ⟨post, hp, hq, hl⟩ := modemStage_calls n { d with line := settings } setRTS setDTR
        (pre ++ [Call.tcsetattr settings])
      refine ⟨post, ?_, hq, ?_, by simp⟩
      · simp only [h2, if_true, if_false]
        rw [hp]
        simp
      · intro _
        simp only [h2, if_true, if_false]
        exact hl

theorem applyDataBits_eq_none (s : Termios) (byteSize : Int)
    (h : byteSize ≠ 5 ∧ byteSize ≠ 6 ∧ byteSize ≠ 7 ∧ byteSize ≠ 8) :
    applyDataBits s byteSize = none := by
  simp [applyDataBits, getDataBitsByNum, h.1, h.2.1, h.2.2.1, h.2.2.2]

theorem applyStopBits_eq_none (s : Termios) (stopBits : Int)
    (h : stopBits ≠ 0 ∧ stopBits ≠ 1 ∧ stopBits ≠ 2) :
    applyStopBits s stopBits = none := by
  simp [applyStopBits, h.1, h.2.1, h.2.2]

theorem applyParity_eq_none (b : Build) (s : Termios) (parity : Int)
    (h : parity ≠ 0 ∧ parity ≠ 1 ∧ parity ≠ 2 ∧ parity ≠ 3 ∧ parity ≠ 4) :
    applyParity b s parity = none := by
  simp [applyParity, h.1, h.2.1, h.2.2.1, h.2.2.2.1, h.2.2.2.2]

/-- A call with an invalid byte size, stop-bits code or parity code builds no settings. -/
theorem buildSettings_eq_none (b : Build) (s : Termios) (byteSize stopBits parity flags : Int)
    (h : (byteSize ≠ 5 ∧ byteSize ≠ 6 ∧ byteSize ≠ 7 ∧ byteSize ≠ 8) ∨
      (stopBits ≠ 0 ∧ stopBits ≠ 1 ∧ stopBits ≠ 2) ∨
      (parity ≠ 0 ∧ parity ≠ 1 ∧ parity ≠ 2 ∧ parity ≠ 3 ∧ parity ≠ 4)) :
    buildSettings b s byteSize stopBits parity flags = none := by
  unfold buildSettings
  cases h1 : applyDataBits s byteSize with
  | none => rfl
  | some s1 =>
    cases h2 : applyStopBits s1 stopBits with
    | none => simp [h2]
    | some s2 =>
      rcases h with h | h | h
      · rw [applyDataBits_eq_none s byteSize h] at h1
        exact absurd h1 (by simp)
      · rw [applyStopBits_eq_none s1 stopBits h] at h2
        exact absurd h2 (by simp)
      · simpa [h2] using applyParity_eq_none b (applyRaw b s2 flags) parity h

/-- A rejected call: the result is `false` and the calls are those of the baud stage. -/
theorem setParams_of_buildSettings_none (b : Build) (n : Native) (d : Device)
    (baudRate byteSize stopBits parity : Int) (setRTS setDTR : Bool) (flags : Int)
    (h : ∀ s, buildSettings b s byteSize stopBits parity flags = none) :
    setParams b n d baudRate byteSize stopBits parity setRTS setDTR flags =
      { ret := false, dev := (baudStage b n d baudRate).2.1,
        calls := (baudStage b n d baudRate).2.2.1,
        trapped := (baudStage b n d baudRate).2.2.2 } := by
  rcases setParams_cases b n d baudRate byteSize stopBits parity setRTS setDTR flags with
    ⟨h1, _⟩ | ⟨s, settings, _, h2, _⟩
  · exact h1
  · rw [h s] at h2
    exact absurd h2 (by simp)

end Posix

/-! ## POSIX `setParams`: rejection of invalid fields -/

/-- C4 fails on the code at one input: a `setParams` call whose byteSize is outside
{5,6,7,8}, or whose stopBits is outside {0,1,2}, or whose parity is outside {0,..,4}
issues neither `tcsetattr` nor the modem-control write `TIOCMSET`, and it returns false
unless the division of the custom-divisor path traps before the fields are checked.
That happens exactly on a Linux build, after `tcgetattr` and `TIOCGSERIAL` succeeded,
for the requested rate -1 on a reported base rate of -2147483648: the quotient is not
an `int` and the call does not return. -/
theorem setParams_invalid_field_trap (b : Posix.Build) (n : Posix.Native) (d : Posix.Device)
    (baudRate byteSize stopBits parity : Int) (setRTS setDTR : Bool) (flags : Int)
    (h : (byteSize ≠ 5 ∧ byteSize ≠ 6 ∧ byteSize ≠ 7 ∧ byteSize ≠ 8) ∨
      (stopBits ≠ 0 ∧ stopBits ≠ 1 ∧ stopBits ≠ 2) ∨
      (parity ≠ 0 ∧ parity ≠ 1 ∧ parity ≠ 2 ∧ parity ≠ 3 ∧ parity ≠ 4)) :
    ((Posix.setParams b n d baudRate byteSize stopBits parity setRTS setDTR flags).trapped = true ↔
      b.os = Posix.OS.linux ∧ n.tcgetattrOk = true ∧ n.tiocgserialOk = true ∧
      d.serial.baud_base = -2147483648 ∧ baudRate = -1) ∧
    ((Posix.setParams b n d baudRate byteSize stopBits parity setRTS setDTR flags).trapped = false →
      (Posix.setParams b n d baudRate byteSize stopBits parity setRTS setDTR flags).ret = false) ∧
    ∀ c ∈ (Posix.setParams b n d baudRate byteSize stopBits parity setRTS setDTR flags).calls,
      c.isTcsetattr = false ∧ c.isTiocmset = false := by
  rw [Posix.setParams_of_buildSettings_none b n d baudRate byteSize stopBits parity setRTS setDTR
    flags (fun s => Posix.buildSettings_eq_none b s byteSize stopBits parity flags h)]
  refine ⟨?_, fun _ => rfl, ?_⟩
  · exact Posix.baudStage_trapped_iff b n d baudRate
  · intro c hc
    rcases Posix.baudStage_calls b n d baudRate c hc with h | h | ⟨h, _⟩ <;> subst h <;>
      exact ⟨rfl, rfl⟩

/-- Failing input of C4: on Linux with every native call succeeding and a reported base
rate of -2147483648, the call with baud rate -1 and 9 data bits does not return: the
division traps after `tcgetattr` and `TIOCGSERIAL`. -/
theorem setParams_invalid_field_trap_witness :
    (Posix.setParams Posix.linuxBuild Posix.Native.allSucceed
      { Posix.sampleDevice with
        serial := { flags := 0, custom_divisor := 0, baud_base := -2147483648 } }
      (-1) 9 0 0 true true 0).trapped = true ∧
    (Posix.setParams Posix.linuxBuild Posix.Native.allSucceed
      { Posix.sampleDevice with
        serial := { flags := 0, custom_divisor := 0, baud_base := -2147483648 } }
      (-1) 9 0 0 true true 0).calls = [Posix.Call.tcgetattr, Posix.Call.tiocgserial] ∧
    (Posix.setParams Posix.linuxBuild Posix.Native.allSucceed Posix.sampleDevice
      9600 9 0 0 true true 0).ret = false ∧
    (Posix.setParams Posix.linuxBuild Posix.Native.allSucceed Posix.sampleDevice
      9600 9 0 0 true true 0).trapped = false := by
  have h := setParams_invalid_field_trap Posix.linuxBuild Posix.Native.allSucceed
    { Posix.sampleDevice with
      serial := { flags := 0, custom_divisor := 0, baud_base := -2147483648 } }
    (-1) 9 0 0 true true 0 (Or.inl (by decide))
  have h' := setParams_invalid_field_trap Posix.linuxBuild Posix.Native.allSucceed
    Posix.sampleDevice 9600 9 0 0 true true 0 (Or.inl (by decide))
  have e : (Posix.setParams Posix.linuxBuild Posix.Native.allSucceed Posix.sampleDevice
      9600 9 0 0 true true 0).trapped = false := by
    cases ht : (Posix.setParams Posix.linuxBuild Posix.Native.allSucceed Posix.sampleDevice
      9600 9 0 0 true true 0).trapped
    · rfl
    · exact absurd (h'.1.1 ht).2.2.2.2 (by decide)
  exact ⟨h.1.2 ⟨rfl, rfl, rfl, rfl, rfl⟩, by decide, h'.2.1 e, e⟩

namespace Posix

theorem modemStage_ret (n : Native) (d : Device) (setRTS setDTR : Bool) (pre : List Call) :
    (modemStage n d setRTS setDTR pre).ret = (n.tiocmgetOk && n.tiocmsetOk) := by
  unfold modemStage
  cases h1 : n.tiocmgetOk <;> cases h2 : n.tiocmsetOk <;> simp

theorem commitStage_ret (b : Build) (n : Native) (d : Device) (settings : Termios)
    (baudRate : Int) (setRTS setDTR : Bool) (pre : List Call) :
    (commitStage b n d settings baudRate setRTS setDTR pre).ret =
      (n.tcsetattrOk &&
        (!(decide (b.os = OS.apple ∧ getBaudRateByNum baudRate = NO_BAUD)) || n.iossiospeedOk) &&
        n.tiocmgetOk && n.tiocmsetOk) := by
  unfold commitStage
  cases h1 : n.tcsetattrOk
  · simp
  · by_cases h2 : b.os = OS.apple ∧ getBaudRateByNum baudRate = NO_BAUD
    · cases h3 : n.iossiospeedOk
      · simp [h2]
      · simp [h2, modemStage_ret]
    · simp [h2, modemStage_ret]

end Posix

/-- C5 fails: on Windows a call with 9 data bits reaches `SetCommState` with
`ByteSize = 9` and returns true when the native calls succeed. -/
theorem windows_setParams_commits_invalid_byteSize :
    (Windows.setParams ⟨true, true, true⟩ Windows.sampleDCB 9600 9 0 0 true true 0).ret = true ∧
    ∃ dcb, Windows.Call.setCommState dcb ∈
        (Windows.setParams ⟨true, true, true⟩ Windows.sampleDCB 9600 9 0 0 true true 0).calls ∧
      dcb.ByteSize = 9 := by
  refine ⟨by decide, ⟨_, List.mem_cons_of_mem _ (List.mem_cons_self _ _), by decide⟩⟩

/-- C5, amended: the Windows `setParams` does not check byteSize.  For every byteSize
it issues exactly one `SetCommState` when `GetCommState` succeeds, on a control block
whose `ByteSize` holds the low 8 bits of byteSize, and none when `GetCommState` fails;
it returns true exactly when `GetCommState`, `SetCommState` and `SetCommTimeouts`
all succeed. -/
theorem windows_setParams_byteSize_unchecked (n : Windows.Native) (cur : Windows.DCB)
    (baudRate byteSize stopBits parity : Int) (setRTS setDTR : Bool) (flags : Int) :
    ((Windows.setParams n cur baudRate byteSize stopBits parity setRTS setDTR flags).ret = true ↔
      n.getCommStateOk = true ∧ n.setCommStateOk = true ∧ n.setCommTimeoutsOk = true) ∧
    (n.getCommStateOk = true →
      ∃ dcb, (Windows.setParams n cur baudRate byteSize stopBits parity setRTS setDTR
          flags).calls.filter Windows.Call.isSetCommState = [Windows.Call.setCommState dcb] ∧
        dcb.ByteSize = Windows.toByte byteSize) ∧
    (n.getCommStateOk = false →
      ∀ c ∈ (Windows.setParams n cur baudRate byteSize stopBits parity setRTS setDTR
          flags).calls, c.isSetCommState = false) := by
  obtain ⟨g, s, t⟩ := n
  cases g <;> cases s <;> cases t <;>
    simp [Windows.setParams, Windows.Call.isSetCommState]

/-- Witness of C5 (amended): 9 data bits with every native call succeeding. -/
theorem windows_setParams_byteSize_unchecked_witness :
    ∃ dcb, (Windows.setParams ⟨true, true, true⟩ Windows.sampleDCB 9600 9 0 0 true true
        0).calls.filter Windows.Call.isSetCommState = [Windows.Call.setCommState dcb] ∧
      dcb.ByteSize = Windows.toByte 9 :=
  (windows_setParams_byteSize_unchecked ⟨true, true, true⟩ Windows.sampleDCB 9600 9 0 0 true
    true 0).2.1 rfl

/-- C6 fails: on Linux, with a baud rate outside the table (12345) and 9 data bits,
the custom-divisor request `TIOCSSERIAL` is issued and changes the driver state
before the call is rejected. -/
theorem setParams_custom_divisor_before_rejection :
    (Posix.setParams Posix.linuxBuild Posix.Native.allSucceed Posix.sampleDevice
      12345 9 0 0 true true 0).ret = false ∧
    (Posix.setParams Posix.linuxBuild Posix.Native.allSucceed Posix.sampleDevice
      12345 9 0 0 true true 0).calls =
      [Posix.Call.tcgetattr, Posix.Call.tiocgserial,
        Posix.Call.tiocsserial { flags := 48, custom_divisor := 9, baud_base := 115200 }] ∧
    (Posix.setParams Posix.linuxBuild Posix.Native.allSucceed Posix.sampleDevice
      12345 9 0 0 true true 0).dev.serial ≠ Posix.sampleDevice.serial := by
  refine ⟨by decide, by decide, by decide⟩

/-- C6, amended: a POSIX `setParams` call with an invalid byteSize, stopBits or parity
issues no state-changing native call when the baud rate is in the table or the build
is not for Linux; on Linux with a baud rate outside the table the only state-changing
call that can precede the rejection is the custom-divisor request `TIOCSSERIAL`,
issued only after `tcgetattr` and `TIOCGSERIAL` succeeded with a non-zero divisor. -/
theorem setParams_invalid_field_mutations (b : Posix.Build) (n : Posix.Native) (d : Posix.Device)
    (baudRate byteSize stopBits parity : Int) (setRTS setDTR : Bool) (flags : Int)
    (h : (byteSize ≠ 5 ∧ byteSize ≠ 6 ∧ byteSize ≠ 7 ∧ byteSize ≠ 8) ∨
      (stopBits ≠ 0 ∧ stopBits ≠ 1 ∧ stopBits ≠ 2) ∨
      (parity ≠ 0 ∧ parity ≠ 1 ∧ parity ≠ 2 ∧ parity ≠ 3 ∧ parity ≠ 4)) :
    (∀ c ∈ (Posix.setParams b n d baudRate byteSize stopBits parity setRTS setDTR flags).calls,
      c.mutating = true →
        c.isTiocsserial = true ∧ b.os = Posix.OS.linux ∧
        Posix.getBaudRateByNum baudRate = Posix.NO_BAUD ∧ n.tcgetattrOk = true ∧
        n.tiocgserialOk = true ∧ Int.tdiv d.serial.baud_base baudRate ≠ 0) ∧
    (Posix.getBaudRateByNum baudRate ≠ Posix.NO_BAUD ∨ b.os ≠ Posix.OS.linux →
      ∀ c ∈ (Posix.setParams b n d baudRate byteSize stopBits parity setRTS setDTR flags).calls,
        c.mutating = false) := by
  rw [Posix.setParams_of_buildSettings_none b n d baudRate byteSize stopBits parity setRTS setDTR
    flags (fun s => Posix.buildSettings_eq_none b s byteSize stopBits parity flags h)]
  refine ⟨?_, ?_⟩
  · intro c hc hm
    rcases Posix.baudStage_calls b n d baudRate c hc with h | h | ⟨h, h'⟩
    · subst h; exact absurd hm (by decide)
    · subst h; exact absurd hm (by decide)
    · subst h; exact ⟨rfl, h'⟩
  · intro hb c hc
    rcases Posix.baudStage_calls b n d baudRate c hc with h | h | ⟨_, h1, h2, _⟩
    · subst h; rfl
    · subst h; rfl
    · rcases hb with hb | hb
      · exact absurd h2 hb
      · exact absurd h1 hb

/-- Witness of C6 (amended): 9 data bits at 9600 baud: no state-changing call. -/
theorem setParams_invalid_field_mutations_witness :
    (Posix.setParams Posix.linuxBuild Posix.Native.allSucceed Posix.sampleDevice
      9600 9 0 0 true true 0).calls.filter Posix.Call.mutating = [] := by
  have h := (setParams_invalid_field_mutations Posix.linuxBuild Posix.Native.allSucceed
    Posix.sampleDevice 9600 9 0 0 true true 0 (Or.inl (by decide))).2 (Or.inl (by decide))
  refine List.filter_eq_nil_iff.2 ?_
  intro c hc
  simp [h c hc]

/-! ## POSIX `setParams`: what a `false` result leaves behind -/

/-- C7 fails: when `tcsetattr` succeeds and the modem-control read that follows
fails, `setParams` returns false although the new termios settings are committed. -/
theorem setParams_false_after_commit :
    (Posix.setParams Posix.linuxBuild { Posix.Native.allSucceed with tiocmgetOk := false }
      Posix.sampleDevice 9600 8 0 0 true true 0).ret = false ∧
    (Posix.setParams Posix.linuxBuild { Posix.Native.allSucceed with tiocmgetOk := false }
      Posix.sampleDevice 9600 8 0 0 true true 0).dev.line ≠ Posix.sampleDevice.line := by
  refine ⟨by decide, by decide⟩

/-- C7, amended: whenever the POSIX `setParams` returns false, either no `tcsetattr`
succeeded during the call and the termios settings of the line equal those before it,
or `tcsetattr` succeeded, its settings are in effect, and a step that follows the
commit failed: the modem-control read, the modem-control write, or (macOS build,
baud rate outside the table) the `IOSSIOSPEED` request. -/
theorem setParams_false_commit_cases (b : Posix.Build) (n : Posix.Native) (d : Posix.Device)
    (baudRate byteSize stopBits parity : Int) (setRTS setDTR : Bool) (flags : Int)
    (hret : (Posix.setParams b n d baudRate byteSize stopBits parity setRTS setDTR flags).ret
      = false) :
    ((Posix.setParams b n d baudRate byteSize stopBits parity setRTS setDTR flags).dev.line
        = d.line ∧
      (n.tcsetattrOk = true →
        ∀ c ∈ (Posix.setParams b n d baudRate byteSize stopBits parity setRTS setDTR
          flags).calls, c.isTcsetattr = false)) ∨
    (n.tcsetattrOk = true ∧
      (∃ t, Posix.Call.tcsetattr t ∈
          (Posix.setParams b n d baudRate byteSize stopBits parity setRTS setDTR flags).calls ∧
        (Posix.setParams b n d baudRate byteSize stopBits parity setRTS setDTR flags).dev.line
          = t) ∧
      (n.tiocmgetOk = false ∨ n.tiocmsetOk = false ∨
        (b.os = Posix.OS.apple ∧ Posix.getBaudRateByNum baudRate = Posix.NO_BAUD ∧
          n.iossiospeedOk = false))) := by
  rcases Posix.setParams_cases b n d baudRate byteSize stopBits parity setRTS setDTR flags with
    ⟨h1, _⟩ | ⟨s, settings, _, _, h3⟩
  · left
    rw [h1]
    refine ⟨(Posix.baudStage_line b n d baudRate).1, ?_⟩
    intro _ c hc
    rcases Posix.baudStage_calls b n d baudRate c hc with h | h | ⟨h, _⟩ <;> subst h <;> rfl
  · rw [h3] at hret ⊢
    obtain ⟨post, hp, _, hl, hf⟩ := Posix.commitStage_calls b n (Posix.baudStage b n d baudRate).2.1
      settings baudRate setRTS setDTR (Posix.baudStage b n d baudRate).2.2.1
    cases ht : n.tcsetattrOk
    · left
      refine ⟨?_, by simp⟩
      rw [(hf ht).1]
      exact (Posix.baudStage_line b n d baudRate).1
    · right
      refine ⟨rfl, ⟨settings, ?_, hl ht⟩, ?_⟩
      · rw [hp]
        simp
      · rw [Posix.commitStage_ret, ht] at hret
        cases hg : n.tiocmgetOk
        · exact Or.inl rfl
        · cases hs : n.tiocmsetOk
          · exact Or.inr (Or.inl rfl)
          · right; right
            simp only [hg, hs, Bool.true_and, Bool.and_true, Bool.or_eq_false_iff,
              Bool.not_eq_false', decide_eq_true_eq] at hret
            exact ⟨hret.1.1, hret.1.2, hret.2⟩

/-- Witness of C7 (amended): with a failing `tcsetattr` the call returns false and
the termios settings of the line are those before the call. -/
theorem setParams_false_commit_cases_witness :
    (Posix.setParams Posix.linuxBuild { Posix.Native.allSucceed with tcsetattrOk := false }
      Posix.sampleDevice 9600 8 0 0 true true 0).dev.line = Posix.sampleDevice.line := by
  rcases setParams_false_commit_cases Posix.linuxBuild
    { Posix.Native.allSucceed with tcsetattrOk := false } Posix.sampleDevice 9600 8 0 0 true true
    0 (by decide) with h | h
  · exact h.1
  · exact absurd h.1 (by decide)

/-! ## Helper lemmas: single bits of the settings built by `setParams` -/

theorem testBit_setBits_of_false (x m j : Nat) (h : m.testBit j = false) :
    (setBits x m).testBit j = x.testBit j := by
  simp [setBits, h]

theorem testBit_setBits_of_true (x m j : Nat) (h : m.testBit j = true) :
    (setBits x m).testBit j = true := by
  simp [setBits, h]

theorem testBit_clearBits_of_true (x m j : Nat) (hj : j < 32) (h : m.testBit j = true) :
    (clearBits x m).testBit j = false := by
  simp [testBit_clearBits, h, hj]

theorem testBit_clearBits_of_false (x m j : Nat) (hj : j < 32) (h : m.testBit j = false) :
    (clearBits x m).testBit j = x.testBit j := by
  simp [testBit_clearBits, h, hj]

namespace Posix

/-- The result of `applyParity`, case by case. -/
theorem applyParity_eq_some {b : Build} {s t : Termios} {parity : Int}
    (h : applyParity b s parity = some t) :
    (parity = 0 ∧ b.hasExtraParity = true ∧
      t = { s with c_cflag := clearBits s.c_cflag (PARENB ||| PARODD ||| CMSPAR) }) ∨
    (parity = 0 ∧ b.hasExtraParity = false ∧
      t = { s with c_cflag := clearBits s.c_cflag (PARENB ||| PARODD) }) ∨
    (parity = 1 ∧ b.hasExtraParity = true ∧
      t = { s with
            c_cflag := setBits (clearBits s.c_cflag (PARENB ||| PARODD ||| CMSPAR))
              (PARENB ||| PARODD)
            c_iflag := setBits s.c_iflag INPCK }) ∨
    (parity = 1 ∧ b.hasExtraParity = false ∧
      t = { s with
            c_cflag := setBits (clearBits s.c_cflag (PARENB ||| PARODD)) (PARENB ||| PARODD)
            c_iflag := setBits s.c_iflag INPCK }) ∨
    (parity = 2 ∧ b.hasExtraParity = true ∧
      t = { s with
            c_cflag := setBits (clearBits s.c_cflag (PARENB ||| PARODD ||| CMSPAR)) PARENB
            c_iflag := setBits s.c_iflag INPCK }) ∨
    (parity = 2 ∧ b.hasExtraParity = false ∧
      t = { s with
            c_cflag := setBits (clearBits s.c_cflag (PARENB ||| PARODD)) PARENB
            c_iflag := setBits s.c_iflag INPCK }) ∨
    (parity = 3 ∧ b.hasExtraParity = true ∧
      t = { s with
            c_cflag := setBits (clearBits s.c_cflag (PARENB ||| PARODD ||| CMSPAR))
              (PARENB ||| PARODD ||| CMSPAR)
            c_iflag := setBits s.c_iflag INPCK }) ∨
    (parity = 4 ∧ b.hasExtraParity = true ∧
      t = { s with
            c_cflag := setBits (clearBits s.c_cflag (PARENB ||| PARODD ||| CMSPAR))
              (PARENB ||| CMSPAR)
            c_iflag := setBits s.c_iflag INPCK }) ∨
    ((parity = 3 ∨ parity = 4) ∧ b.hasExtraParity = false ∧
      t = { s with c_cflag := clearBits s.c_cflag (PARENB ||| PARODD) }) := by
  unfold applyParity at h
  cases he : b.hasExtraParity <;> simp only [he, Bool.false_eq_true, if_false, if_true] at h
  · by_cases p1 : parity = 1
    · subst p1
      simp at h
      simp [← h]
    by_cases p2 : parity = 2
    · subst p2
      simp at h
      simp [← h]
    by_cases p3 : parity = 3
    · subst p3
      simp at h
      simp [← h]
    by_cases p4 : parity = 4
    · subst p4
      simp at h
      simp [← h]
    by_cases p0 : parity = 0
    · subst p0
      simp at h
      simp [← h]
    simp [p0, p1, p2, p3, p4] at h
  · by_cases p1 : parity = 1
    · subst p1
      simp at h
      simp [← h]
    by_cases p2 : parity = 2
    · subst p2
      simp at h
      simp [← h]
    by_cases p3 : parity = 3
    · subst p3
      simp at h
      simp [← h]
    by_cases p4 : parity = 4
    · subst p4
      simp at h
      simp [← h]
    by_cases p0 : parity = 0
    · subst p0
      simp at h
      simp [← h]
    simp [p0, p1, p2, p3, p4] at h

end Posix

namespace Posix

theorem parityMask_testBit (j : Nat) (h8 : j ≠ 8) (h9 : j ≠ 9) (h30 : j ≠ 30) :
    (PARENB ||| PARODD ||| CMSPAR).testBit j = false ∧ (PARENB ||| PARODD).testBit j = false ∧
    (PARENB ||| CMSPAR).testBit j = false ∧ PARENB.testBit j = false := by
  have e1 : PARENB = 2 ^ 8 := by decide
  have e2 : PARODD = 2 ^ 9 := by decide
  have e3 : CMSPAR = 2 ^ 30 := by decide
  simp only [e1, e2, e3, Nat.testBit_or, Nat.testBit_two_pow, Bool.or_eq_false_iff,
    decide_eq_false_iff_not]
  omega

/-- The stage `applyParity` changes no bit of `c_cflag` other than `PARENB`, `PARODD` and `CMSPAR`. -/
theorem applyParity_cflag_other {b : Build} {s t : Termios} {parity : Int}
    (h : applyParity b s parity = some t) (j : Nat) (hj : j < 32)
    (h8 : j ≠ 8) (h9 : j ≠ 9) (h30 : j ≠ 30) :
    t.c_cflag.testBit j = s.c_cflag.testBit j := by
  obtain ⟨m1, m2, m3, m4⟩ := parityMask_testBit j h8 h9 h30
  rcases applyParity_eq_some h with h | h | h | h | h | h | h | h | h <;>
    obtain ⟨_, _, rfl⟩ := h <;>
    simp [testBit_setBits, testBit_clearBits, m1, m2, m3, m4, hj]

/-- The parity bits `applyParity` leaves in `c_cflag` when the extra-parity bit exists. -/
theorem applyParity_parity_bits {b : Build} {s t : Termios} {parity : Int}
    (h : applyParity b s parity = some t) (he : b.hasExtraParity = true) :
    t.c_cflag.testBit 8 = decide (parity = 1 ∨ parity = 2 ∨ parity = 3 ∨ parity = 4) ∧
    t.c_cflag.testBit 9 = decide (parity = 1 ∨ parity = 3) ∧
    t.c_cflag.testBit 30 = decide (parity = 3 ∨ parity = 4) := by
  rcases applyParity_eq_some h with h | h | h | h | h | h | h | h | h <;>
    obtain ⟨hp, he', rfl⟩ := h <;>
    first
    | (rw [he] at he'; exact absurd he' (by decide))
    | (subst hp
       simp +decide [PARENB, PARODD, CMSPAR, testBit_setBits_of_true, testBit_setBits_of_false,
         testBit_clearBits_of_true, testBit_clearBits_of_false])

/-- The stage `applyParity` sets `INPCK` for a parity mode it configures and changes no other
bit of `c_iflag`. -/
theorem applyParity_iflag {b : Build} {s t : Termios} {parity : Int}
    (h : applyParity b s parity = some t) :
    (b.hasExtraParity = true →
      t.c_iflag.testBit 4 = (s.c_iflag.testBit 4 || decide (parity ≠ 0))) ∧
    (∀ j, j ≠ 4 → t.c_iflag.testBit j = s.c_iflag.testBit j) := by
  have e : ∀ j, j ≠ 4 → INPCK.testBit j = false := by
    intro j hj
    have e1 : INPCK = 2 ^ 4 := by decide
    simp only [e1, Nat.testBit_two_pow, decide_eq_false_iff_not]
    omega
  rcases applyParity_eq_some h with h | h | h | h | h | h | h | h | h <;>
    obtain ⟨hp, he', rfl⟩ := h <;>
    refine ⟨?_, ?_⟩
  all_goals first
    | (intro j hj
       simp [testBit_setBits, e j hj])
    | (intro he
       first
       | (rw [he] at he'; exact absurd he' (by decide))
       | (subst hp
          simp +decide [INPCK, testBit_setBits_of_true]))

/-- The stage `applyParity` leaves the other fields alone. -/
theorem applyParity_frame {b : Build} {s t : Termios} {parity : Int}
    (h : applyParity b s parity = some t) :
    t.c_oflag = s.c_oflag ∧ t.c_lflag = s.c_lflag ∧ t.vmin = s.vmin ∧ t.vtime = s.vtime ∧
    t.cc_rest = s.cc_rest ∧ t.c_ispeed = s.c_ispeed ∧ t.c_ospeed = s.c_ospeed := by
  rcases applyParity_eq_some h with h | h | h | h | h | h | h | h | h <;>
    obtain ⟨_, _, rfl⟩ := h <;> simp

/-- The bits `applyRaw` leaves in `c_cflag`: `CREAD` and `CLOCAL` set, `CRTSCTS`
cleared, the other bits of the word unchanged. -/
theorem applyRaw_cflag (b : Build) (s : Termios) (flags : Int) :
    (applyRaw b s flags).c_cflag.testBit 7 = true ∧
    (applyRaw b s flags).c_cflag.testBit 11 = true ∧
    (applyRaw b s flags).c_cflag.testBit 31 = false ∧
    ∀ j, j < 31 → j ≠ 7 → j ≠ 11 →
      (applyRaw b s flags).c_cflag.testBit j = s.c_cflag.testBit j := by
  refine ⟨?_, ?_, ?_, ?_⟩
  · simp +decide [applyRaw, CREAD, CLOCAL, CRTSCTS, testBit_setBits_of_true,
      testBit_clearBits_of_false]
  · simp +decide [applyRaw, CREAD, CLOCAL, CRTSCTS, testBit_setBits_of_true,
      testBit_clearBits_of_false]
  · simp +decide [applyRaw, CREAD, CLOCAL, CRTSCTS, testBit_clearBits_of_true]
  · intro j hj h7 h11
    have e1 : (CREAD ||| CLOCAL).testBit j = false := by
      have a : CREAD = 2 ^ 7 := by decide
      have c : CLOCAL = 2 ^ 11 := by decide
      simp only [a, c, Nat.testBit_or, Nat.testBit_two_pow, Bool.or_eq_false_iff,
        decide_eq_false_iff_not]
      omega
    have e2 : CRTSCTS.testBit j = false := by
      have a : CRTSCTS = 2 ^ 31 := by decide
      simp only [a, Nat.testBit_two_pow, decide_eq_false_iff_not]
      omega
    have hj' : j < 32 := by omega
    simp [applyRaw, testBit_setBits, testBit_clearBits, e1, e2, hj']

/-- The parity-error bits `applyRaw` leaves in `c_iflag`: `IGNPAR` is bit 0 of flags,
`PARMRK` is bit 1 of flags, `INPCK` is cleared. -/
theorem applyRaw_iflag_parity (b : Build) (s : Termios) (flags : Int) :
    (applyRaw b s flags).c_iflag.testBit 2 = (toU32 flags).testBit 0 ∧
    (applyRaw b s flags).c_iflag.testBit 3 = (toU32 flags).testBit 1 ∧
    (applyRaw b s flags).c_iflag.testBit 4 = false := by
  have a0 : allSet (toU32 flags) PARAMS_FLAG_IGNPAR = (toU32 flags).testBit 0 :=
    allSet_two_pow (toU32 flags) 0
  have a1 : allSet (toU32 flags) PARAMS_FLAG_PARMRK = (toU32 flags).testBit 1 :=
    allSet_two_pow (toU32 flags) 1
  unfold applyRaw
  simp only [a0, a1]
  cases (toU32 flags).testBit 0 <;> cases (toU32 flags).testBit 1 <;> cases b.hasIUCLC <;>
    simp +decide [IXON, IXOFF, IXANY, INPCK, IGNPAR, PARMRK, ISTRIP, IGNBRK, BRKINT, INLCR,
      IGNCR, ICRNL, IUCLC, testBit_setBits_of_true, testBit_setBits_of_false,
      testBit_clearBits_of_true, testBit_clearBits_of_false]

end Posix

namespace Posix

/-- Every `tcsetattr` that `setParams` issues carries settings built by `buildSettings`. -/
theorem setParams_committed {b : Build} {n : Native} {d : Device}
    {baudRate byteSize stopBits parity : Int} {setRTS setDTR : Bool} {flags : Int} {t : Termios}
    (h : Call.tcsetattr t ∈
      (setParams b n d baudRate byteSize stopBits parity setRTS setDTR flags).calls) :
    ∃ s, buildSettings b s byteSize stopBits parity flags = some t := by
  have hpre : ∀ c ∈ (baudStage b n d baudRate).2.2.1, c.isTcsetattr = false := by
    intro c hc
    rcases baudStage_calls b n d baudRate c hc with h | h | ⟨h, _⟩ <;> subst h <;> rfl
  rcases setParams_cases b n d baudRate byteSize stopBits parity setRTS setDTR flags with
    ⟨h1, _⟩ | ⟨s, settings, _, h2, h3⟩
  · rw [h1] at h
    exact absurd (hpre _ h) (by simp [Call.isTcsetattr])
  · obtain ⟨post, hp, hq, _, _⟩ := commitStage_calls b n (baudStage b n d baudRate).2.1
      settings baudRate setRTS setDTR (baudStage b n d baudRate).2.2.1
    rw [h3, hp] at h
    rcases List.mem_append.1 h with h | h
    · exact absurd (hpre _ h) (by simp [Call.isTcsetattr])
    · rcases List.mem_cons.1 h with h | h
      · injection h with h
        subst h
        exact ⟨s, h2⟩
      · exact absurd (hq _ h) (by simp [Call.isTcsetattr])

theorem buildSettings_stopBits_one_two (b : Build) (s : Termios)
    (byteSize parity flags : Int) :
    buildSettings b s byteSize 1 parity flags = buildSettings b s byteSize 2 parity flags := by
  have e : ∀ s1, applyStopBits s1 1 = applyStopBits s1 2 := by
    intro s1
    simp [applyStopBits]
  unfold buildSettings
  simp only [e]

/-- The `CSTOPB` bit of the settings built: set for stop-bits codes 1 and 2, cleared for 0. -/
theorem buildSettings_cstopb {b : Build} {s t : Termios} {byteSize stopBits parity flags : Int}
    (h : buildSettings b s byteSize stopBits parity flags = some t) :
    t.c_cflag.testBit 6 = decide (stopBits = 1 ∨ stopBits = 2) := by
  obtain ⟨s1, s2, _, h2, h3⟩ := buildSettings_eq_some h
  rw [applyParity_cflag_other h3 6 (by decide) (by decide) (by decide) (by decide),
    (applyRaw_cflag b s2 flags).2.2.2 6 (by decide) (by decide) (by decide)]
  unfold applyStopBits at h2
  by_cases h0 : stopBits = 0
  · subst h0
    simp only [if_true, Option.some.injEq] at h2
    subst h2
    simp +decide [CSTOPB, testBit_clearBits_of_true]
  · by_cases h12 : stopBits = 1 ∨ stopBits = 2
    · simp only [h0, h12, if_false, if_true, Option.some.injEq] at h2
      subst h2
      simp +decide [CSTOPB, testBit_setBits_of_true, h12]
    · simp [h0, h12] at h2

theorem buildSettings_isSome (b : Build) (s : Termios) (byteSize stopBits parity flags : Int)
    (hb : byteSize = 5 ∨ byteSize = 6 ∨ byteSize = 7 ∨ byteSize = 8)
    (hs : stopBits = 0 ∨ stopBits = 1 ∨ stopBits = 2)
    (hp : parity = 0 ∨ parity = 1 ∨ parity = 2 ∨ parity = 3 ∨ parity = 4) :
    ∃ t, buildSettings b s byteSize stopBits parity flags = some t := by
  rcases hb with rfl | rfl | rfl | rfl <;> rcases hs with rfl | rfl | rfl <;>
    rcases hp with rfl | rfl | rfl | rfl | rfl <;> cases he : b.hasExtraParity <;>
    simp [buildSettings, applyDataBits, getDataBitsByNum, applyStopBits, applyParity, he,
      CS5, CS6, CS7, CS8]

theorem setSpeeds_isSome (n : Native) (s : Termios) (v : Nat)
    (hi : ∀ s v, n.cfsetispeed s v ≠ none) (ho : ∀ s v, n.cfsetospeed s v ≠ none) :
    ∃ s', setSpeeds n s v = some s' := by
  unfold setSpeeds
  cases h1 : n.cfsetispeed s v with
  | none => exact absurd h1 (hi s v)
  | some s1 =>
    cases h2 : n.cfsetospeed s1 v with
    | none => exact absurd h2 (ho s1 v)
    | some s2 => exact ⟨s2, by simp [h2]⟩

/-- A call with valid fields and a baud rate of the table returns true when every
native call succeeds. -/
theorem setParams_ret_true (b : Build) (n : Native) (d : Device)
    (baudRate byteSize stopBits parity : Int) (setRTS setDTR : Bool) (flags : Int)
    (hbaud : getBaudRateByNum baudRate ≠ NO_BAUD)
    (hb : byteSize = 5 ∨ byteSize = 6 ∨ byteSize = 7 ∨ byteSize = 8)
    (hs : stopBits = 0 ∨ stopBits = 1 ∨ stopBits = 2)
    (hp : parity = 0 ∨ parity = 1 ∨ parity = 2 ∨ parity = 3 ∨ parity = 4)
    (hg : n.tcgetattrOk = true)
    (hi : ∀ s v, n.cfsetispeed s v ≠ none) (ho : ∀ s v, n.cfsetospeed s v ≠ none)
    (ht : n.tcsetattrOk = true) (hmg : n.tiocmgetOk = true) (hms : n.tiocmsetOk = true) :
    (setParams b n d baudRate byteSize stopBits parity setRTS setDTR flags).ret = true := by
  have hbs : (baudStage b n d baudRate).1 = setSpeeds n d.line (getBaudRateByNum baudRate) := by
    simp [baudStage, hg, hbaud]
  obtain ⟨s', hs'⟩ := setSpeeds_isSome n d.line (getBaudRateByNum baudRate) hi ho
  rcases setParams_cases b n d baudRate byteSize stopBits parity setRTS setDTR flags with
    ⟨_, h1 | ⟨s, _, h1⟩⟩ | ⟨s, settings, _, _, h3⟩
  · rw [hbs, hs'] at h1
    exact absurd h1 (by simp)
  · obtain ⟨t, ht'⟩ := buildSettings_isSome b s byteSize stopBits parity flags hb hs hp
    rw [ht'] at h1
    exact absurd h1 (by simp)
  · rw [h3, commitStage_ret]
    simp [ht, hmg, hms, hbaud]

end Posix

/-! ## POSIX `setParams`: stop bits and parity -/

/-- C8: on the POSIX backend, for otherwise equal calls, stopBits = 1 and stopBits = 2
give the same result, device state and native calls; every settings structure they
commit has `CSTOPB` set, every one committed with stopBits = 0 has it cleared; and
with valid other fields, a baud rate of the table and succeeding native calls both
return true. -/
theorem setParams_stopBits_one_and_two (b : Posix.Build) (n : Posix.Native) (d : Posix.Device)
    (baudRate byteSize parity : Int) (setRTS setDTR : Bool) (flags : Int) :
    Posix.setParams b n d baudRate byteSize 1 parity setRTS setDTR flags =
      Posix.setParams b n d baudRate byteSize 2 parity setRTS setDTR flags ∧
    (∀ t, Posix.Call.tcsetattr t ∈
        (Posix.setParams b n d baudRate byteSize 1 parity setRTS setDTR flags).calls →
      anySet t.c_cflag Posix.CSTOPB = true) ∧
    (∀ t, Posix.Call.tcsetattr t ∈
        (Posix.setParams b n d baudRate byteSize 0 parity setRTS setDTR flags).calls →
      anySet t.c_cflag Posix.CSTOPB = false) ∧
    (Posix.getBaudRateByNum baudRate ≠ Posix.NO_BAUD →
      (byteSize = 5 ∨ byteSize = 6 ∨ byteSize = 7 ∨ byteSize = 8) →
      (parity = 0 ∨ parity = 1 ∨ parity = 2 ∨ parity = 3 ∨ parity = 4) →
      n.tcgetattrOk = true → (∀ s v, n.cfsetispeed s v ≠ none) →
      (∀ s v, n.cfsetospeed s v ≠ none) → n.tcsetattrOk = true → n.tiocmgetOk = true →
      n.tiocmsetOk = true →
      (Posix.setParams b n d baudRate byteSize 1 parity setRTS setDTR flags).ret = true ∧
      (Posix.setParams b n d baudRate byteSize 2 parity setRTS setDTR flags).ret = true) := by
  have hC : ∀ x, anySet x Posix.CSTOPB = x.testBit 6 := fun x => anySet_two_pow x 6
  refine ⟨?_, ?_, ?_, ?_⟩
  · unfold Posix.setParams
    simp only [Posix.buildSettings_stopBits_one_two]
  · intro t ht
    obtain ⟨s, hs⟩ := Posix.setParams_committed ht
    rw [hC, Posix.buildSettings_cstopb hs]
    decide
  · intro t ht
    obtain ⟨s, hs⟩ := Posix.setParams_committed ht
    rw [hC, Posix.buildSettings_cstopb hs]
    decide
  · intro hbaud hb hp hg hi ho ht hmg hms
    exact ⟨Posix.setParams_ret_true b n d baudRate byteSize 1 parity setRTS setDTR flags hbaud hb
        (Or.inr (Or.inl rfl)) hp hg hi ho ht hmg hms,
      Posix.setParams_ret_true b n d baudRate byteSize 2 parity setRTS setDTR flags hbaud hb
        (Or.inr (Or.inr rfl)) hp hg hi ho ht hmg hms⟩

/-- Witness of C8: 9600 baud 8N with stop-bits codes 1 and 2 on Linux, every native
call succeeding: both calls return true and commit settings with `CSTOPB` set. -/
theorem setParams_stopBits_one_and_two_witness :
    ((Posix.setParams Posix.linuxBuild Posix.Native.allSucceed Posix.sampleDevice
        9600 8 1 0 true true 0).ret = true ∧
      (Posix.setParams Posix.linuxBuild Posix.Native.allSucceed Posix.sampleDevice
        9600 8 2 0 true true 0).ret = true) ∧
    anySet (Posix.setParams Posix.linuxBuild Posix.Native.allSucceed Posix.sampleDevice
        9600 8 1 0 true true 0).dev.line.c_cflag Posix.CSTOPB = true ∧
    anySet (Posix.setParams Posix.linuxBuild Posix.Native.allSucceed Posix.sampleDevice
        9600 8 0 0 true true 0).dev.line.c_cflag Posix.CSTOPB = false := by
  have h1 := setParams_stopBits_one_and_two Posix.linuxBuild Posix.Native.allSucceed
    Posix.sampleDevice 9600 8 0 true true 0
  refine ⟨h1.2.2.2 (by decide) (by decide) (by decide) rfl ?_ ?_ rfl rfl rfl,
    h1.2.1 _ ?_, h1.2.2.1 _ ?_⟩
  · intro s v
    simp [Posix.Native.allSucceed]
  · intro s v
    simp [Posix.Native.allSucceed]
  · decide
  · decide

namespace Posix

theorem buildSettings_mark_space_eq_none_parity (b : Build) (s : Termios)
    (byteSize stopBits flags : Int) (hb : b.hasExtraParity = false) :
    buildSettings b s byteSize stopBits 3 flags = buildSettings b s byteSize stopBits 0 flags ∧
    buildSettings b s byteSize stopBits 4 flags = buildSettings b s byteSize stopBits 0 flags := by
  have e : ∀ s1, applyParity b s1 3 = applyParity b s1 0 ∧ applyParity b s1 4 = applyParity b s1 0 := by
    intro s1
    simp [applyParity, hb]
  unfold buildSettings
  simp only [e]
  exact ⟨trivial, trivial⟩

end Posix

/-- C9 fails on the code: on a build without `PAREXT` and `CMSPAR`, `setParams` with
parity 3 (Mark) or 4 (Space) behaves exactly as with parity 0 (None): same result,
same native calls, same committed settings. -/
theorem setParams_mark_space_without_extra_parity (b : Posix.Build) (n : Posix.Native)
    (d : Posix.Device) (baudRate byteSize stopBits : Int) (setRTS setDTR : Bool) (flags : Int)
    (hb : b.hasExtraParity = false) :
    Posix.setParams b n d baudRate byteSize stopBits 3 setRTS setDTR flags =
      Posix.setParams b n d baudRate byteSize stopBits 0 setRTS setDTR flags ∧
    Posix.setParams b n d baudRate byteSize stopBits 4 setRTS setDTR flags =
      Posix.setParams b n d baudRate byteSize stopBits 0 setRTS setDTR flags := by
  unfold Posix.setParams
  simp only [(Posix.buildSettings_mark_space_eq_none_parity b _ byteSize stopBits flags hb).1,
    (Posix.buildSettings_mark_space_eq_none_parity b _ byteSize stopBits flags hb).2]
  exact ⟨trivial, trivial⟩

/-- Failing input of C9: on a build without the extra-parity bit, 9600 baud, 8 data
bits, parity Mark, every native call succeeding: `setParams` returns true and the
settings in effect have `PARENB` cleared (parity None). -/
theorem setParams_mark_space_without_extra_parity_witness :
    (Posix.setParams ⟨Posix.OS.other, false, true, true⟩ Posix.Native.allSucceed
      Posix.sampleDevice 9600 8 0 3 true true 0).ret = true ∧
    anySet (Posix.setParams ⟨Posix.OS.other, false, true, true⟩ Posix.Native.allSucceed
      Posix.sampleDevice 9600 8 0 3 true true 0).dev.line.c_cflag Posix.PARENB = false := by
  rw [(setParams_mark_space_without_extra_parity ⟨Posix.OS.other, false, true, true⟩
    Posix.Native.allSucceed Posix.sampleDevice 9600 8 0 true true 0 rfl).1]
  exact ⟨by decide, by decide⟩

/-- C10: on a POSIX build with the extra-parity bit, in every settings structure that
`setParams` commits, whatever the prior termios state: `PARENB` is set iff parity is
in 1..4, `PARODD` iff parity is 1 or 3, the extra-parity bit iff parity is 3 or 4,
`INPCK` iff parity is not 0, `IGNPAR` iff bit 0 of flags is set and `PARMRK` iff bit 1
of flags is set. -/
theorem setParams_parity_bits (b : Posix.Build) (n : Posix.Native) (d : Posix.Device)
    (baudRate byteSize stopBits parity : Int) (setRTS setDTR : Bool) (flags : Int)
    (t : Posix.Termios) (hb : b.hasExtraParity = true)
    (ht : Posix.Call.tcsetattr t ∈
      (Posix.setParams b n d baudRate byteSize stopBits parity setRTS setDTR flags).calls) :
    (anySet t.c_cflag Posix.PARENB = true ↔ 1 ≤ parity ∧ parity ≤ 4) ∧
    (anySet t.c_cflag Posix.PARODD = true ↔ parity = 1 ∨ parity = 3) ∧
    (anySet t.c_cflag Posix.CMSPAR = true ↔ parity = 3 ∨ parity = 4) ∧
    (anySet t.c_iflag Posix.INPCK = true ↔ parity ≠ 0) ∧
    (anySet t.c_iflag Posix.IGNPAR = true ↔ (toU32 flags).testBit 0 = true) ∧
    (anySet t.c_iflag Posix.PARMRK = true ↔ (toU32 flags).testBit 1 = true) := by
  obtain ⟨s, hs⟩ := Posix.setParams_committed ht
  obtain ⟨s1, s2, _, _, h3⟩ := Posix.buildSettings_eq_some hs
  obtain ⟨p8, p9, p30⟩ := Posix.applyParity_parity_bits h3 hb
  obtain ⟨i4, io⟩ := Posix.applyParity_iflag h3
  obtain ⟨r2, r3, r4⟩ := Posix.applyRaw_iflag_parity b s2 flags
  have e8 : anySet t.c_cflag Posix.PARENB = t.c_cflag.testBit 8 := anySet_two_pow _ 8
  have e9 : anySet t.c_cflag Posix.PARODD = t.c_cflag.testBit 9 := anySet_two_pow _ 9
  have e30 : anySet t.c_cflag Posix.CMSPAR = t.c_cflag.testBit 30 := anySet_two_pow _ 30
  have e4 : anySet t.c_iflag Posix.INPCK = t.c_iflag.testBit 4 := anySet_two_pow _ 4
  have e2 : anySet t.c_iflag Posix.IGNPAR = t.c_iflag.testBit 2 := anySet_two_pow _ 2
  have e3 : anySet t.c_iflag Posix.PARMRK = t.c_iflag.testBit 3 := anySet_two_pow _ 3
  rw [e8, e9, e30, e4, e2, e3, p8, p9, p30, i4 hb, io 2 (by decide), io 3 (by decide), r2, r3, r4]
  have hpar : parity = 0 ∨ parity = 1 ∨ parity = 2 ∨ parity = 3 ∨ parity = 4 := by
    rcases Posix.applyParity_eq_some h3 with h | h | h | h | h | h | h | h | h <;>
      obtain ⟨hp, _, _⟩ := h <;> omega
  refine ⟨?_, ?_, ?_, ?_, Iff.rfl, Iff.rfl⟩
  · simp only [decide_eq_true_eq]
    omega
  · simp only [decide_eq_true_eq]
  · simp only [decide_eq_true_eq]
  · simp only [Bool.false_or, decide_eq_true_eq]

/-- Witness of C10: Mark parity with flags = 1 on Linux commits `PARENB`, `PARODD`,
`CMSPAR`, `INPCK` and `IGNPAR` set and `PARMRK` cleared. -/
theorem setParams_parity_bits_witness :
    anySet (Posix.setParams Posix.linuxBuild Posix.Native.allSucceed Posix.sampleDevice
      9600 8 0 3 true true 1).dev.line.c_cflag Posix.PARENB = true ∧
    anySet (Posix.setParams Posix.linuxBuild Posix.Native.allSucceed Posix.sampleDevice
      9600 8 0 3 true true 1).dev.line.c_cflag Posix.PARODD = true ∧
    anySet (Posix.setParams Posix.linuxBuild Posix.Native.allSucceed Posix.sampleDevice
      9600 8 0 3 true true 1).dev.line.c_cflag Posix.CMSPAR = true ∧
    anySet (Posix.setParams Posix.linuxBuild Posix.Native.allSucceed Posix.sampleDevice
      9600 8 0 3 true true 1).dev.line.c_iflag Posix.INPCK = true ∧
    anySet (Posix.setParams Posix.linuxBuild Posix.Native.allSucceed Posix.sampleDevice
      9600 8 0 3 true true 1).dev.line.c_iflag Posix.IGNPAR = true ∧
    anySet (Posix.setParams Posix.linuxBuild Posix.Native.allSucceed Posix.sampleDevice
      9600 8 0 3 true true 1).dev.line.c_iflag Posix.PARMRK = false := by
  have h := setParams_parity_bits Posix.linuxBuild Posix.Native.allSucceed Posix.sampleDevice
    9600 8 0 3 true true 1 (Posix.setParams Posix.linuxBuild
      Posix.Native.allSucceed Posix.sampleDevice 9600 8 0 3 true true 1).dev.line rfl (by decide)
  exact ⟨h.1.2 (by decide), h.2.1.2 (by decide), h.2.2.1.2 (by decide), h.2.2.2.1.2 (by decide),
    h.2.2.2.2.1.2 (by decide),
    Bool.eq_false_iff.2 (fun hp => absurd (h.2.2.2.2.2.1 hp) (by decide))⟩

/-! ## POSIX `setParams`: raw mode -/

namespace Posix

/-- The local flags `applyRaw` clears. -/
theorem applyRaw_lflag (b : Build) (s : Termios) (flags : Int) :
    (applyRaw b s flags).c_lflag.testBit 0 = false ∧
    (applyRaw b s flags).c_lflag.testBit 1 = false ∧
    (applyRaw b s flags).c_lflag.testBit 3 = false ∧
    (applyRaw b s flags).c_lflag.testBit 4 = false ∧
    (applyRaw b s flags).c_lflag.testBit 5 = false ∧
    (applyRaw b s flags).c_lflag.testBit 6 = false ∧
    (applyRaw b s flags).c_lflag.testBit 15 = false := by
  refine ⟨?_, ?_, ?_, ?_, ?_, ?_, ?_⟩ <;>
    simp +decide [applyRaw, ICANON, ECHO, ECHOE, ECHOK, ECHONL, ECHOCTL, ECHOPRT, ECHOKE, ISIG,
      IEXTEN, testBit_clearBits_of_true, -Nat.testBit_zero]

/-- The input flags `applyRaw` clears and leaves cleared. -/
theorem applyRaw_iflag_raw (b : Build) (s : Termios) (flags : Int) :
    (applyRaw b s flags).c_iflag.testBit 0 = false ∧
    (applyRaw b s flags).c_iflag.testBit 1 = false ∧
    (applyRaw b s flags).c_iflag.testBit 5 = false ∧
    (applyRaw b s flags).c_iflag.testBit 6 = false ∧
    (applyRaw b s flags).c_iflag.testBit 7 = false ∧
    (applyRaw b s flags).c_iflag.testBit 8 = false ∧
    (applyRaw b s flags).c_iflag.testBit 10 = false ∧
    (applyRaw b s flags).c_iflag.testBit 11 = false ∧
    (applyRaw b s flags).c_iflag.testBit 12 = false := by
  unfold applyRaw
  cases allSet (toU32 flags) PARAMS_FLAG_IGNPAR <;>
    cases allSet (toU32 flags) PARAMS_FLAG_PARMRK <;> cases b.hasIUCLC <;>
    (refine ⟨?_, ?_, ?_, ?_, ?_, ?_, ?_, ?_, ?_⟩ <;>
      simp +decide [IXON, IXOFF, IXANY, INPCK, IGNPAR, PARMRK, ISTRIP, IGNBRK, BRKINT, INLCR,
        IGNCR, ICRNL, IUCLC, testBit_setBits_of_false, testBit_clearBits_of_true,
        testBit_clearBits_of_false, -Nat.testBit_zero])

/-- The output flag, `VMIN` and `VTIME` after `applyRaw`. -/
theorem applyRaw_oflag_cc (b : Build) (s : Termios) (flags : Int) :
    (applyRaw b s flags).c_oflag.testBit 0 = false ∧
    (applyRaw b s flags).vmin = 0 ∧ (applyRaw b s flags).vtime = 0 := by
  refine ⟨?_, rfl, rfl⟩
  simp +decide [applyRaw, OPOST, testBit_clearBits_of_true, -Nat.testBit_zero]

/-- With valid fields and a baud rate of the table, `setParams` reaches `tcsetattr`
when reading the settings and setting the speeds succeed. -/
theorem setParams_issues_tcsetattr (b : Build) (n : Native) (d : Device)
    (baudRate byteSize stopBits parity : Int) (setRTS setDTR : Bool) (flags : Int)
    (hbaud : getBaudRateByNum baudRate ≠ NO_BAUD)
    (hb : byteSize = 5 ∨ byteSize = 6 ∨ byteSize = 7 ∨ byteSize = 8)
    (hs : stopBits = 0 ∨ stopBits = 1 ∨ stopBits = 2)
    (hp : parity = 0 ∨ parity = 1 ∨ parity = 2 ∨ parity = 3 ∨ parity = 4)
    (hg : n.tcgetattrOk = true)
    (hi : ∀ s v, n.cfsetispeed s v ≠ none) (ho : ∀ s v, n.cfsetospeed s v ≠ none) :
    ∃ t, Call.tcsetattr t ∈
      (setParams b n d baudRate byteSize stopBits parity setRTS setDTR flags).calls := by
  have hbs : (baudStage b n d baudRate).1 = setSpeeds n d.line (getBaudRateByNum baudRate) := by
    simp [baudStage, hg, hbaud]
  obtain ⟨s', hs'⟩ := setSpeeds_isSome n d.line (getBaudRateByNum baudRate) hi ho
  rcases setParams_cases b n d baudRate byteSize stopBits parity setRTS setDTR flags with
    ⟨_, h1 | ⟨s, _, h1⟩⟩ | ⟨s, settings, _, _, h3⟩
  · rw [hbs, hs'] at h1
    exact absurd h1 (by simp)
  · obtain ⟨t, ht'⟩ := buildSettings_isSome b s byteSize stopBits parity flags hb hs hp
    rw [ht'] at h1
    exact absurd h1 (by simp)
  · obtain ⟨post, hp', _, _, _⟩ := commitStage_calls b n (baudStage b n d baudRate).2.1
      settings baudRate setRTS setDTR (baudStage b n d baudRate).2.2.1
    refine ⟨settings, ?_⟩
    rw [h3, hp']
    simp

end Posix

/-- C11: on the POSIX backend, for every prior termios state, every settings
structure that `setParams` passes to `tcsetattr` is raw: `ICANON`, `ECHO`, `ECHOE`,
`ECHOK`, `ECHONL`, `ISIG` and `IEXTEN` are cleared in the local flags; `IXON`, `IXOFF`,
`IXANY`, `ISTRIP`, `IGNBRK`, `BRKINT`, `INLCR`, `IGNCR` and `ICRNL` are cleared in the
input flags; `OPOST` is cleared; `CREAD` and `CLOCAL` are set; `VMIN = 0` and
`VTIME = 0`.  With valid fields and a baud rate of the table such a structure is
passed whenever reading the settings and setting the speeds succeed. -/
theorem setParams_commits_raw_mode (b : Posix.Build) (n : Posix.Native) (d : Posix.Device)
    (baudRate byteSize stopBits parity : Int) (setRTS setDTR : Bool) (flags : Int) :
    (∀ t, Posix.Call.tcsetattr t ∈
        (Posix.setParams b n d baudRate byteSize stopBits parity setRTS setDTR flags).calls →
      (anySet t.c_lflag Posix.ICANON = false ∧ anySet t.c_lflag Posix.ECHO = false ∧
        anySet t.c_lflag Posix.ECHOE = false ∧ anySet t.c_lflag Posix.ECHOK = false ∧
        anySet t.c_lflag Posix.ECHONL = false ∧ anySet t.c_lflag Posix.ISIG = false ∧
        anySet t.c_lflag Posix.IEXTEN = false) ∧
      (anySet t.c_iflag Posix.IXON = false ∧ anySet t.c_iflag Posix.IXOFF = false ∧
        anySet t.c_iflag Posix.IXANY = false ∧ anySet t.c_iflag Posix.ISTRIP = false ∧
        anySet t.c_iflag Posix.IGNBRK = false ∧ anySet t.c_iflag Posix.BRKINT = false ∧
        anySet t.c_iflag Posix.INLCR = false ∧ anySet t.c_iflag Posix.IGNCR = false ∧
        anySet t.c_iflag Posix.ICRNL = false) ∧
      anySet t.c_oflag Posix.OPOST = false ∧
      (anySet t.c_cflag Posix.CREAD = true ∧ anySet t.c_cflag Posix.CLOCAL = true) ∧
      t.vmin = 0 ∧ t.vtime = 0) ∧
    (Posix.getBaudRateByNum baudRate ≠ Posix.NO_BAUD →
      (byteSize = 5 ∨ byteSize = 6 ∨ byteSize = 7 ∨ byteSize = 8) →
      (stopBits = 0 ∨ stopBits = 1 ∨ stopBits = 2) →
      (parity = 0 ∨ parity = 1 ∨ parity = 2 ∨ parity = 3 ∨ parity = 4) →
      n.tcgetattrOk = true → (∀ s v, n.cfsetispeed s v ≠ none) →
      (∀ s v, n.cfsetospeed s v ≠ none) →
      ∃ t, Posix.Call.tcsetattr t ∈
        (Posix.setParams b n d baudRate byteSize stopBits parity setRTS setDTR flags).calls) := by
  refine ⟨?_, Posix.setParams_issues_tcsetattr b n d baudRate byteSize stopBits parity setRTS
    setDTR flags⟩
  intro t ht
  obtain ⟨s, hs⟩ := Posix.setParams_committed ht
  obtain ⟨s1, s2, _, _, h3⟩ := Posix.buildSettings_eq_some hs
  obtain ⟨fo, fl, fm, ft, _, _, _⟩ := Posix.applyParity_frame h3
  obtain ⟨_, io⟩ := Posix.applyParity_iflag h3
  obtain ⟨l0, l1, l3, l4, l5, l6, l15⟩ := Posix.applyRaw_lflag b s2 flags
  obtain ⟨i0, i1, i5, i6, i7, i8, i10, i11, i12⟩ := Posix.applyRaw_iflag_raw b s2 flags
  obtain ⟨o0, vm, vt⟩ := Posix.applyRaw_oflag_cc b s2 flags
  obtain ⟨c7, c11, _, _⟩ := Posix.applyRaw_cflag b s2 flags
  have k7 := Posix.applyParity_cflag_other h3 7 (by decide) (by decide) (by decide) (by decide)
  have k11 := Posix.applyParity_cflag_other h3 11 (by decide) (by decide) (by decide) (by decide)
  refine ⟨⟨?_, ?_, ?_, ?_, ?_, ?_, ?_⟩, ⟨?_, ?_, ?_, ?_, ?_, ?_, ?_, ?_, ?_⟩, ?_, ⟨?_, ?_⟩,
    by rw [fm, vm], by rw [ft, vt]⟩
  · rw [show Posix.ICANON = 2 ^ 1 from rfl, anySet_two_pow, fl, l1]
  · rw [show Posix.ECHO = 2 ^ 3 from rfl, anySet_two_pow, fl, l3]
  · rw [show Posix.ECHOE = 2 ^ 4 from rfl, anySet_two_pow, fl, l4]
  · rw [show Posix.ECHOK = 2 ^ 5 from rfl, anySet_two_pow, fl, l5]
  · rw [show Posix.ECHONL = 2 ^ 6 from rfl, anySet_two_pow, fl, l6]
  · rw [show Posix.ISIG = 2 ^ 0 from rfl, anySet_two_pow, fl, l0]
  · rw [show Posix.IEXTEN = 2 ^ 15 from rfl, anySet_two_pow, fl, l15]
  · rw [show Posix.IXON = 2 ^ 10 from rfl, anySet_two_pow, io 10 (by decide), i10]
  · rw [show Posix.IXOFF = 2 ^ 12 from rfl, anySet_two_pow, io 12 (by decide), i12]
  · rw [show Posix.IXANY = 2 ^ 11 from rfl, anySet_two_pow, io 11 (by decide), i11]
  · rw [show Posix.ISTRIP = 2 ^ 5 from rfl, anySet_two_pow, io 5 (by decide), i5]
  · rw [show Posix.IGNBRK = 2 ^ 0 from rfl, anySet_two_pow, io 0 (by decide), i0]
  · rw [show Posix.BRKINT = 2 ^ 1 from rfl, anySet_two_pow, io 1 (by decide), i1]
  · rw [show Posix.INLCR = 2 ^ 6 from rfl, anySet_two_pow, io 6 (by decide), i6]
  · rw [show Posix.IGNCR = 2 ^ 7 from rfl, anySet_two_pow, io 7 (by decide), i7]
  · rw [show Posix.ICRNL = 2 ^ 8 from rfl, anySet_two_pow, io 8 (by decide), i8]
  · rw [show Posix.OPOST = 2 ^ 0 from rfl, anySet_two_pow, fo, o0]
  · rw [show Posix.CREAD = 2 ^ 7 from rfl, anySet_two_pow, k7, c7]
  · rw [show Posix.CLOCAL = 2 ^ 11 from rfl, anySet_two_pow, k11, c11]

/-- Witness of C11: from the cooked sample line, 9600 baud 8N1 on Linux commits raw
local flags, `CREAD` and `CLOCAL` set, `VMIN = 0` and `VTIME = 0`. -/
theorem setParams_commits_raw_mode_witness :
    anySet (Posix.setParams Posix.linuxBuild Posix.Native.allSucceed Posix.sampleDevice
      9600 8 0 0 true true 0).dev.line.c_lflag Posix.ICANON = false ∧
    anySet (Posix.setParams Posix.linuxBuild Posix.Native.allSucceed Posix.sampleDevice
      9600 8 0 0 true true 0).dev.line.c_iflag Posix.ICRNL = false ∧
    anySet (Posix.setParams Posix.linuxBuild Posix.Native.allSucceed Posix.sampleDevice
      9600 8 0 0 true true 0).dev.line.c_oflag Posix.OPOST = false ∧
    anySet (Posix.setParams Posix.linuxBuild Posix.Native.allSucceed Posix.sampleDevice
      9600 8 0 0 true true 0).dev.line.c_cflag Posix.CLOCAL = true ∧
    (Posix.setParams Posix.linuxBuild Posix.Native.allSucceed Posix.sampleDevice
      9600 8 0 0 true true 0).dev.line.vmin = 0 := by
  have h := (setParams_commits_raw_mode Posix.linuxBuild Posix.Native.allSucceed
    Posix.sampleDevice 9600 8 0 0 true true 0).1 (Posix.setParams Posix.linuxBuild
      Posix.Native.allSucceed Posix.sampleDevice 9600 8 0 0 true true 0).dev.line (by decide)
  exact ⟨h.1.1, h.2.1.2.2.2.2.2.2.2.2, h.2.2.1, h.2.2.2.1.2, h.2.2.2.2.1⟩

/-! ## POSIX `setParams`: the RTS and DTR levels -/

namespace Posix

/-- The modem-control word after the RTS and DTR updates of `setParams`: bit 2 (RTS)
and bit 1 (DTR) take the requested levels, the other bits of the word are kept. -/
theorem modemWord_bits (m : Nat) (setRTS setDTR : Bool) :
    ((if setDTR then setBits (if setRTS then setBits m TIOCM_RTS else clearBits m TIOCM_RTS)
          TIOCM_DTR
        else clearBits (if setRTS then setBits m TIOCM_RTS else clearBits m TIOCM_RTS)
          TIOCM_DTR).testBit 2 = setRTS) ∧
    ((if setDTR then setBits (if setRTS then setBits m TIOCM_RTS else clearBits m TIOCM_RTS)
          TIOCM_DTR
        else clearBits (if setRTS then setBits m TIOCM_RTS else clearBits m TIOCM_RTS)
          TIOCM_DTR).testBit 1 = setDTR) ∧
    ∀ j, j < 32 → j ≠ 1 → j ≠ 2 →
      (if setDTR then setBits (if setRTS then setBits m TIOCM_RTS else clearBits m TIOCM_RTS)
          TIOCM_DTR
        else clearBits (if setRTS then setBits m TIOCM_RTS else clearBits m TIOCM_RTS)
          TIOCM_DTR).testBit j = m.testBit j := by
  refine ⟨?_, ?_, ?_⟩
  · cases setRTS <;> cases setDTR <;>
      simp +decide [TIOCM_RTS, TIOCM_DTR, testBit_setBits_of_true, testBit_setBits_of_false,
        testBit_clearBits_of_true, testBit_clearBits_of_false]
  · cases setRTS <;> cases setDTR <;>
      simp +decide [TIOCM_RTS, TIOCM_DTR, testBit_setBits_of_true, testBit_setBits_of_false,
        testBit_clearBits_of_true, testBit_clearBits_of_false]
  · intro j hj h1 h2
    have e1 : TIOCM_DTR.testBit j = false := by
      rw [show TIOCM_DTR = 2 ^ 1 from rfl, Nat.testBit_two_pow]
      simp only [decide_eq_false_iff_not]
      omega
    have e2 : TIOCM_RTS.testBit j = false := by
      rw [show TIOCM_RTS = 2 ^ 2 from rfl, Nat.testBit_two_pow]
      simp only [decide_eq_false_iff_not]
      omega
    cases setRTS <;> cases setDTR <;> simp [testBit_setBits, testBit_clearBits, e1, e2, hj]

/-- The calls and the result of `modemStage`, case by case. -/
theorem modemStage_eq (n : Native) (d : Device) (setRTS setDTR : Bool) (pre : List Call) :
    (n.tiocmgetOk = false ∧ (modemStage n d setRTS setDTR pre).calls = pre ++ [Call.tiocmget] ∧
      (modemStage n d setRTS setDTR pre).ret = false) ∨
    (n.tiocmgetOk = true ∧
      (modemStage n d setRTS setDTR pre).calls = pre ++ [Call.tiocmget, Call.tiocmset
        (if setDTR then
          setBits (if setRTS then setBits d.modem TIOCM_RTS else clearBits d.modem TIOCM_RTS)
            TIOCM_DTR
        else
          clearBits (if setRTS then setBits d.modem TIOCM_RTS else clearBits d.modem TIOCM_RTS)
            TIOCM_DTR)] ∧
      (modemStage n d setRTS setDTR pre).ret = n.tiocmsetOk) := by
  unfold modemStage
  cases h1 : n.tiocmgetOk
  · left
    simp
  · right
    cases h2 : n.tiocmsetOk <;> simp

/-- The calls and the result of `commitStage`, case by case. -/
theorem commitStage_eq (b : Build) (n : Native) (d : Device) (settings : Termios)
    (baudRate : Int) (setRTS setDTR : Bool) (pre : List Call) :
    ((commitStage b n d settings baudRate setRTS setDTR pre).ret = false ∧
      ∃ mid, (commitStage b n d settings baudRate setRTS setDTR pre).calls =
          pre ++ Call.tcsetattr settings :: mid ∧
        ∀ c ∈ mid, c.isTiocmset = false) ∨
    (n.tcsetattrOk = true ∧ n.tiocmgetOk = true ∧
      (commitStage b n d settings baudRate setRTS setDTR pre).ret = n.tiocmsetOk ∧
      ∃ mid, (∀ c ∈ mid, c.isTiocmset = false) ∧
        (commitStage b n d settings baudRate setRTS setDTR pre).calls =
          pre ++ Call.tcsetattr settings :: mid ++ [Call.tiocmget, Call.tiocmset
            (if setDTR then
              setBits (if setRTS then setBits d.modem TIOCM_RTS else clearBits d.modem TIOCM_RTS)
                TIOCM_DTR
            else
              clearBits
                (if setRTS then setBits d.modem TIOCM_RTS else clearBits d.modem TIOCM_RTS)
                TIOCM_DTR)]) := by
  unfold commitStage
  cases h1 : n.tcsetattrOk
  · left
    exact ⟨by simp, [], by simp, by simp⟩
  · by_cases h2 : b.os = OS.apple ∧ getBaudRateByNum baudRate = NO_BAUD
    · cases h3 : n.iossiospeedOk
      · left
        exact ⟨by simp [h2], [Call.iossiospeed (toU32 baudRate)], by simp [h2],
          by simp [Call.isTiocmset]⟩
      · rcases modemStage_eq n { d with line := settings } setRTS setDTR
          (pre ++ [Call.tcsetattr settings] ++ [Call.iossiospeed (toU32 baudRate)]) with
          ⟨_, hc, hr⟩ | ⟨hg, hc, hr⟩
        · left
          refine ⟨by simpa [h2] using hr, [Call.iossiospeed (toU32 baudRate), Call.tiocmget], ?_,
            by simp [Call.isTiocmset]⟩
          simp only [h2, and_self, if_true, Bool.not_true, Bool.false_eq_true, if_false]
          rw [hc]
          simp
        · right
          refine ⟨rfl, hg, by simpa [h2] using hr, [Call.iossiospeed (toU32 baudRate)],
            by simp [Call.isTiocmset], ?_⟩
          simp only [h2, and_self, if_true, Bool.not_true, Bool.false_eq_true, if_false]
          rw [hc]
          simp
    · rcases modemStage_eq n { d with line := settings } setRTS setDTR
        (pre ++ [Call.tcsetattr settings]) with ⟨_, hc, hr⟩ | ⟨hg, hc, hr⟩
      · left
        refine ⟨by simpa [h2] using hr, [Call.tiocmget], ?_, by simp [Call.isTiocmset]⟩
        simp only [h2, if_true, if_false]
        rw [hc]
        simp
      · right
        refine ⟨rfl, hg, by simpa [h2] using hr, [], by simp, ?_⟩
        simp only [h2, if_true, if_false]
        rw [hc]

end Posix

/-- C12: on the POSIX backend `setParams` applies the RTS and DTR levels as its last
step.  Whenever it issues the modem-control write `TIOCMSET`, `tcsetattr` has succeeded
and precedes it in the call sequence, the write is the last call, and the word written
is the word read by `TIOCMGET` with bit RTS equal to setRTS, bit DTR equal to setDTR
and every other bit of the word unchanged; `setParams` returns true exactly when that
write is issued and succeeds. -/
theorem setParams_line_levels_last (b : Posix.Build) (n : Posix.Native) (d : Posix.Device)
    (baudRate byteSize stopBits parity : Int) (setRTS setDTR : Bool) (flags : Int) :
    (∀ w, Posix.Call.tiocmset w ∈
        (Posix.setParams b n d baudRate byteSize stopBits parity setRTS setDTR flags).calls →
      n.tcsetattrOk = true ∧ n.tiocmgetOk = true ∧
      (∃ pre t mid,
        (Posix.setParams b n d baudRate byteSize stopBits parity setRTS setDTR flags).calls =
          pre ++ Posix.Call.tcsetattr t :: mid ++ [Posix.Call.tiocmget, Posix.Call.tiocmset w] ∧
        (∀ c ∈ pre ++ mid, c.isTiocmset = false)) ∧
      w.testBit 2 = setRTS ∧ w.testBit 1 = setDTR ∧
      (∀ j, j < 32 → j ≠ 1 → j ≠ 2 → w.testBit j = d.modem.testBit j) ∧
      (Posix.setParams b n d baudRate byteSize stopBits parity setRTS setDTR flags).ret =
        n.tiocmsetOk) ∧
    ((Posix.setParams b n d baudRate byteSize stopBits parity setRTS setDTR flags).ret = true ↔
      (∃ w, Posix.Call.tiocmset w ∈
        (Posix.setParams b n d baudRate byteSize stopBits parity setRTS setDTR flags).calls) ∧
      n.tiocmsetOk = true) := by
  have hpre : ∀ c ∈ (Posix.baudStage b n d baudRate).2.2.1, c.isTiocmset = false := by
    intro c hc
    rcases Posix.baudStage_calls b n d baudRate c hc with h | h | ⟨h, _⟩ <;> subst h <;> rfl
  have hnot : ∀ (l : List Posix.Call) (w : Nat), (∀ c ∈ l, c.isTiocmset = false) →
      Posix.Call.tiocmset w ∉ l := by
    intro l w hl hw
    exact absurd (hl _ hw) (by simp [Posix.Call.isTiocmset])
  rcases Posix.setParams_cases b n d baudRate byteSize stopBits parity setRTS setDTR flags with
    ⟨h1, _⟩ | ⟨s, settings, _, _, h3⟩
  · rw [h1]
    refine ⟨?_, ?_⟩
    · intro w hw
      exact absurd hw (hnot _ w hpre)
    · constructor
      · intro h
        exact absurd h (by simp)
      · rintro ⟨⟨w, hw⟩, _⟩
        exact absurd hw (hnot _ w hpre)
  · rw [h3]
    have hm := (Posix.baudStage_line b n d baudRate).2
    rcases Posix.commitStage_eq b n (Posix.baudStage b n d baudRate).2.1 settings baudRate
      setRTS setDTR (Posix.baudStage b n d baudRate).2.2.1 with
      ⟨hr, mid, hc, hmid⟩ | ⟨ht, hg, hr, mid, hmid, hc⟩
    · have hno : ∀ w, Posix.Call.tiocmset w ∉
          (Posix.commitStage b n (Posix.baudStage b n d baudRate).2.1 settings baudRate setRTS
            setDTR (Posix.baudStage b n d baudRate).2.2.1).calls := by
        intro w hw
        rw [hc] at hw
        rcases List.mem_append.1 hw with h | h
        · exact hnot _ w hpre h
        · rcases List.mem_cons.1 h with h | h
          · exact absurd h (by simp)
          · exact hnot _ w hmid h
      refine ⟨fun w hw => absurd hw (hno w), ?_⟩
      rw [hr]
      constructor
      · intro h
        exact absurd h (by simp)
      · rintro ⟨⟨w, hw⟩, _⟩
        exact absurd hw (hno w)
    · rw [hm] at hc
      obtain ⟨b2, b1, bo⟩ := Posix.modemWord_bits d.modem setRTS setDTR
      refine ⟨?_, ?_⟩
      · intro w hw
        have hw' : w = (if setDTR then
              setBits (if setRTS then setBits d.modem Posix.TIOCM_RTS
                else clearBits d.modem Posix.TIOCM_RTS) Posix.TIOCM_DTR
            else
              clearBits (if setRTS then setBits d.modem Posix.TIOCM_RTS
                else clearBits d.modem Posix.TIOCM_RTS) Posix.TIOCM_DTR) := by
          rw [hc] at hw
          rcases List.mem_append.1 hw with h | h
          · rcases List.mem_append.1 h with h | h
            · exact absurd h (hnot _ w hpre)
            · rcases List.mem_cons.1 h with h | h
              · exact absurd h (by simp)
              · exact absurd h (hnot _ w hmid)
          · simpa using h
        refine ⟨ht, hg, ⟨(Posix.baudStage b n d baudRate).2.2.1, settings, mid, ?_, ?_⟩, ?_, ?_, ?_,
          hr⟩
        · rw [hc, hw']
        · intro c hc'
          rcases List.mem_append.1 hc' with h | h
          · exact hpre c h
          · exact hmid c h
        · rw [hw']; exact b2
        · rw [hw']; exact b1
        · rw [hw']; exact bo
      · rw [hr]
        constructor
        · intro h
          refine ⟨⟨(if setDTR then
              setBits (if setRTS then setBits d.modem Posix.TIOCM_RTS
                else clearBits d.modem Posix.TIOCM_RTS) Posix.TIOCM_DTR
            else
              clearBits (if setRTS then setBits d.modem Posix.TIOCM_RTS
                else clearBits d.modem Posix.TIOCM_RTS) Posix.TIOCM_DTR), ?_⟩, h⟩
          rw [hc]
          simp
        · rintro ⟨_, h⟩
          exact h

/-- Witness of C12: on the sample line (modem word 0) with setRTS = true and
setDTR = false the call returns true and its last call writes the word 4 (RTS). -/
theorem setParams_line_levels_last_witness :
    (Posix.setParams Posix.linuxBuild Posix.Native.allSucceed Posix.sampleDevice
      9600 8 0 0 true false 0).ret = true ∧
    (Posix.setParams Posix.linuxBuild Posix.Native.allSucceed Posix.sampleDevice
      9600 8 0 0 true false 0).calls.getLast? = some (Posix.Call.tiocmset 4) ∧
    Nat.testBit 4 2 = true ∧ Nat.testBit 4 1 = false := by
  have h := (setParams_line_levels_last Posix.linuxBuild Posix.Native.allSucceed
    Posix.sampleDevice 9600 8 0 0 true false 0).1 4 (by decide)
  refine ⟨h.2.2.2.2.2.2, by decide, h.2.2.2.1, h.2.2.2.2.1⟩

/-! ## POSIX control lines -/

namespace Posix

/-- Setting or clearing bit `k` of a 32-bit word changes that bit only. -/
theorem single_bit_update (m k : Nat) (hk : k < 32) (enabled : Bool) :
    (if enabled then setBits m (2 ^ k) else clearBits m (2 ^ k)).testBit k = enabled ∧
    ∀ j, j < 32 → j ≠ k →
      (if enabled then setBits m (2 ^ k) else clearBits m (2 ^ k)).testBit j = m.testBit j := by
  refine ⟨?_, ?_⟩
  · cases enabled <;> simp [testBit_setBits, testBit_clearBits, Nat.testBit_two_pow, hk]
  · intro j hj hjk
    have e : (2 ^ k).testBit j = false := by
      rw [Nat.testBit_two_pow]
      simp only [decide_eq_false_iff_not]
      omega
    cases enabled <;> simp [testBit_setBits, testBit_clearBits, e, hj]

end Posix

/-- C13: on the POSIX backend, for every modem-status word and every value of
enabled, `setRTS` (`setDTR`) succeeds exactly when the modem-control read and write both
succeed.  Whenever the read succeeds it reads the word once and writes back that word
with the RTS (DTR) bit equal to enabled and every other bit of the word unchanged, so
`setRTS` keeps the DTR bit and `setDTR` keeps the RTS bit, and a successful write puts
that word in effect; when the read fails nothing is written, the result is false and
the device is untouched. -/
theorem setRTS_setDTR_single_bit (n : Posix.ModemNative) (d : Posix.Device) (enabled : Bool) :
    ((Posix.setRTS n d enabled).ret = true ↔ n.tiocmgetOk = true ∧ n.tiocmsetOk = true) ∧
    ((Posix.setDTR n d enabled).ret = true ↔ n.tiocmgetOk = true ∧ n.tiocmsetOk = true) ∧
    (n.tiocmgetOk = true →
      ∃ w, (Posix.setRTS n d enabled).calls = [Posix.Call.tiocmget, Posix.Call.tiocmset w] ∧
        (n.tiocmsetOk = true → (Posix.setRTS n d enabled).dev.modem = w) ∧
        anySet w Posix.TIOCM_RTS = enabled ∧
        anySet w Posix.TIOCM_DTR = anySet d.modem Posix.TIOCM_DTR ∧
        ∀ j, j < 32 → j ≠ 2 → w.testBit j = d.modem.testBit j) ∧
    (n.tiocmgetOk = true →
      ∃ w, (Posix.setDTR n d enabled).calls = [Posix.Call.tiocmget, Posix.Call.tiocmset w] ∧
        (n.tiocmsetOk = true → (Posix.setDTR n d enabled).dev.modem = w) ∧
        anySet w Posix.TIOCM_DTR = enabled ∧
        anySet w Posix.TIOCM_RTS = anySet d.modem Posix.TIOCM_RTS ∧
        ∀ j, j < 32 → j ≠ 1 → w.testBit j = d.modem.testBit j) ∧
    (n.tiocmgetOk = false →
      (Posix.setRTS n d enabled).ret = false ∧
      (Posix.setRTS n d enabled).calls = [Posix.Call.tiocmget] ∧
      (Posix.setRTS n d enabled).dev = d ∧
      (Posix.setDTR n d enabled).ret = false ∧
      (Posix.setDTR n d enabled).calls = [Posix.Call.tiocmget] ∧
      (Posix.setDTR n d enabled).dev = d) := by
  obtain ⟨g, s⟩ := n
  have hR := Posix.single_bit_update d.modem 2 (by decide) enabled
  have hD := Posix.single_bit_update d.modem 1 (by decide) enabled
  have eR : ∀ x, anySet x Posix.TIOCM_RTS = x.testBit 2 := fun x => anySet_two_pow x 2
  have eD : ∀ x, anySet x Posix.TIOCM_DTR = x.testBit 1 := fun x => anySet_two_pow x 1
  refine ⟨?_, ?_, ?_, ?_, ?_⟩
  · cases g <;> cases s <;> simp [Posix.setRTS]
  · cases g <;> cases s <;> simp [Posix.setDTR]
  · intro hg
    simp only at hg
    subst hg
    refine ⟨(if enabled then setBits d.modem Posix.TIOCM_RTS
      else clearBits d.modem Posix.TIOCM_RTS), ?_, ?_, ?_, ?_, ?_⟩
    · cases s <;> simp [Posix.setRTS]
    · intro hs
      simp only at hs
      subst hs
      simp [Posix.setRTS]
    · rw [eR]; exact hR.1
    · rw [eD, eD]; exact hR.2 1 (by decide) (by decide)
    · exact hR.2
  · intro hg
    simp only at hg
    subst hg
    refine ⟨(if enabled then setBits d.modem Posix.TIOCM_DTR
      else clearBits d.modem Posix.TIOCM_DTR), ?_, ?_, ?_, ?_, ?_⟩
    · cases s <;> simp [Posix.setDTR]
    · intro hs
      simp only at hs
      subst hs
      simp [Posix.setDTR]
    · rw [eD]; exact hD.1
    · rw [eR, eR]; exact hD.2 2 (by decide) (by decide)
    · exact hD.2
  · intro hg
    simp only at hg
    subst hg
    simp [Posix.setRTS, Posix.setDTR]

/-- Witness of C13: with both native calls succeeding, `setRTS` with enabled = true
on the word 0x22 (CTS and DTR set) returns true, writes 0x26 and leaves it in effect;
`setDTR` with enabled = true on the word 0x24 writes 0x26; `setRTS` with enabled =
false on the word 0x26 writes 0x22; with a failing read nothing is written. -/
theorem setRTS_setDTR_single_bit_witness :
    (Posix.setRTS ⟨true, true⟩ { Posix.sampleDevice with modem := 34 } true).ret = true ∧
    (Posix.setRTS ⟨true, true⟩ { Posix.sampleDevice with modem := 34 } true).calls =
      [Posix.Call.tiocmget, Posix.Call.tiocmset 38] ∧
    (Posix.setRTS ⟨true, true⟩ { Posix.sampleDevice with modem := 34 } true).dev.modem = 38 ∧
    (Posix.setDTR ⟨true, true⟩ { Posix.sampleDevice with modem := 36 } true).ret = true ∧
    (Posix.setDTR ⟨true, true⟩ { Posix.sampleDevice with modem := 36 } true).calls =
      [Posix.Call.tiocmget, Posix.Call.tiocmset 38] ∧
    (Posix.setRTS ⟨true, true⟩ { Posix.sampleDevice with modem := 38 } false).calls =
      [Posix.Call.tiocmget, Posix.Call.tiocmset 34] ∧
    (Posix.setRTS ⟨false, true⟩ { Posix.sampleDevice with modem := 38 } false).calls =
      [Posix.Call.tiocmget] := by
  have h1 := setRTS_setDTR_single_bit ⟨true, true⟩ { Posix.sampleDevice with modem := 34 } true
  have h2 := setRTS_setDTR_single_bit ⟨true, true⟩ { Posix.sampleDevice with modem := 36 } true
  have h3 := setRTS_setDTR_single_bit ⟨true, true⟩ { Posix.sampleDevice with modem := 38 } false
  have h4 := setRTS_setDTR_single_bit ⟨false, true⟩ { Posix.sampleDevice with modem := 38 } false
  obtain ⟨w1, c1, m1, _⟩ := h1.2.2.1 rfl
  obtain ⟨w2, c2, _⟩ := h2.2.2.2.1 rfl
  obtain ⟨w3, c3, _⟩ := h3.2.2.1 rfl
  have e1 : w1 = 38 := by
    have e := c1
    rw [show (Posix.setRTS ⟨true, true⟩ { Posix.sampleDevice with modem := 34 } true).calls =
      [Posix.Call.tiocmget, Posix.Call.tiocmset 38] from by decide] at e
    simpa using e.symm
  have e2 : w2 = 38 := by
    have e := c2
    rw [show (Posix.setDTR ⟨true, true⟩ { Posix.sampleDevice with modem := 36 } true).calls =
      [Posix.Call.tiocmget, Posix.Call.tiocmset 38] from by decide] at e
    simpa using e.symm
  have e3 : w3 = 34 := by
    have e := c3
    rw [show (Posix.setRTS ⟨true, true⟩ { Posix.sampleDevice with modem := 38 } false).calls =
      [Posix.Call.tiocmget, Posix.Call.tiocmset 34] from by decide] at e
    simpa using e.symm
  subst e1 e2 e3
  exact ⟨h1.1.2 ⟨rfl, rfl⟩, c1, m1 rfl, h2.2.1.2 ⟨rfl, rfl⟩, c2, c3, (h4.2.2.2.2 rfl).2.1⟩

/-! ## Flow-control modes -/

/-- The low four bits of a word, bit by bit. -/
theorem and_fifteen (u : Nat) :
    u &&& 15 = (if u.testBit 0 then 1 else 0) ||| (if u.testBit 1 then 2 else 0) |||
      (if u.testBit 2 then 4 else 0) ||| (if u.testBit 3 then 8 else 0) := by
  have e : (15 : Nat) = 2 ^ 0 ||| 2 ^ 1 ||| 2 ^ 2 ||| 2 ^ 3 := by decide
  rw [e, Nat.and_or_distrib_left, Nat.and_or_distrib_left, Nat.and_or_distrib_left,
    and_two_pow_eq, and_two_pow_eq, and_two_pow_eq, and_two_pow_eq]
  rfl

theorem toU32_zero : toU32 0 = 0 := by decide

namespace Posix

/-- The flow-control bits of the line after a successful `setFlowControlMode`. -/
theorem setFlowControlMode_line (n : FlowNative) (d : Device) (m : Int)
    (hret : (setFlowControlMode n d m).ret = true) :
    (setFlowControlMode n d m).dev.line.c_cflag.testBit 31 =
      ((toU32 m).testBit 0 || (toU32 m).testBit 1) ∧
    (setFlowControlMode n d m).dev.line.c_iflag.testBit 12 = (toU32 m).testBit 2 ∧
    (setFlowControlMode n d m).dev.line.c_iflag.testBit 10 = (toU32 m).testBit 3 := by
  have a0 : allSet (toU32 m) FLOWCONTROL_RTSCTS_IN = (toU32 m).testBit 0 :=
    allSet_two_pow (toU32 m) 0
  have a1 : allSet (toU32 m) FLOWCONTROL_RTSCTS_OUT = (toU32 m).testBit 1 :=
    allSet_two_pow (toU32 m) 1
  have a2 : allSet (toU32 m) FLOWCONTROL_XONXOFF_IN = (toU32 m).testBit 2 :=
    allSet_two_pow (toU32 m) 2
  have a3 : allSet (toU32 m) FLOWCONTROL_XONXOFF_OUT = (toU32 m).testBit 3 :=
    allSet_two_pow (toU32 m) 3
  obtain ⟨g, s⟩ := n
  unfold setFlowControlMode at hret ⊢
  cases g <;> cases s <;> simp at hret
  simp only [a0, a1, a2, a3, if_true]
  by_cases hm : m = FLOWCONTROL_NONE
  · subst hm
    simp +decide [FLOWCONTROL_NONE, toU32_zero, CRTSCTS, IXON, IXOFF, testBit_clearBits_of_true,
      -Nat.testBit_zero]
  · simp only [ne_eq, hm, not_false_eq_true, if_true]
    cases (toU32 m).testBit 0 <;> cases (toU32 m).testBit 1 <;> cases (toU32 m).testBit 2 <;>
      cases (toU32 m).testBit 3 <;>
      simp +decide [CRTSCTS, IXON, IXOFF, testBit_clearBits_of_true, testBit_setBits_of_true,
        testBit_setBits_of_false, testBit_clearBits_of_false]

end Posix

/-- C14: on the POSIX backend, for every mask m and every prior termios state, after a
successful `setFlowControlMode(m)` a `getFlowControlMode` whose `tcgetattr` succeeds
returns `(3 if m has bit 1 or bit 2, else 0) | (m & 4) | (m & 8)`: a superset of
`m & 15` in which the RTS/CTS-in and RTS/CTS-out bits are both set or both clear, and
which equals `m & 15` exactly when m has both of those bits or neither.  (When its
`tcgetattr` fails `getFlowControlMode` returns -1.) -/
theorem posix_flowControl_round_trip (n : Posix.FlowNative) (d : Posix.Device) (m : Int)
    (hret : (Posix.setFlowControlMode n d m).ret = true) :
    ∃ r : Nat,
      Posix.getFlowControlMode true (Posix.setFlowControlMode n d m).dev = (r : Int) ∧
      r = (if allSet (toU32 m) 1 || allSet (toU32 m) 2 then 3 else 0) |||
        (toU32 m &&& 4) ||| (toU32 m &&& 8) ∧
      (toU32 m &&& 15) &&& r = toU32 m &&& 15 ∧
      r.testBit 0 = r.testBit 1 ∧
      (r = toU32 m &&& 15 ↔ (toU32 m).testBit 0 = (toU32 m).testBit 1) ∧
      Posix.getFlowControlMode false (Posix.setFlowControlMode n d m).dev = -1 := by
  obtain ⟨h31, h12, h10⟩ := Posix.setFlowControlMode_line n d m hret
  have e31 : ∀ x, anySet x Posix.CRTSCTS = x.testBit 31 := fun x => anySet_two_pow x 31
  have e12 : ∀ x, anySet x Posix.IXOFF = x.testBit 12 := fun x => anySet_two_pow x 12
  have e10 : ∀ x, anySet x Posix.IXON = x.testBit 10 := fun x => anySet_two_pow x 10
  have a0 : allSet (toU32 m) 1 = (toU32 m).testBit 0 := allSet_two_pow (toU32 m) 0
  have a1 : allSet (toU32 m) 2 = (toU32 m).testBit 1 := allSet_two_pow (toU32 m) 1
  have b2 : toU32 m &&& 4 = if (toU32 m).testBit 2 then 4 else 0 := and_two_pow_eq (toU32 m) 2
  have b3 : toU32 m &&& 8 = if (toU32 m).testBit 3 then 8 else 0 := and_two_pow_eq (toU32 m) 3
  refine ⟨(if allSet (toU32 m) 1 || allSet (toU32 m) 2 then 3 else 0) |||
        (toU32 m &&& 4) ||| (toU32 m &&& 8), ?_, rfl, ?_, ?_, ?_, ?_⟩
  · unfold Posix.getFlowControlMode
    simp only [if_true, e31, e12, e10, h31, h12, h10, a0, a1, b2, b3]
    cases (toU32 m).testBit 0 <;> cases (toU32 m).testBit 1 <;> cases (toU32 m).testBit 2 <;>
      cases (toU32 m).testBit 3 <;> decide
  · rw [and_fifteen, a0, a1, b2, b3]
    cases (toU32 m).testBit 0 <;> cases (toU32 m).testBit 1 <;> cases (toU32 m).testBit 2 <;>
      cases (toU32 m).testBit 3 <;> decide
  · rw [a0, a1, b2, b3]
    cases (toU32 m).testBit 0 <;> cases (toU32 m).testBit 1 <;> cases (toU32 m).testBit 2 <;>
      cases (toU32 m).testBit 3 <;> decide
  · rw [and_fifteen, a0, a1, b2, b3]
    cases (toU32 m).testBit 0 <;> cases (toU32 m).testBit 1 <;> cases (toU32 m).testBit 2 <;>
      cases (toU32 m).testBit 3 <;> decide
  · simp [Posix.getFlowControlMode]

/-- Witness of C14: the mask 1 (RTS/CTS-in alone) reads back as 3, the mask 7 as 7. -/
theorem posix_flowControl_round_trip_witness :
    Posix.getFlowControlMode true
      (Posix.setFlowControlMode ⟨true, true⟩ Posix.sampleDevice 1).dev = 3 ∧
    Posix.getFlowControlMode true
      (Posix.setFlowControlMode ⟨true, true⟩ Posix.sampleDevice 7).dev = 7 := by
  obtain ⟨r, h1, h2, _⟩ := posix_flowControl_round_trip ⟨true, true⟩ Posix.sampleDevice 1
    (by decide)
  obtain ⟨r', h1', h2', _⟩ := posix_flowControl_round_trip ⟨true, true⟩ Posix.sampleDevice 7
    (by decide)
  rw [h1, h2, h1', h2']
  exact ⟨by decide, by decide⟩

/-- C15: on the Windows backend, for every mask m and every prior control block, after
a successful `setFlowControlMode(m)` a `getFlowControlMode` whose `GetCommState`
succeeds returns exactly `m & 15`: each of the four flow-control bits is reported iff it
was requested, so every mask in 0..15 is returned unchanged. -/
theorem windows_flowControl_round_trip (n : Windows.Native) (cur : Windows.DCB) (m : Int)
    (hret : (Windows.setFlowControlMode n cur m).ret = true) :
    Windows.getFlowControlMode true (Windows.setFlowControlMode n cur m).dcb =
      ((toU32 m &&& 15 : Nat) : Int) ∧
    (0 ≤ m → m ≤ 15 →
      Windows.getFlowControlMode true (Windows.setFlowControlMode n cur m).dcb = m) := by
  have a0 : allSet (toU32 m) Windows.FLOWCONTROL_RTSCTS_IN = (toU32 m).testBit 0 :=
    allSet_two_pow (toU32 m) 0
  have a1 : allSet (toU32 m) Windows.FLOWCONTROL_RTSCTS_OUT = (toU32 m).testBit 1 :=
    allSet_two_pow (toU32 m) 1
  have a2 : allSet (toU32 m) Windows.FLOWCONTROL_XONXOFF_IN = (toU32 m).testBit 2 :=
    allSet_two_pow (toU32 m) 2
  have a3 : allSet (toU32 m) Windows.FLOWCONTROL_XONXOFF_OUT = (toU32 m).testBit 3 :=
    allSet_two_pow (toU32 m) 3
  have main : Windows.getFlowControlMode true (Windows.setFlowControlMode n cur m).dcb =
      ((toU32 m &&& 15 : Nat) : Int) := by
    obtain ⟨g, s, t⟩ := n
    unfold Windows.setFlowControlMode at hret ⊢
    cases g <;> cases s <;> simp at hret
    simp only [a0, a1, a2, a3, if_true]
    by_cases hm : m = Windows.FLOWCONTROL_NONE
    · subst hm
      simp [Windows.FLOWCONTROL_NONE, toU32_zero, Windows.getFlowControlMode,
        Windows.RTS_CONTROL_ENABLE, Windows.RTS_CONTROL_HANDSHAKE]
    · simp only [ne_eq, hm, not_false_eq_true, if_true]
      rw [and_fifteen]
      cases (toU32 m).testBit 0 <;> cases (toU32 m).testBit 1 <;> cases (toU32 m).testBit 2 <;>
        cases (toU32 m).testBit 3 <;>
        simp [Windows.getFlowControlMode, Windows.RTS_CONTROL_ENABLE,
          Windows.RTS_CONTROL_HANDSHAKE, Windows.FLOWCONTROL_RTSCTS_IN,
          Windows.FLOWCONTROL_RTSCTS_OUT, Windows.FLOWCONTROL_XONXOFF_IN,
          Windows.FLOWCONTROL_XONXOFF_OUT]
  refine ⟨main, ?_⟩
  intro h0 h15
  rw [main]
  interval_cases m <;> decide

/-- Witness of C15: the masks 1 and 10 are read back unchanged. -/
theorem windows_flowControl_round_trip_witness :
    Windows.getFlowControlMode true
      (Windows.setFlowControlMode ⟨true, true, true⟩ Windows.sampleDCB 1).dcb = 1 ∧
    Windows.getFlowControlMode true
      (Windows.setFlowControlMode ⟨true, true, true⟩ Windows.sampleDCB 10).dcb = 10 :=
  ⟨(windows_flowControl_round_trip ⟨true, true, true⟩ Windows.sampleDCB 1 (by decide)).2
      (by decide) (by decide),
    (windows_flowControl_round_trip ⟨true, true, true⟩ Windows.sampleDCB 10 (by decide)).2
      (by decide) (by decide)⟩

/-! ## Line status -/

/-- C16: on both backends `getLinesStatus` returns -1 when the native modem-status read
fails, and otherwise a value in 0..15 whose bit 1 is set iff the native CTS bit is set,
bit 2 iff DSR, bit 4 iff RING and bit 8 iff carrier detect; two status words that agree
on these four native bits give the same result. -/
theorem getLinesStatus_bits (status status' stat stat' : Nat) :
    Posix.getLinesStatus false status = -1 ∧
    (∃ r : Nat, Posix.getLinesStatus true status = (r : Int) ∧ r < 16 ∧
      r.testBit 0 = anySet status Posix.TIOCM_CTS ∧
      r.testBit 1 = anySet status Posix.TIOCM_DSR ∧
      r.testBit 2 = anySet status Posix.TIOCM_RNG ∧
      r.testBit 3 = anySet status Posix.TIOCM_CAR) ∧
    (anySet status Posix.TIOCM_CTS = anySet status' Posix.TIOCM_CTS →
      anySet status Posix.TIOCM_DSR = anySet status' Posix.TIOCM_DSR →
      anySet status Posix.TIOCM_RNG = anySet status' Posix.TIOCM_RNG →
      anySet status Posix.TIOCM_CAR = anySet status' Posix.TIOCM_CAR →
      Posix.getLinesStatus true status = Posix.getLinesStatus true status') ∧
    Windows.getLinesStatus false stat = -1 ∧
    (∃ r : Nat, Windows.getLinesStatus true stat = (r : Int) ∧ r < 16 ∧
      r.testBit 0 = allSet stat Windows.MS_CTS_ON ∧
      r.testBit 1 = allSet stat Windows.MS_DSR_ON ∧
      r.testBit 2 = allSet stat Windows.MS_RING_ON ∧
      r.testBit 3 = allSet stat Windows.MS_RLSD_ON) ∧
    (allSet stat Windows.MS_CTS_ON = allSet stat' Windows.MS_CTS_ON →
      allSet stat Windows.MS_DSR_ON = allSet stat' Windows.MS_DSR_ON →
      allSet stat Windows.MS_RING_ON = allSet stat' Windows.MS_RING_ON →
      allSet stat Windows.MS_RLSD_ON = allSet stat' Windows.MS_RLSD_ON →
      Windows.getLinesStatus true stat = Windows.getLinesStatus true stat') := by
  refine ⟨rfl, ?_, ?_, rfl, ?_, ?_⟩
  · unfold Posix.getLinesStatus
    cases anySet status Posix.TIOCM_CTS <;> cases anySet status Posix.TIOCM_DSR <;>
      cases anySet status Posix.TIOCM_RNG <;> cases anySet status Posix.TIOCM_CAR <;>
      exact ⟨_, rfl, by decide, by decide, by decide, by decide, by decide⟩
  · intro h1 h2 h3 h4
    unfold Posix.getLinesStatus
    rw [h1, h2, h3, h4]
  · unfold Windows.getLinesStatus
    cases allSet stat Windows.MS_CTS_ON <;> cases allSet stat Windows.MS_DSR_ON <;>
      cases allSet stat Windows.MS_RING_ON <;> cases allSet stat Windows.MS_RLSD_ON <;>
      exact ⟨_, rfl, by decide, by decide, by decide, by decide, by decide⟩
  · intro h1 h2 h3 h4
    unfold Windows.getLinesStatus
    rw [h1, h2, h3, h4]

/-- Witness of C16: a POSIX status word with CTS, DTR and carrier detect (0x62) gives
9, as does the same word with RTS added; the Windows word with DSR and RING gives 6. -/
theorem getLinesStatus_bits_witness :
    Posix.getLinesStatus true 98 = 9 ∧
    Posix.getLinesStatus true 98 = Posix.getLinesStatus true 102 ∧
    Windows.getLinesStatus true 96 = 6 := by
  have h := getLinesStatus_bits 98 102 96 96
  exact ⟨by decide, h.2.2.1 (by decide) (by decide) (by decide) (by decide), by decide⟩

/-! ## Break signal -/

/-- C17: on both backends, for every duration <= 0, `sendBreak` returns false and
issues no native call: no break assertion, no wait and no break clear. -/
theorem sendBreak_nonpositive_duration (n : Posix.BreakNative) (w : Windows.BreakNative)
    (duration : Int) (h : duration ≤ 0) :
    Posix.sendBreak n duration = (false, []) ∧ Windows.sendBreak w duration = (false, []) := by
  have h' : ¬ duration > 0 := by omega
  simp [Posix.sendBreak, Windows.sendBreak, h']

/-- Witness of C17: duration 0 with native calls that would succeed. -/
theorem sendBreak_nonpositive_duration_witness :
    Posix.sendBreak ⟨true, true⟩ 0 = (false, []) ∧ Windows.sendBreak ⟨true, true⟩ 0 = (false, []) :=
  sendBreak_nonpositive_duration ⟨true, true⟩ ⟨true, true⟩ 0 (by decide)

/-- Storing a value of the signed 32-bit range in an `int` keeps it. -/
theorem wrapInt32_of_inInt32 (x : Int) (h : inInt32 x) : wrapInt32 x = x := by
  unfold inInt32 at h
  unfold wrapInt32
  omega

namespace Posix

/-- The seconds and nanoseconds of `sendBreak` for a positive 32-bit duration: no
32-bit reduction changes a value. -/
theorem breakSec_breakNanoSec (duration : Int) (h0 : 0 < duration)
    (h1 : duration ≤ 2147483647) :
    breakSec duration = duration / 1000 ∧
    breakNanoSec duration = (duration % 1000) * 1000000 := by
  have hq : Int.tdiv duration 1000 = duration / 1000 :=
    Int.tdiv_eq_ediv (by omega) (by decide)
  have hs : breakSec duration = duration / 1000 := by
    unfold breakSec
    rw [hq, wrapInt32_of_inInt32 _ (by unfold inInt32; omega)]
    split_ifs <;> omega
  refine ⟨hs, ?_⟩
  rw [show breakNanoSec duration = wrapInt32 ((if breakSec duration > 0 then
      wrapInt32 (duration - wrapInt32 (breakSec duration * 1000)) else duration) * 1000000)
    from rfl, hs]
  by_cases hd : duration / 1000 > 0
  · rw [if_pos hd, wrapInt32_of_inInt32 (duration / 1000 * 1000) (by unfold inInt32; omega),
      wrapInt32_of_inInt32 (duration - duration / 1000 * 1000) (by unfold inInt32; omega)]
    have e : duration - duration / 1000 * 1000 = duration % 1000 := by omega
    rw [e, wrapInt32_of_inInt32 _ (by unfold inInt32; omega)]
  · rw [if_neg hd]
    have e : duration = duration % 1000 := by omega
    rw [wrapInt32_of_inInt32 _ (by unfold inInt32; omega)]
    omega

end Posix

/-- C18: on the POSIX backend, for every 32-bit duration > 0 for which the break
assertion succeeds, `sendBreak` asserts the break, waits, then clears the break, and
returns true iff the clear succeeds.  The seconds and nanoseconds of the wait satisfy
`sec * 1000 + nanoSec / 1000000 = duration` with nanoSec a multiple of 1000000 and
`0 <= nanoSec < 1000000000`, and every intermediate value of the computation lies in
the signed 32-bit range. -/
theorem sendBreak_waits_requested_duration (n : Posix.BreakNative) (duration : Int)
    (h0 : 0 < duration) (h1 : duration ≤ 2147483647) (hb : n.tiocsbrkOk = true) :
    (Posix.sendBreak n duration).2 =
      [Posix.BreakCall.tiocsbrk,
        Posix.BreakCall.nanosleep (Posix.breakSec duration) (Posix.breakNanoSec duration),
        Posix.BreakCall.tioccbrk] ∧
    (Posix.sendBreak n duration).1 = n.tioccbrkOk ∧
    Posix.breakSec duration * 1000 + Posix.breakNanoSec duration / 1000000 = duration ∧
    Posix.breakNanoSec duration % 1000000 = 0 ∧
    0 ≤ Posix.breakNanoSec duration ∧ Posix.breakNanoSec duration < 1000000000 ∧
    inInt32 (Int.tdiv duration 1000) ∧
    inInt32 (Int.tdiv duration 1000 * 1000) ∧
    inInt32 (duration - Int.tdiv duration 1000 * 1000) ∧
    inInt32 ((duration - Int.tdiv duration 1000 * 1000) * 1000000) ∧
    (duration < 1000 → inInt32 (duration * 1000000)) := by
  obtain ⟨hs, hn⟩ := Posix.breakSec_breakNanoSec duration h0 h1
  have hq : Int.tdiv duration 1000 = duration / 1000 :=
    Int.tdiv_eq_ediv (by omega) (by decide)
  have hpos : duration > 0 := h0
  refine ⟨?_, ?_, ?_, ?_, ?_, ?_, ?_, ?_, ?_, ?_, ?_⟩
  · cases hc : n.tioccbrkOk <;> simp [Posix.sendBreak, hpos, hb, hc]
  · cases hc : n.tioccbrkOk <;> simp [Posix.sendBreak, hpos, hb, hc]
  · rw [hs, hn]; omega
  · rw [hn]; omega
  · rw [hn]; omega
  · rw [hn]; omega
  · rw [hq]; unfold inInt32; omega
  · rw [hq]; unfold inInt32; omega
  · rw [hq]; unfold inInt32; omega
  · rw [hq]; unfold inInt32; omega
  · intro h; unfold inInt32; omega

/-- Witness of C18: a break of 2500 ms waits 2 s and 500000000 ns, then clears. -/
theorem sendBreak_waits_requested_duration_witness :
    (Posix.sendBreak ⟨true, true⟩ 2500).2 =
      [Posix.BreakCall.tiocsbrk, Posix.BreakCall.nanosleep 2 500000000,
        Posix.BreakCall.tioccbrk] ∧
    (Posix.sendBreak ⟨true, true⟩ 2500).1 = true := by
  have h := sendBreak_waits_requested_duration ⟨true, true⟩ 2500 (by decide) (by decide) rfl
  exact ⟨by decide, h.2.1⟩

/-! ## Byte I/O -/

theorem toI32_small (u : Nat) (h : u < 2147483648) : toI32 u = (u : Int) := by
  unfold toI32
  exact wrapInt32_of_inInt32 _ (by unfold inInt32; omega)

theorem toI32_minus_one : toI32 4294967295 = -1 := by decide

/-- C20: on both backends `writeBytes` issues exactly one native write and never
retries.  It returns the number of bytes the native write reports as accepted (a count
that fits a `jint`) when the write succeeds, and exactly -1 when it fails; with length
0 and a native write that accepts 0 bytes it returns 0. -/
theorem writeBytes_result (written : Option Nat) (w : Windows.IoNative) (length : Int) :
    (Posix.writeBytes written length).2 = [Posix.IoCall.write length] ∧
    (written = none → (Posix.writeBytes written length).1 = -1) ∧
    (∀ k, written = some k → k < 2147483648 →
      (Posix.writeBytes written length).1 = (k : Int)) ∧
    (Posix.writeBytes (some 0) 0).1 = 0 ∧
    (Windows.writeBytes w length).2.filter Windows.IoCall.isWriteFile =
      [Windows.IoCall.writeFile (toU32 length)] ∧
    (w.ioOk = true → w.transferred < 2147483648 →
      (Windows.writeBytes w length).1 = (w.transferred : Int)) ∧
    (w.ioOk = false → w.lastError = Windows.ERROR_IO_PENDING →
      w.waitResult = Windows.WAIT_OBJECT_0 → w.overlappedOk = true →
      w.overlappedTransferred < 2147483648 →
      (Windows.writeBytes w length).1 = (w.overlappedTransferred : Int)) ∧
    (w.ioOk = false →
      (w.lastError ≠ Windows.ERROR_IO_PENDING ∨ w.waitResult ≠ Windows.WAIT_OBJECT_0 ∨
        w.overlappedOk = false) →
      (Windows.writeBytes w length).1 = -1) ∧
    (w.ioOk = true → w.transferred = 0 → (Windows.writeBytes w 0).1 = 0) := by
  refine ⟨rfl, ?_, ?_, by decide, ?_, ?_, ?_, ?_, ?_⟩
  · intro h
    subst h
    have e : wrapInt32 (-1) = -1 := by decide
    simp [Posix.writeBytes, e]
  · intro k h hk
    subst h
    have e : wrapInt32 (k : Int) = (k : Int) :=
      wrapInt32_of_inInt32 _ (by unfold inInt32; omega)
    have e' : ¬ ((k : Int) < 0) := by omega
    simp [Posix.writeBytes, e, e']
  · unfold Windows.writeBytes
    cases w.ioOk
    · by_cases h2 : w.lastError = Windows.ERROR_IO_PENDING <;>
        by_cases h3 : w.waitResult = Windows.WAIT_OBJECT_0 <;> cases w.overlappedOk <;>
        simp [h2, h3, Windows.IoCall.isWriteFile]
    · simp [Windows.IoCall.isWriteFile]
  · intro h1 h2
    simp [Windows.writeBytes, h1, toI32_small _ h2]
  · intro h1 h2 h3 h4 h5
    simp [Windows.writeBytes, h1, h2, h3, h4, toI32_small _ h5]
  · intro h1 h2
    unfold Windows.writeBytes
    rcases h2 with h2 | h2 | h2
    · simp [h1, h2, toI32_minus_one]
    · by_cases h3 : w.lastError = Windows.ERROR_IO_PENDING <;>
        simp [h1, h2, h3, toI32_minus_one]
    · by_cases h3 : w.lastError = Windows.ERROR_IO_PENDING <;>
        by_cases h4 : w.waitResult = Windows.WAIT_OBJECT_0 <;>
        simp [h1, h2, h3, h4, toI32_minus_one]
  · intro h1 h2
    simp [Windows.writeBytes, h1, h2]
    decide

/-- Witness of C20: a POSIX write of 5 bytes of which 3 are accepted returns 3; a
Windows write rejected with `ERROR_ACCESS_DENIED` returns -1; a Windows write of
length 0 that accepts 0 bytes returns 0. -/
theorem writeBytes_result_witness :
    (Posix.writeBytes (some 3) 5).1 = 3 ∧
    (Windows.writeBytes ⟨false, 0, 5, 0, false, 0, 0⟩ 5).1 = -1 ∧
    (Windows.writeBytes ⟨true, 0, 0, 0, false, 0, 0⟩ 0).1 = 0 := by
  have h := writeBytes_result (some 3) ⟨false, 0, 5, 0, false, 0, 0⟩ 5
  have h' := writeBytes_result (some 3) ⟨true, 0, 0, 0, false, 0, 0⟩ 5
  exact ⟨h.2.2.1 3 rfl (by decide), h.2.2.2.2.2.2.2.1 rfl (Or.inl (by decide)),
    h'.2.2.2.2.2.2.2.2 rfl rfl⟩

/-! ## Single-byte write -/

/-- C21 fails: when the native write reports success with zero bytes accepted,
`writeByte` returns 0 on both backends, a value that is neither 1 nor -1. -/
theorem writeByte_returns_zero :
    (Posix.writeByte (some 0) 65).1 = 0 ∧
    (Windows.writeByte ⟨true, 0, 0, 0, false, 0, 0⟩ 65).1 = 0 := by
  exact ⟨by decide, by decide⟩

/-- C21, amended: on both backends `writeByte` returns -1 when the native write fails
and otherwise the byte count the native write reports (a count that fits a `jint`): 1
when it reports one byte accepted, 0 when it reports none.  For a native write that
accepts at most the one byte requested the result is 1, 0 or -1. -/
theorem writeByte_result (written : Option Nat) (w : Windows.IoNative) (value : Int) :
    (written = none → (Posix.writeByte written value).1 = -1) ∧
    (∀ k, written = some k → k < 2147483648 → (Posix.writeByte written value).1 = (k : Int)) ∧
    (w.ioOk = true → w.transferred < 2147483648 →
      (Windows.writeByte w value).1 = (w.transferred : Int)) ∧
    (w.ioOk = false → w.lastError = Windows.ERROR_IO_PENDING →
      w.waitResult = Windows.WAIT_OBJECT_0 → w.overlappedOk = true →
      w.overlappedTransferred < 2147483648 →
      (Windows.writeByte w value).1 = (w.overlappedTransferred : Int)) ∧
    (w.ioOk = false →
      (w.lastError ≠ Windows.ERROR_IO_PENDING ∨ w.waitResult ≠ Windows.WAIT_OBJECT_0 ∨
        w.overlappedOk = false) →
      (Windows.writeByte w value).1 = -1) ∧
    ((∀ k, written = some k → k ≤ 1) →
      (Posix.writeByte written value).1 = 1 ∨ (Posix.writeByte written value).1 = 0 ∨
        (Posix.writeByte written value).1 = -1) ∧
    (w.transferred ≤ 1 → w.overlappedTransferred ≤ 1 →
      (Windows.writeByte w value).1 = 1 ∨ (Windows.writeByte w value).1 = 0 ∨
        (Windows.writeByte w value).1 = -1) := by
  have hP1 : written = none → (Posix.writeByte written value).1 = -1 := by
    intro h
    subst h
    have e : wrapInt32 (-1) = -1 := by decide
    simp [Posix.writeByte, e]
  have hP2 : ∀ k, written = some k → k < 2147483648 →
      (Posix.writeByte written value).1 = (k : Int) := by
    intro k h hk
    subst h
    have e : wrapInt32 (k : Int) = (k : Int) :=
      wrapInt32_of_inInt32 _ (by unfold inInt32; omega)
    have e' : ¬ ((k : Int) < 0) := by omega
    simp [Posix.writeByte, e, e']
  have hW1 : w.ioOk = true → w.transferred < 2147483648 →
      (Windows.writeByte w value).1 = (w.transferred : Int) := by
    intro h1 h2
    simp [Windows.writeByte, h1, toI32_small _ h2]
  have hW2 : w.ioOk = false → w.lastError = Windows.ERROR_IO_PENDING →
      w.waitResult = Windows.WAIT_OBJECT_0 → w.overlappedOk = true →
      w.overlappedTransferred < 2147483648 →
      (Windows.writeByte w value).1 = (w.overlappedTransferred : Int) := by
    intro h1 h2 h3 h4 h5
    simp [Windows.writeByte, h1, h2, h3, h4, toI32_small _ h5]
  have hW3 : w.ioOk = false →
      (w.lastError ≠ Windows.ERROR_IO_PENDING ∨ w.waitResult ≠ Windows.WAIT_OBJECT_0 ∨
        w.overlappedOk = false) → (Windows.writeByte w value).1 = -1 := by
    intro h1 h2
    unfold Windows.writeByte
    rcases h2 with h2 | h2 | h2
    · simp [h1, h2, toI32_minus_one]
    · by_cases h3 : w.lastError = Windows.ERROR_IO_PENDING <;>
        simp [h1, h2, h3, toI32_minus_one]
    · by_cases h3 : w.lastError = Windows.ERROR_IO_PENDING <;>
        by_cases h4 : w.waitResult = Windows.WAIT_OBJECT_0 <;>
        simp [h1, h2, h3, h4, toI32_minus_one]
  refine ⟨hP1, hP2, hW1, hW2, hW3, ?_, ?_⟩
  · intro hk
    cases hw : written with
    | none =>
      have h := hP1 hw
      rw [hw] at h
      exact Or.inr (Or.inr h)
    | some k =>
      have hk1 := hk k hw
      have h := hP2 k hw (by omega)
      rw [hw] at h
      rw [h]
      omega
  · intro ht ho
    cases h1 : w.ioOk
    · by_cases h2 : w.lastError = Windows.ERROR_IO_PENDING
      · by_cases h3 : w.waitResult = Windows.WAIT_OBJECT_0
        · cases h4 : w.overlappedOk
          · exact Or.inr (Or.inr (hW3 h1 (Or.inr (Or.inr h4))))
          · rw [hW2 h1 h2 h3 h4 (by omega)]
            omega
        · exact Or.inr (Or.inr (hW3 h1 (Or.inr (Or.inl h3))))
      · exact Or.inr (Or.inr (hW3 h1 (Or.inl h2)))
    · rw [hW1 h1 (by omega)]
      omega

/-- Witness of C21 (amended): one byte accepted gives 1, a failed write gives -1. -/
theorem writeByte_result_witness :
    (Posix.writeByte (some 1) 65).1 = 1 ∧ (Posix.writeByte none 65).1 = -1 ∧
    (Windows.writeByte ⟨true, 1, 0, 0, false, 0, 0⟩ 65).1 = 1 ∧
    (Windows.writeByte ⟨false, 0, 5, 0, false, 0, 0⟩ 65).1 = -1 := by
  have h := writeByte_result (some 1) ⟨true, 1, 0, 0, false, 0, 0⟩ 65
  have h' := writeByte_result none ⟨false, 0, 5, 0, false, 0, 0⟩ 65
  exact ⟨h.2.1 1 rfl (by decide), h'.1 rfl, h.2.2.1 rfl (by decide),
    h'.2.2.2.2.1 rfl (Or.inl (by decide))⟩

/-! ## Purging the buffers (POSIX) -/

namespace Posix

/-- The result of `purgePort` in terms of the four bits of the purge mask. -/
theorem purgePort_eq (tcflush : Nat → Bool) (flags : Int) :
    purgePort tcflush flags =
      if (toU32 flags).testBit 3 && (toU32 flags).testBit 2 then
        (tcflush TCIOFLUSH, [PurgeCall.tcflush TCIOFLUSH])
      else if (toU32 flags).testBit 3 then (tcflush TCIFLUSH, [PurgeCall.tcflush TCIFLUSH])
      else if (toU32 flags).testBit 2 then (tcflush TCOFLUSH, [PurgeCall.tcflush TCOFLUSH])
      else if (toU32 flags).testBit 1 || (toU32 flags).testBit 0 then (true, [])
      else (false, []) := by
  have e3 : anySet (toU32 flags) PURGE_RXCLEAR = (toU32 flags).testBit 3 := anySet_two_pow _ 3
  have e2 : anySet (toU32 flags) PURGE_TXCLEAR = (toU32 flags).testBit 2 := anySet_two_pow _ 2
  have e1 : anySet (toU32 flags) PURGE_RXABORT = (toU32 flags).testBit 1 := anySet_two_pow _ 1
  have e0 : anySet (toU32 flags) PURGE_TXABORT = (toU32 flags).testBit 0 := anySet_two_pow _ 0
  unfold purgePort
  rw [e3, e2, e1, e0]

end Posix

/-- C22 fails: with only the RX-abort bit set `purgePort` returns true, with that bit
cleared (flags = 0) it returns false, although neither call issues a native flush. -/
theorem purgePort_abort_bit_changes_result :
    Posix.purgePort (fun _ => true) 2 = (true, []) ∧
    Posix.purgePort (fun _ => true) 0 = (false, []) := by
  exact ⟨by decide, by decide⟩

/-- C22, amended: on the POSIX backend the abort bits never change the native flush:
`purgePort(flags)` and `purgePort` of flags with the RX-abort bit 2 and the TX-abort
bit 1 cleared issue the same flush or both none, and when a clear bit (8 or 4) is set
they return the same result.  When neither clear bit is set no flush is issued and the
result is true iff an abort bit is set, so the call with the abort bits cleared returns
false. -/
theorem purgePort_abort_bits (tcflush : Nat → Bool) (flags flags' : Int)
    (h : toU32 flags' = clearBits (toU32 flags) (Posix.PURGE_RXABORT ||| Posix.PURGE_TXABORT)) :
    (Posix.purgePort tcflush flags).2 = (Posix.purgePort tcflush flags').2 ∧
    (anySet (toU32 flags) Posix.PURGE_RXCLEAR = true ∨
        anySet (toU32 flags) Posix.PURGE_TXCLEAR = true →
      Posix.purgePort tcflush flags = Posix.purgePort tcflush flags') ∧
    (anySet (toU32 flags) Posix.PURGE_RXCLEAR = false →
      anySet (toU32 flags) Posix.PURGE_TXCLEAR = false →
      Posix.purgePort tcflush flags =
        (anySet (toU32 flags) Posix.PURGE_RXABORT || anySet (toU32 flags) Posix.PURGE_TXABORT,
          []) ∧
      Posix.purgePort tcflush flags' = (false, [])) := by
  have e3 : anySet (toU32 flags) Posix.PURGE_RXCLEAR = (toU32 flags).testBit 3 :=
    anySet_two_pow _ 3
  have e2 : anySet (toU32 flags) Posix.PURGE_TXCLEAR = (toU32 flags).testBit 2 :=
    anySet_two_pow _ 2
  have e1 : anySet (toU32 flags) Posix.PURGE_RXABORT = (toU32 flags).testBit 1 :=
    anySet_two_pow _ 1
  have e0 : anySet (toU32 flags) Posix.PURGE_TXABORT = (toU32 flags).testBit 0 :=
    anySet_two_pow _ 0
  have b3 : (toU32 flags').testBit 3 = (toU32 flags).testBit 3 := by
    rw [h]
    simp +decide [Posix.PURGE_RXABORT, Posix.PURGE_TXABORT, testBit_clearBits_of_false]
  have b2 : (toU32 flags').testBit 2 = (toU32 flags).testBit 2 := by
    rw [h]
    simp +decide [Posix.PURGE_RXABORT, Posix.PURGE_TXABORT, testBit_clearBits_of_false]
  have b1 : (toU32 flags').testBit 1 = false := by
    rw [h]
    simp +decide [Posix.PURGE_RXABORT, Posix.PURGE_TXABORT, testBit_clearBits_of_true]
  have b0 : (toU32 flags').testBit 0 = false := by
    rw [h]
    simp +decide [Posix.PURGE_RXABORT, Posix.PURGE_TXABORT, testBit_clearBits_of_true,
      -Nat.testBit_zero]
  rw [Posix.purgePort_eq tcflush flags, Posix.purgePort_eq tcflush flags', b3, b2, b1, b0, e3, e2,
    e1, e0]
  cases (toU32 flags).testBit 3 <;> cases (toU32 flags).testBit 2 <;>
    cases (toU32 flags).testBit 1 <;> cases (toU32 flags).testBit 0 <;> simp

/-- Witness of C22 (amended): the mask 11 (RX-clear with both abort bits) and the mask
8 issue the same input flush and return the same result. -/
theorem purgePort_abort_bits_witness :
    Posix.purgePort (fun _ => true) 11 = Posix.purgePort (fun _ => true) 8 :=
  (purgePort_abort_bits (fun _ => true) 11 8 (by decide)).2.1 (Or.inl (by decide))

/-- C27: on the POSIX backend `purgePort` selects the queue from the bits 8 (RX-clear)
and 4 (TX-clear) only: both set flushes input and output, only 8 flushes input, only 4
flushes output, and the result is then true iff that one native flush succeeds; with
neither clear bit set it issues no flush and returns true if an abort bit (1 or 2) is
set and false otherwise. -/
theorem purgePort_queue_selection (tcflush : Nat → Bool) (flags : Int) :
    (anySet (toU32 flags) 8 = true → anySet (toU32 flags) 4 = true →
      Posix.purgePort tcflush flags =
        (tcflush Posix.TCIOFLUSH, [Posix.PurgeCall.tcflush Posix.TCIOFLUSH])) ∧
    (anySet (toU32 flags) 8 = true → anySet (toU32 flags) 4 = false →
      Posix.purgePort tcflush flags =
        (tcflush Posix.TCIFLUSH, [Posix.PurgeCall.tcflush Posix.TCIFLUSH])) ∧
    (anySet (toU32 flags) 8 = false → anySet (toU32 flags) 4 = true →
      Posix.purgePort tcflush flags =
        (tcflush Posix.TCOFLUSH, [Posix.PurgeCall.tcflush Posix.TCOFLUSH])) ∧
    (anySet (toU32 flags) 8 = false → anySet (toU32 flags) 4 = false →
      Posix.purgePort tcflush flags =
        (anySet (toU32 flags) 2 || anySet (toU32 flags) 1, [])) := by
  have e3 : anySet (toU32 flags) 8 = (toU32 flags).testBit 3 := anySet_two_pow _ 3
  have e2 : anySet (toU32 flags) 4 = (toU32 flags).testBit 2 := anySet_two_pow _ 2
  have e1 : anySet (toU32 flags) 2 = (toU32 flags).testBit 1 := anySet_two_pow _ 1
  have e0 : anySet (toU32 flags) 1 = (toU32 flags).testBit 0 := anySet_two_pow _ 0
  rw [Posix.purgePort_eq tcflush flags, e3, e2, e1, e0]
  cases (toU32 flags).testBit 3 <;> cases (toU32 flags).testBit 2 <;>
    cases (toU32 flags).testBit 1 <;> cases (toU32 flags).testBit 0 <;> simp

/-- Witness of C27: the mask 12 flushes both queues with the result of the flush; the
mask 4 flushes the output queue; the mask 3 flushes nothing and returns true. -/
theorem purgePort_queue_selection_witness :
    Posix.purgePort (fun q => decide (q = 1)) 12 = (false, [Posix.PurgeCall.tcflush 2]) ∧
    Posix.purgePort (fun q => decide (q = 1)) 4 = (true, [Posix.PurgeCall.tcflush 1]) ∧
    Posix.purgePort (fun q => decide (q = 1)) 3 = (true, []) :=
  ⟨(purgePort_queue_selection (fun q => decide (q = 1)) 12).1 (by decide) (by decide),
    (purgePort_queue_selection (fun q => decide (q = 1)) 4).2.2.1 (by decide) (by decide),
    (purgePort_queue_selection (fun q => decide (q = 1)) 3).2.2.2 (by decide) (by decide)⟩

/-! ## Port check (Windows) -/

/-- C23: on the Windows backend `checkPort` returns 0 exactly when the re-open by name
fails with access denied; it returns -2 when the re-open fails with file-not-found and
-5 for any other re-open failure; when the re-open succeeds it returns -6, or -4 if the
capability probe on the new handle fails, never 0, and the new handle is closed exactly
once; when the re-open fails nothing is closed. -/
theorem checkPort_result (n : Windows.OpenNative) :
    ((Windows.checkPort n).1 = 0 ↔
      n.created = none ∧ n.lastError = Windows.ERROR_ACCESS_DENIED) ∧
    (n.created = none → n.lastError = Windows.ERROR_FILE_NOT_FOUND →
      (Windows.checkPort n).1 = -2) ∧
    (n.created = none → n.lastError ≠ Windows.ERROR_ACCESS_DENIED →
      n.lastError ≠ Windows.ERROR_FILE_NOT_FOUND → (Windows.checkPort n).1 = -5) ∧
    (∀ h, n.created = some h →
      (Windows.checkPort n).1 = (if n.getCommStateOk then -6 else -4) ∧
      (Windows.checkPort n).1 ≠ 0 ∧
      (Windows.checkPort n).2.count (Windows.OpenCall.closeHandle h) = 1 ∧
      (Windows.checkPort n).2.getLast? = some (Windows.OpenCall.closeHandle h)) ∧
    (n.created = none → ∀ h, Windows.OpenCall.closeHandle h ∉ (Windows.checkPort n).2) := by
  obtain ⟨created, lastError, ok⟩ := n
  cases created with
  | some h =>
    have hne : (h : Int) ≠ -1 := by omega
    cases ok <;>
      simp [Windows.checkPort, Windows.OpenNative.createFile, Windows.INVALID_HANDLE_VALUE, hne,
        ERR_INCORRECT_SERIAL_PORT, ERR_PORT_OPENED]
  | none =>
    by_cases h1 : lastError = Windows.ERROR_ACCESS_DENIED
    · subst h1
      simp [Windows.checkPort, Windows.OpenNative.createFile, Windows.ERROR_ACCESS_DENIED,
        Windows.ERROR_FILE_NOT_FOUND]
    · by_cases h2 : lastError = Windows.ERROR_FILE_NOT_FOUND
      · subst h2
        simp [Windows.checkPort, Windows.OpenNative.createFile, Windows.ERROR_ACCESS_DENIED,
          Windows.ERROR_FILE_NOT_FOUND, ERR_PORT_NOT_FOUND]
      · simp [Windows.checkPort, Windows.OpenNative.createFile, h1, h2, ERR_PORT_NOT_OPENED]

/-- Witness of C23: a re-open that succeeds with handle 8 gives -6 and closes 8 once;
a re-open failing with file-not-found gives -2. -/
theorem checkPort_result_witness :
    (Windows.checkPort ⟨some 8, 0, true⟩).1 = -6 ∧
    (Windows.checkPort ⟨some 8, 0, true⟩).2.count (Windows.OpenCall.closeHandle 8) = 1 ∧
    (Windows.checkPort ⟨none, 2, true⟩).1 = -2 := by
  have h := (checkPort_result ⟨some 8, 0, true⟩).2.2.2.1 8 rfl
  exact ⟨h.1, h.2.2.1, (checkPort_result ⟨none, 2, true⟩).2.1 rfl rfl⟩

/-! ## POSIX `setParams`: baud rates outside the table -/

namespace Posix

/-- The custom-divisor path does not go on to the data bits when `TIOCGSERIAL` fails,
the divisor is zero or `TIOCSSERIAL` fails. -/
theorem customBaud_eq_none (n : Native) (d : Device) (s : Termios) (baudRate : Int)
    (h : n.tiocgserialOk = false ∨ Int.tdiv d.serial.baud_base baudRate = 0 ∨
      n.tiocsserialOk = false) :
    (customBaud n d s baudRate).1 = none := by
  unfold customBaud
  cases h1 : n.tiocgserialOk
  · simp
  · cases hq : intDiv d.serial.baud_base baudRate with
    | none => simp
    | some q =>
      obtain ⟨rfl, _, _⟩ := intDiv_eq_some hq
      by_cases h2 : Int.tdiv d.serial.baud_base baudRate = 0
      · simp [h2]
      · cases h3 : setSpeeds n { s with c_cflag := setBits s.c_cflag B38400 } B38400 with
        | none => simp [h2, h3]
        | some s2 =>
          cases h4 : n.tiocsserialOk
          · simp [h2, h3]
          · rcases h with h | h | h
            · rw [h1] at h
              exact absurd h (by decide)
            · exact absurd h h2
            · rw [h4] at h
              exact absurd h (by decide)

/-- With a zero divisor the custom-divisor path issues no `TIOCSSERIAL`. -/
theorem customBaud_zero_divisor_calls (n : Native) (d : Device) (s : Termios) (baudRate : Int)
    (h : Int.tdiv d.serial.baud_base baudRate = 0) :
    ∀ c ∈ (customBaud n d s baudRate).2.2.1, c.isTiocsserial = false := by
  intro c hc
  rcases customBaud_calls n d s baudRate c hc with h1 | ⟨_, _, h2⟩
  · subst h1
    rfl
  · exact absurd h h2

theorem baudStage_eq_none (b : Build) (n : Native) (d : Device) (baudRate : Int)
    (hbaud : getBaudRateByNum baudRate = NO_BAUD) (hg : n.tcgetattrOk = true)
    (h : b.os = OS.sunos ∨ (b.os = OS.linux ∧
      (n.tiocgserialOk = false ∨ Int.tdiv d.serial.baud_base baudRate = 0 ∨
        n.tiocsserialOk = false))) :
    (baudStage b n d baudRate).1 = none := by
  unfold baudStage
  rcases h with h | ⟨h, h'⟩
  · simp [hg, hbaud, h]
  · simp [hg, hbaud, h, customBaud_eq_none n d d.line baudRate h']

/-- When the baud stage does not go on to the data bits, the call ends after the calls
of that stage, with the termios settings untouched. -/
theorem setParams_of_baudStage_none (b : Build) (n : Native) (d : Device)
    (baudRate byteSize stopBits parity : Int) (setRTS setDTR : Bool) (flags : Int)
    (h : (baudStage b n d baudRate).1 = none) :
    setParams b n d baudRate byteSize stopBits parity setRTS setDTR flags =
      { ret := false, dev := (baudStage b n d baudRate).2.1,
        calls := (baudStage b n d baudRate).2.2.1,
        trapped := (baudStage b n d baudRate).2.2.2 } := by
  rcases setParams_cases b n d baudRate byteSize stopBits parity setRTS setDTR flags with
    ⟨h1, _⟩ | ⟨s, settings, h2, _, _⟩
  · exact h1
  · rw [h] at h2
    exact absurd h2 (by simp)

/-- The stages after the baud rate never trap. -/
theorem commitStage_trapped (b : Build) (n : Native) (d : Device) (settings : Termios)
    (baudRate : Int) (setRTS setDTR : Bool) (pre : List Call) :
    (commitStage b n d settings baudRate setRTS setDTR pre).trapped = false := by
  unfold commitStage modemStage
  cases n.tcsetattrOk <;> cases n.iossiospeedOk <;> cases n.tiocmgetOk <;>
    cases n.tiocmsetOk <;>
    by_cases h2 : b.os = OS.apple ∧ getBaudRateByNum baudRate = NO_BAUD <;>
    simp [h2]

/-- The call `setParams` traps exactly when its baud stage does. -/
theorem setParams_trapped (b : Build) (n : Native) (d : Device)
    (baudRate byteSize stopBits parity : Int) (setRTS setDTR : Bool) (flags : Int) :
    (setParams b n d baudRate byteSize stopBits parity setRTS setDTR flags).trapped = true ↔
      b.os = OS.linux ∧ n.tcgetattrOk = true ∧ n.tiocgserialOk = true ∧
      d.serial.baud_base = -2147483648 ∧ baudRate = -1 := by
  rw [← baudStage_trapped_iff]
  rcases setParams_cases b n d baudRate byteSize stopBits parity setRTS setDTR flags with
    ⟨h1, _⟩ | ⟨s, settings, h2, _, h3⟩
  · rw [h1]
  · rw [h3, commitStage_trapped]
    constructor
    · intro h
      exact absurd h (by simp)
    · intro h
      have h' := ((baudStage_trapped b n d baudRate).2 h).1
      rw [h2] at h'
      exact absurd h' (by simp)

/-- A call whose requested rate is not -1, or whose reported base rate is not
-2147483648, does not trap. -/
theorem setParams_not_trapped (b : Build) (n : Native) (d : Device)
    (baudRate byteSize stopBits parity : Int) (setRTS setDTR : Bool) (flags : Int)
    (h : baudRate ≠ -1 ∨ d.serial.baud_base ≠ -2147483648) :
    (setParams b n d baudRate byteSize stopBits parity setRTS setDTR flags).trapped = false := by
  cases ht : (setParams b n d baudRate byteSize stopBits parity setRTS setDTR flags).trapped
  · rfl
  · have h' := (setParams_trapped b n d baudRate byteSize stopBits parity setRTS setDTR flags).1 ht
    rcases h with h | h
    · exact absurd h'.2.2.2.2 h
    · exact absurd h'.2.2.2.1 h

/-- On the custom-divisor path of a Linux build, after `tcgetattr` and `TIOCGSERIAL`
succeeded with a defined, non-zero quotient and the speed setters succeeded, the
custom-divisor request is issued; the call returns true when that request and the
calls that follow succeed and the fields are valid. -/
theorem setParams_custom_accepted (b : Build) (n : Native) (d : Device)
    (baudRate byteSize stopBits parity : Int) (setRTS setDTR : Bool) (flags : Int)
    (hos : b.os = OS.linux) (hbaud : getBaudRateByNum baudRate = NO_BAUD)
    (hg : n.tcgetattrOk = true) (hgs : n.tiocgserialOk = true)
    (hov : ¬(d.serial.baud_base = -2147483648 ∧ baudRate = -1))
    (hq : Int.tdiv d.serial.baud_base baudRate ≠ 0)
    (hi : ∀ s v, n.cfsetispeed s v ≠ none) (ho : ∀ s v, n.cfsetospeed s v ≠ none) :
    Call.tiocsserial
        { d.serial with
          flags := setBits d.serial.flags ASYNC_SPD_CUST
          custom_divisor := Int.tdiv d.serial.baud_base baudRate } ∈
      (setParams b n d baudRate byteSize stopBits parity setRTS setDTR flags).calls ∧
    (n.tiocsserialOk = true →
      (byteSize = 5 ∨ byteSize = 6 ∨ byteSize = 7 ∨ byteSize = 8) →
      (stopBits = 0 ∨ stopBits = 1 ∨ stopBits = 2) →
      (parity = 0 ∨ parity = 1 ∨ parity = 2 ∨ parity = 3 ∨ parity = 4) →
      n.tcsetattrOk = true → n.tiocmgetOk = true → n.tiocmsetOk = true →
      (setParams b n d baudRate byteSize stopBits parity setRTS setDTR flags).ret = true) := by
  obtain ⟨s2, hs2⟩ := setSpeeds_isSome n { d.line with c_cflag := setBits d.line.c_cflag B38400 }
    B38400 hi ho
  have hdiv : intDiv d.serial.baud_base baudRate = some (Int.tdiv d.serial.baud_base baudRate) := by
    apply intDiv_of_no_trap
    rintro (h | h)
    · exact getBaudRateByNum_ne_zero baudRate hbaud h
    · exact hov h
  have hcalls : (baudStage b n d baudRate).2.2.1 =
      [Call.tcgetattr, Call.tiocgserial, Call.tiocsserial
        { d.serial with
          flags := setBits d.serial.flags ASYNC_SPD_CUST
          custom_divisor := Int.tdiv d.serial.baud_base baudRate }] := by
    cases h4 : n.tiocsserialOk <;>
      simp [baudStage, customBaud, hos, hbaud, hg, hgs, hdiv, hq, hs2, h4]
  have hsome : n.tiocsserialOk = true → (baudStage b n d baudRate).1 = some s2 := by
    intro h4
    simp [baudStage, customBaud, hos, hbaud, hg, hgs, hdiv, hq, hs2, h4]
  refine ⟨?_, ?_⟩
  · rcases setParams_cases b n d baudRate byteSize stopBits parity setRTS setDTR flags with
      ⟨h1, _⟩ | ⟨s, settings, _, _, h3⟩
    · rw [h1]
      show _ ∈ (baudStage b n d baudRate).2.2.1
      rw [hcalls]
      simp
    · obtain ⟨post, hp, _, _, _⟩ := commitStage_calls b n (baudStage b n d baudRate).2.1
        settings baudRate setRTS setDTR (baudStage b n d baudRate).2.2.1
      rw [h3, hp, hcalls]
      simp
  · intro h4 hb hs hp ht hmg hms
    rcases setParams_cases b n d baudRate byteSize stopBits parity setRTS setDTR flags with
      ⟨_, h1 | ⟨s, _, h1⟩⟩ | ⟨s, settings, _, _, h3⟩
    · rw [hsome h4] at h1
      exact absurd h1 (by simp)
    · obtain ⟨t, ht'⟩ := buildSettings_isSome b s byteSize stopBits parity flags hb hs hp
      rw [ht'] at h1
      exact absurd h1 (by simp)
    · rw [h3, commitStage_ret]
      simp [ht, hmg, hms, hos]

end Posix

/-- C24 fails: on Linux, with a base rate of 115200 and every native call succeeding,
`setParams` with baud rate 1 requests the custom divisor 115200 and returns true. -/
theorem setParams_baud_one_accepted :
    (Posix.setParams Posix.linuxBuild Posix.Native.allSucceed Posix.sampleDevice
      1 8 0 0 true true 0).ret = true ∧
    Posix.Call.tiocsserial { flags := 48, custom_divisor := 115200, baud_base := 115200 } ∈
      (Posix.setParams Posix.linuxBuild Posix.Native.allSucceed Posix.sampleDevice
        1 8 0 0 true true 0).calls := by
  exact ⟨by decide, by decide⟩

/-- C24, amended: on the POSIX backend `setParams` with baud rate 1 is not rejected by
a check of its own.  After a successful `tcgetattr` it returns false, leaving the
termios settings untouched, on a Solaris build, and on a Linux build when `TIOCGSERIAL`
fails, the base rate is 0 (zero divisor) or `TIOCSSERIAL` fails.  On a Linux build with
a non-zero base rate, when `tcgetattr`, `TIOCGSERIAL` and the speed setters succeed, it
requests the divisor base/1 = base, and it returns true when that request, `tcsetattr`
and the modem-control calls succeed and the fields are valid.  Whatever the first call
did, a following `setParams` with baud rate 9600 and valid fields returns true when the
native termios and modem-control calls succeed. -/
theorem setParams_baud_one_then_9600 (b : Posix.Build) (n1 n2 : Posix.Native)
    (d : Posix.Device) (byteSize stopBits parity : Int) (setRTS setDTR : Bool) (flags : Int) :
    (n1.tcgetattrOk = true →
      (b.os = Posix.OS.sunos ∨ (b.os = Posix.OS.linux ∧
        (n1.tiocgserialOk = false ∨ d.serial.baud_base = 0 ∨ n1.tiocsserialOk = false))) →
      (Posix.setParams b n1 d 1 byteSize stopBits parity setRTS setDTR flags).ret = false ∧
      (Posix.setParams b n1 d 1 byteSize stopBits parity setRTS setDTR flags).trapped = false ∧
      (Posix.setParams b n1 d 1 byteSize stopBits parity setRTS setDTR flags).dev.line =
        d.line) ∧
    (b.os = Posix.OS.linux → n1.tcgetattrOk = true → n1.tiocgserialOk = true →
      d.serial.baud_base ≠ 0 →
      (∀ s v, n1.cfsetispeed s v ≠ none) → (∀ s v, n1.cfsetospeed s v ≠ none) →
      Posix.Call.tiocsserial
          { d.serial with
            flags := setBits d.serial.flags Posix.ASYNC_SPD_CUST
            custom_divisor := d.serial.baud_base } ∈
        (Posix.setParams b n1 d 1 byteSize stopBits parity setRTS setDTR flags).calls ∧
      (Posix.setParams b n1 d 1 byteSize stopBits parity setRTS setDTR flags).trapped = false ∧
      (n1.tiocsserialOk = true →
        (byteSize = 5 ∨ byteSize = 6 ∨ byteSize = 7 ∨ byteSize = 8) →
        (stopBits = 0 ∨ stopBits = 1 ∨ stopBits = 2) →
        (parity = 0 ∨ parity = 1 ∨ parity = 2 ∨ parity = 3 ∨ parity = 4) →
        n1.tcsetattrOk = true → n1.tiocmgetOk = true → n1.tiocmsetOk = true →
        (Posix.setParams b n1 d 1 byteSize stopBits parity setRTS setDTR flags).ret = true)) ∧
    ((byteSize = 5 ∨ byteSize = 6 ∨ byteSize = 7 ∨ byteSize = 8) →
      (stopBits = 0 ∨ stopBits = 1 ∨ stopBits = 2) →
      (parity = 0 ∨ parity = 1 ∨ parity = 2 ∨ parity = 3 ∨ parity = 4) →
      n2.tcgetattrOk = true → (∀ s v, n2.cfsetispeed s v ≠ none) →
      (∀ s v, n2.cfsetospeed s v ≠ none) → n2.tcsetattrOk = true → n2.tiocmgetOk = true →
      n2.tiocmsetOk = true →
      (Posix.setParams b n2
        (Posix.setParams b n1 d 1 byteSize stopBits parity setRTS setDTR flags).dev
        9600 byteSize stopBits parity setRTS setDTR flags).ret = true) := by
  have hnt : (Posix.setParams b n1 d 1 byteSize stopBits parity setRTS setDTR flags).trapped
      = false :=
    Posix.setParams_not_trapped b n1 d 1 byteSize stopBits parity setRTS setDTR flags
      (Or.inl (by decide))
  refine ⟨?_, ?_, ?_⟩
  · intro hg h
    have h' : b.os = Posix.OS.sunos ∨ (b.os = Posix.OS.linux ∧
        (n1.tiocgserialOk = false ∨ Int.tdiv d.serial.baud_base 1 = 0 ∨
          n1.tiocsserialOk = false)) := by
      rcases h with h | ⟨h, h1 | h1 | h1⟩
      · exact Or.inl h
      · exact Or.inr ⟨h, Or.inl h1⟩
      · exact Or.inr ⟨h, Or.inr (Or.inl (by rw [h1]; rfl))⟩
      · exact Or.inr ⟨h, Or.inr (Or.inr h1)⟩
    refine ⟨?_, hnt, ?_⟩
    · rw [Posix.setParams_of_baudStage_none b n1 d 1 byteSize stopBits parity setRTS setDTR flags
        (Posix.baudStage_eq_none b n1 d 1 Posix.getBaudRateByNum_one hg h')]
    · rw [Posix.setParams_of_baudStage_none b n1 d 1 byteSize stopBits parity setRTS setDTR flags
        (Posix.baudStage_eq_none b n1 d 1 Posix.getBaudRateByNum_one hg h')]
      exact (Posix.baudStage_line b n1 d 1).1
  · intro hos hg hgs hbase hi ho
    have h := Posix.setParams_custom_accepted b n1 d 1 byteSize stopBits parity setRTS setDTR
      flags hos Posix.getBaudRateByNum_one hg hgs (fun h => absurd h.2 (by decide))
      (by rw [Int.tdiv_one]; exact hbase) hi ho
    rw [Int.tdiv_one] at h
    exact ⟨h.1, hnt, h.2⟩
  · intro hb hs hp hg hi ho ht hmg hms
    exact Posix.setParams_ret_true b n2 _ 9600 byteSize stopBits parity setRTS setDTR flags
      (by decide) hb hs hp hg hi ho ht hmg hms

/-- Witness of C24 (amended): on Linux with a failing `TIOCGSERIAL`, baud rate 1
returns false; with every native call succeeding it requests the divisor 115200 and
returns true; the following call with 9600 baud returns true. -/
theorem setParams_baud_one_then_9600_witness :
    (Posix.setParams Posix.linuxBuild { Posix.Native.allSucceed with tiocgserialOk := false }
      Posix.sampleDevice 1 8 0 0 true true 0).ret = false ∧
    Posix.Call.tiocsserial
        { Posix.sampleDevice.serial with
          flags := setBits Posix.sampleDevice.serial.flags Posix.ASYNC_SPD_CUST
          custom_divisor := Posix.sampleDevice.serial.baud_base } ∈
      (Posix.setParams Posix.linuxBuild Posix.Native.allSucceed Posix.sampleDevice
        1 8 0 0 true true 0).calls ∧
    (Posix.setParams Posix.linuxBuild Posix.Native.allSucceed
      (Posix.setParams Posix.linuxBuild { Posix.Native.allSucceed with tiocgserialOk := false }
        Posix.sampleDevice 1 8 0 0 true true 0).dev 9600 8 0 0 true true 0).ret = true := by
  have hi : ∀ s v, Posix.Native.allSucceed.cfsetispeed s v ≠ none := by
    intro s v
    simp [Posix.Native.allSucceed]
  have ho : ∀ s v, Posix.Native.allSucceed.cfsetospeed s v ≠ none := by
    intro s v
    simp [Posix.Native.allSucceed]
  have h := setParams_baud_one_then_9600 Posix.linuxBuild
    { Posix.Native.allSucceed with tiocgserialOk := false } Posix.Native.allSucceed
    Posix.sampleDevice 8 0 0 true true 0
  have h' := setParams_baud_one_then_9600 Posix.linuxBuild Posix.Native.allSucceed
    Posix.Native.allSucceed Posix.sampleDevice 8 0 0 true true 0
  exact ⟨(h.1 rfl (Or.inr ⟨rfl, Or.inl rfl⟩)).1,
    (h'.2.1 rfl rfl rfl (by decide) hi ho).1,
    h.2.2 (by decide) (by decide) (by decide) rfl hi ho rfl rfl rfl⟩

namespace Posix

theorem baudStage_of_tcgetattr_failure (b : Build) (n : Native) (d : Device) (baudRate : Int)
    (hg : n.tcgetattrOk = false) :
    baudStage b n d baudRate = (some Termios.zero, d, [Call.tcgetattr], false) := by
  simp [baudStage, hg]

end Posix

/-- C26 fails on the code: when the initial `tcgetattr` fails, `setParams` with valid
fields does not abort: it builds the settings from the zero-initialised structure,
skipping the baud rate, passes them to `tcsetattr` and returns true when `tcsetattr` and
the modem-control calls succeed. -/
theorem setParams_tcgetattr_failure_not_aborted (b : Posix.Build) (n : Posix.Native)
    (d : Posix.Device) (baudRate byteSize stopBits parity : Int) (setRTS setDTR : Bool)
    (flags : Int) (hg : n.tcgetattrOk = false)
    (hb : byteSize = 5 ∨ byteSize = 6 ∨ byteSize = 7 ∨ byteSize = 8)
    (hs : stopBits = 0 ∨ stopBits = 1 ∨ stopBits = 2)
    (hp : parity = 0 ∨ parity = 1 ∨ parity = 2 ∨ parity = 3 ∨ parity = 4) :
    (∃ t, Posix.buildSettings b Posix.Termios.zero byteSize stopBits parity flags = some t ∧
      Posix.Call.tcsetattr t ∈
        (Posix.setParams b n d baudRate byteSize stopBits parity setRTS setDTR flags).calls) ∧
    (Posix.getBaudRateByNum baudRate ≠ Posix.NO_BAUD → n.tcsetattrOk = true →
      n.tiocmgetOk = true → n.tiocmsetOk = true →
      (Posix.setParams b n d baudRate byteSize stopBits parity setRTS setDTR flags).ret = true) := by
  have hbs := Posix.baudStage_of_tcgetattr_failure b n d baudRate hg
  obtain ⟨t, ht⟩ := Posix.buildSettings_isSome b Posix.Termios.zero byteSize stopBits parity flags
    hb hs hp
  rcases Posix.setParams_cases b n d baudRate byteSize stopBits parity setRTS setDTR flags with
    ⟨_, h1 | ⟨s, hs1, h1⟩⟩ | ⟨s, settings, hs1, hs2, h3⟩
  · rw [hbs] at h1
    exact absurd h1 (by simp)
  · rw [hbs] at hs1
    simp only [Option.some.injEq] at hs1
    subst hs1
    rw [ht] at h1
    exact absurd h1 (by simp)
  · rw [hbs] at hs1
    simp only [Option.some.injEq] at hs1
    subst hs1
    rw [ht] at hs2
    simp only [Option.some.injEq] at hs2
    subst hs2
    obtain ⟨post, hp', _, _, _⟩ := Posix.commitStage_calls b n (Posix.baudStage b n d baudRate).2.1
      t baudRate setRTS setDTR (Posix.baudStage b n d baudRate).2.2.1
    refine ⟨⟨t, ht, ?_⟩, ?_⟩
    · rw [h3, hp']
      simp
    · intro hbaud htc hmg hms
      rw [h3, Posix.commitStage_ret]
      simp [htc, hmg, hms, hbaud]

/-- Failing input of C26: 9600 baud 8N1 on Linux with a failing `tcgetattr` and every
other native call succeeding: the call returns true after a `tcsetattr`, and the
settings in effect carry no speed. -/
theorem setParams_tcgetattr_failure_not_aborted_witness :
    (Posix.setParams Posix.linuxBuild { Posix.Native.allSucceed with tcgetattrOk := false }
      Posix.sampleDevice 9600 8 0 0 true true 0).ret = true ∧
    (Posix.setParams Posix.linuxBuild { Posix.Native.allSucceed with tcgetattrOk := false }
      Posix.sampleDevice 9600 8 0 0 true true 0).calls.map Posix.Call.isTcsetattr =
      [false, true, false, false] ∧
    (Posix.setParams Posix.linuxBuild { Posix.Native.allSucceed with tcgetattrOk := false }
      Posix.sampleDevice 9600 8 0 0 true true 0).dev.line.c_ospeed = 0 := by
  have h := setParams_tcgetattr_failure_not_aborted Posix.linuxBuild
    { Posix.Native.allSucceed with tcgetattrOk := false } Posix.sampleDevice 9600 8 0 0 true true
    0 rfl (by decide) (by decide) (by decide)
  exact ⟨h.2 (by decide) rfl rfl rfl, by decide, by decide⟩

/-! ## Flow control after a reconfiguration -/

namespace Posix

/-- After a successful `setParams` the settings in effect are settings built by
`buildSettings`. -/
theorem setParams_ret_true_line {b : Build} {n : Native} {d : Device}
    {baudRate byteSize stopBits parity : Int} {setRTS setDTR : Bool} {flags : Int}
    (h : (setParams b n d baudRate byteSize stopBits parity setRTS setDTR flags).ret = true) :
    ∃ s, buildSettings b s byteSize stopBits parity flags =
      some (setParams b n d baudRate byteSize stopBits parity setRTS setDTR flags).dev.line := by
  rcases setParams_cases b n d baudRate byteSize stopBits parity setRTS setDTR flags with
    ⟨h1, _⟩ | ⟨s, settings, _, h2, h3⟩
  · rw [h1] at h
    exact absurd h (by simp)
  · rw [h3] at h ⊢
    obtain ⟨post, _, _, hl, _⟩ := commitStage_calls b n (baudStage b n d baudRate).2.1
      settings baudRate setRTS setDTR (baudStage b n d baudRate).2.2.1
    have ht : n.tcsetattrOk = true := by
      rw [commitStage_ret] at h
      cases hc : n.tcsetattrOk
      · rw [hc] at h
        simp at h
      · rfl
    rw [hl ht]
    exact ⟨s, h2⟩

end Posix

/-- C28: on both backends `setParams` discards any flow-control mode set earlier: for
every prior state and every input, `getFlowControlMode` on the state left by a
successful `setParams` returns 0. -/
theorem setParams_resets_flow_control (b : Posix.Build) (n : Posix.Native) (d : Posix.Device)
    (w : Windows.Native) (cur : Windows.DCB)
    (baudRate byteSize stopBits parity : Int) (setRTS setDTR : Bool) (flags : Int) :
    ((Posix.setParams b n d baudRate byteSize stopBits parity setRTS setDTR flags).ret = true →
      Posix.getFlowControlMode true
        (Posix.setParams b n d baudRate byteSize stopBits parity setRTS setDTR flags).dev = 0) ∧
    ((Windows.setParams w cur baudRate byteSize stopBits parity setRTS setDTR flags).ret = true →
      Windows.getFlowControlMode true
        (Windows.setParams w cur baudRate byteSize stopBits parity setRTS setDTR flags).dcb
          = 0) := by
  refine ⟨?_, ?_⟩
  · intro h
    obtain ⟨s, hs⟩ := Posix.setParams_ret_true_line h
    obtain ⟨s1, s2, _, _, h3⟩ := Posix.buildSettings_eq_some hs
    obtain ⟨_, io⟩ := Posix.applyParity_iflag h3
    obtain ⟨_, _, _, _, _, _, i10, _, i12⟩ := Posix.applyRaw_iflag_raw b s2 flags
    obtain ⟨_, _, c31, _⟩ := Posix.applyRaw_cflag b s2 flags
    have k31 := Posix.applyParity_cflag_other h3 31 (by decide) (by decide) (by decide)
      (by decide)
    have e31 : anySet (Posix.setParams b n d baudRate byteSize stopBits parity setRTS setDTR
        flags).dev.line.c_cflag Posix.CRTSCTS = false := by
      rw [show Posix.CRTSCTS = 2 ^ 31 from rfl, anySet_two_pow, k31, c31]
    have e12 : anySet (Posix.setParams b n d baudRate byteSize stopBits parity setRTS setDTR
        flags).dev.line.c_iflag Posix.IXOFF = false := by
      rw [show Posix.IXOFF = 2 ^ 12 from rfl, anySet_two_pow, io 12 (by decide), i12]
    have e10 : anySet (Posix.setParams b n d baudRate byteSize stopBits parity setRTS setDTR
        flags).dev.line.c_iflag Posix.IXON = false := by
      rw [show Posix.IXON = 2 ^ 10 from rfl, anySet_two_pow, io 10 (by decide), i10]
    unfold Posix.getFlowControlMode
    rw [e31, e12, e10]
    rfl
  · intro h
    obtain ⟨g, s, t⟩ := w
    cases g <;> cases s <;> cases t <;> simp [Windows.setParams] at h
    cases setRTS <;>
      simp [Windows.setParams, Windows.getFlowControlMode, Windows.RTS_CONTROL_HANDSHAKE,
        Windows.RTS_CONTROL_ENABLE, Windows.RTS_CONTROL_DISABLE]

/-- Witness of C28: after `setFlowControlMode(15)` a successful `setParams` makes
`getFlowControlMode` return 0 on both backends. -/
theorem setParams_resets_flow_control_witness :
    Posix.getFlowControlMode true
      (Posix.setFlowControlMode ⟨true, true⟩ Posix.sampleDevice 15).dev = 15 ∧
    Posix.getFlowControlMode true
      (Posix.setParams Posix.linuxBuild Posix.Native.allSucceed
        (Posix.setFlowControlMode ⟨true, true⟩ Posix.sampleDevice 15).dev
        9600 8 0 0 true true 0).dev = 0 ∧
    Windows.getFlowControlMode true
      (Windows.setParams ⟨true, true, true⟩
        (Windows.setFlowControlMode ⟨true, true, true⟩ Windows.sampleDCB 15).dcb
        9600 8 0 0 true true 0).dcb = 0 := by
  have h := setParams_resets_flow_control Posix.linuxBuild Posix.Native.allSucceed
    (Posix.setFlowControlMode ⟨true, true⟩ Posix.sampleDevice 15).dev ⟨true, true, true⟩
    (Windows.setFlowControlMode ⟨true, true, true⟩ Windows.sampleDCB 15).dcb
    9600 8 0 0 true true 0
  exact ⟨by decide, h.1 (by decide), h.2 (by decide)⟩

/-! ## Windows `setParams` and `setFlowControlMode`: what they store -/

/-- C29 fails: the arguments are not stored verbatim.  With byteSize = 264 the control
block passed to `SetCommState` holds `ByteSize = 8`, the low 8 bits of the argument. -/
theorem windows_setParams_byteSize_truncated :
    (Windows.setParams ⟨true, true, true⟩ Windows.sampleDCB 9600 264 0 0 true true 0).calls.filter
        Windows.Call.isSetCommState =
      [Windows.Call.setCommState
        (Windows.setParams ⟨true, true, true⟩ Windows.sampleDCB 9600 264 0 0 true true 0).dcb] ∧
    (Windows.setParams ⟨true, true, true⟩ Windows.sampleDCB 9600 264 0 0 true true 0).dcb.ByteSize
      = 8 ∧
    (((Windows.setParams ⟨true, true, true⟩ Windows.sampleDCB 9600 264 0 0 true true
      0).dcb.ByteSize : Nat) : Int) ≠ 264 := by
  refine ⟨by decide, by decide, by decide⟩

/-- C29, amended: on the Windows backend `setParams` does not depend on its flags
argument: two calls that differ only in flags return the same result, control block and
native calls.  When `GetCommState` succeeds exactly one control block is passed to
`SetCommState`; the other arguments are stored in it without any table lookup or check,
converted to the field types of the control block: `BaudRate` is baudRate as an
unsigned 32-bit value, `ByteSize`, `StopBits` and `Parity` are the low 8 bits of
byteSize, stopBits and parity.  Each field equals its argument whenever the argument
fits the field. -/
theorem windows_setParams_ignores_flags (n : Windows.Native) (cur : Windows.DCB)
    (baudRate byteSize stopBits parity : Int) (setRTS setDTR : Bool) (flags flags' : Int) :
    Windows.setParams n cur baudRate byteSize stopBits parity setRTS setDTR flags =
      Windows.setParams n cur baudRate byteSize stopBits parity setRTS setDTR flags' ∧
    (n.getCommStateOk = true →
      ∃ dcb, (Windows.setParams n cur baudRate byteSize stopBits parity setRTS setDTR
        flags).calls.filter Windows.Call.isSetCommState = [Windows.Call.setCommState dcb]) ∧
    (∀ dcb, Windows.Call.setCommState dcb ∈
        (Windows.setParams n cur baudRate byteSize stopBits parity setRTS setDTR flags).calls →
      dcb.BaudRate = toU32 baudRate ∧ dcb.ByteSize = Windows.toByte byteSize ∧
      dcb.StopBits = Windows.toByte stopBits ∧ dcb.Parity = Windows.toByte parity ∧
      (0 ≤ baudRate → baudRate ≤ 4294967295 → (dcb.BaudRate : Int) = baudRate) ∧
      (0 ≤ byteSize → byteSize ≤ 255 → (dcb.ByteSize : Int) = byteSize) ∧
      (0 ≤ stopBits → stopBits ≤ 255 → (dcb.StopBits : Int) = stopBits) ∧
      (0 ≤ parity → parity ≤ 255 → (dcb.Parity : Int) = parity)) := by
  have conv : ∀ x : Int, 0 ≤ x → x ≤ 255 → ((Windows.toByte x : Nat) : Int) = x := by
    intro x h0 h1
    unfold Windows.toByte toU32
    omega
  have conv32 : ∀ x : Int, 0 ≤ x → x ≤ 4294967295 → ((toU32 x : Nat) : Int) = x := by
    intro x h0 h1
    unfold toU32
    omega
  refine ⟨rfl, ?_, ?_⟩
  · intro hg
    obtain ⟨g, s, t⟩ := n
    simp only at hg
    subst hg
    cases s <;> simp [Windows.setParams, Windows.Call.isSetCommState]
  · intro dcb hd
    obtain ⟨g, s, t⟩ := n
    cases g <;> cases s <;> simp [Windows.setParams] at hd <;> subst hd <;>
      exact ⟨rfl, rfl, rfl, rfl, conv32 baudRate, conv byteSize, conv stopBits, conv parity⟩

/-- Witness of C29 (amended): 19200 baud, 7 data bits, two stop bits, even parity: the
control block passed to `SetCommState` holds 19200, 7, 2 and 2, whatever the flags. -/
theorem windows_setParams_ignores_flags_witness :
    Windows.setParams ⟨true, true, true⟩ Windows.sampleDCB 19200 7 2 2 true false 0 =
      Windows.setParams ⟨true, true, true⟩ Windows.sampleDCB 19200 7 2 2 true false 3 ∧
    (Windows.setParams ⟨true, true, true⟩ Windows.sampleDCB 19200 7 2 2 true false 0).dcb.BaudRate
      = toU32 19200 ∧
    (Windows.setParams ⟨true, true, true⟩ Windows.sampleDCB 19200 7 2 2 true false 0).dcb.ByteSize
      = Windows.toByte 7 ∧
    (((Windows.setParams ⟨true, true, true⟩ Windows.sampleDCB 19200 7 2 2 true false
      0).dcb.ByteSize : Nat) : Int) = 7 := by
  have h := windows_setParams_ignores_flags ⟨true, true, true⟩ Windows.sampleDCB 19200 7 2 2
    true false 0 3
  have h' := h.2.2 (Windows.setParams ⟨true, true, true⟩ Windows.sampleDCB 19200 7 2 2 true false
    0).dcb (by decide)
  exact ⟨h.1, h'.1, h'.2.1, h'.2.2.2.2.2.1 (by decide) (by decide)⟩

namespace Windows

/-- The control block after a successful `setFlowControlMode`. -/
theorem setFlowControlMode_dcb (n : Native) (cur : DCB) (m : Int)
    (hret : (setFlowControlMode n cur m).ret = true) :
    (setFlowControlMode n cur m).dcb =
      { cur with
        fRtsControl :=
          if allSet (toU32 m) FLOWCONTROL_RTSCTS_IN then RTS_CONTROL_HANDSHAKE
          else RTS_CONTROL_ENABLE
        fOutxCtsFlow := allSet (toU32 m) FLOWCONTROL_RTSCTS_OUT
        fOutX := allSet (toU32 m) FLOWCONTROL_XONXOFF_OUT
        fInX := allSet (toU32 m) FLOWCONTROL_XONXOFF_IN } := by
  obtain ⟨g, s, t⟩ := n
  unfold setFlowControlMode at hret ⊢
  cases g <;> cases s <;> simp at hret
  simp only [if_true]
  by_cases hm : m = FLOWCONTROL_NONE
  · subst hm
    rfl
  · simp only [ne_eq, hm, not_false_eq_true, if_true]
    cases allSet (toU32 m) FLOWCONTROL_RTSCTS_IN <;>
      cases allSet (toU32 m) FLOWCONTROL_RTSCTS_OUT <;>
      cases allSet (toU32 m) FLOWCONTROL_XONXOFF_IN <;>
      cases allSet (toU32 m) FLOWCONTROL_XONXOFF_OUT <;> rfl

end Windows

/-- C30: on the Windows backend a successful `setFlowControlMode(m)` whose mask has the
RTS/CTS-in bit clear leaves the RTS control of the control block at 'enabled', whatever
it was before, and a mask with that bit set leaves it at 'handshake'; of the control
block only the RTS-control, CTS-output-flow, XON/XOFF-out and XON/XOFF-in fields are
changed. -/
theorem windows_setFlowControlMode_rts_control (n : Windows.Native) (cur : Windows.DCB)
    (m : Int) (hret : (Windows.setFlowControlMode n cur m).ret = true) :
    (allSet (toU32 m) Windows.FLOWCONTROL_RTSCTS_IN = false →
      (Windows.setFlowControlMode n cur m).dcb.fRtsControl = Windows.RTS_CONTROL_ENABLE) ∧
    (allSet (toU32 m) Windows.FLOWCONTROL_RTSCTS_IN = true →
      (Windows.setFlowControlMode n cur m).dcb.fRtsControl = Windows.RTS_CONTROL_HANDSHAKE) ∧
    (Windows.setFlowControlMode n cur m).dcb =
      { cur with
        fRtsControl := (Windows.setFlowControlMode n cur m).dcb.fRtsControl
        fOutxCtsFlow := (Windows.setFlowControlMode n cur m).dcb.fOutxCtsFlow
        fOutX := (Windows.setFlowControlMode n cur m).dcb.fOutX
        fInX := (Windows.setFlowControlMode n cur m).dcb.fInX } := by
  rw [Windows.setFlowControlMode_dcb n cur m hret]
  refine ⟨?_, ?_, rfl⟩
  · intro h
    show (if allSet (toU32 m) Windows.FLOWCONTROL_RTSCTS_IN = true then
      Windows.RTS_CONTROL_HANDSHAKE else Windows.RTS_CONTROL_ENABLE) = Windows.RTS_CONTROL_ENABLE
    rw [h]
    rfl
  · intro h
    show (if allSet (toU32 m) Windows.FLOWCONTROL_RTSCTS_IN = true then
      Windows.RTS_CONTROL_HANDSHAKE else Windows.RTS_CONTROL_ENABLE) =
      Windows.RTS_CONTROL_HANDSHAKE
    rw [h]
    rfl

/-- Witness of C30: after `setParams` with setRTS = false (RTS control 'disabled'),
`setFlowControlMode(0)` leaves the RTS control at 'enabled' (1), and
`setFlowControlMode(1)` at 'handshake' (2). -/
theorem windows_setFlowControlMode_rts_control_witness :
    (Windows.setParams ⟨true, true, true⟩ Windows.sampleDCB 9600 8 0 0 false true 0).dcb.fRtsControl
      = 0 ∧
    (Windows.setFlowControlMode ⟨true, true, true⟩
      (Windows.setParams ⟨true, true, true⟩ Windows.sampleDCB 9600 8 0 0 false true 0).dcb
      0).dcb.fRtsControl = 1 ∧
    (Windows.setFlowControlMode ⟨true, true, true⟩
      (Windows.setParams ⟨true, true, true⟩ Windows.sampleDCB 9600 8 0 0 false true 0).dcb
      1).dcb.fRtsControl = 2 := by
  have h0 := windows_setFlowControlMode_rts_control ⟨true, true, true⟩
    (Windows.setParams ⟨true, true, true⟩ Windows.sampleDCB 9600 8 0 0 false true 0).dcb 0
    (by decide)
  have h1 := windows_setFlowControlMode_rts_control ⟨true, true, true⟩
    (Windows.setParams ⟨true, true, true⟩ Windows.sampleDCB 9600 8 0 0 false true 0).dcb 1
    (by decide)
  exact ⟨by decide, h0.1 (by decide), h1.2.1 (by decide)⟩
